import Mathlib

/-!
Frame lifecycle and swapchain management of `VulkanApp` (src/src/main.cpp).

A shallow embedding of the frame executor (`VulkanApp::render`), the swapchain
manager (`createSwapChain`, `cleanupSwapChainRelatedData`,
`recreateSwapChainRelatedData`, `createFrameBuffers`, the colour/depth attachment
helpers), of the start-up sequence (`initializeVulkanCore`, `initialize`) and of the
teardown (`terminate`).

* Vulkan handles are natural numbers, `VK_NULL_HANDLE` is `0`.
* The driver is an explicit environment: every call whose result the code
  inspects takes its result (and the handle it writes) from an environment record.
* Every driver call the frame executor and the swapchain manager issue is appended to a
  list of `Call`s, in program order.
* An out-of-bounds subscript of an array is undefined behaviour in the source; the
  embedding returns `none` there.
* `u32` arithmetic is arithmetic on `Nat` reduced modulo `2^32` where it can wrap.
-/

namespace sb

/-! ## Constants and plain data -/

abbrev Handle := Nat

def VK_NULL_HANDLE : Handle := 0

def UINT32_MAX : Nat := 4294967295

/-- Value of `static constexpr u32 MAX_INFLIGHT_FRAMES = 2;` (main.cpp:128). -/
def MAX_INFLIGHT_FRAMES : Nat := 2

/-- Vulkan header value of `VK_FORMAT_UNDEFINED`. -/
def VK_FORMAT_UNDEFINED : Nat := 0

/-- Vulkan header value of `VK_FORMAT_B8G8R8_SRGB`. -/
def VK_FORMAT_B8G8R8_SRGB : Nat := 36

/-- Vulkan header value of `VK_COLOR_SPACE_SRGB_NONLINEAR_KHR`. -/
def VK_COLOR_SPACE_SRGB_NONLINEAR_KHR : Nat := 0

/-- Vulkan header value of `VK_PRESENT_MODE_MAILBOX_KHR`. -/
def VK_PRESENT_MODE_MAILBOX_KHR : Nat := 1

/-- Vulkan header value of `VK_PRESENT_MODE_FIFO_KHR`. -/
def VK_PRESENT_MODE_FIFO_KHR : Nat := 2

/-- The `VkResult` codes the frame loop distinguishes, and a few of the error codes
that fall in its "anything else" branches. -/
inductive VkResult
  | VK_SUCCESS
  | VK_NOT_READY
  | VK_TIMEOUT
  | VK_SUBOPTIMAL_KHR
  | VK_ERROR_OUT_OF_DATE_KHR
  | VK_ERROR_OUT_OF_HOST_MEMORY
  | VK_ERROR_OUT_OF_DEVICE_MEMORY
  | VK_ERROR_DEVICE_LOST
  | VK_ERROR_SURFACE_LOST_KHR
  deriving DecidableEq, Repr

structure VkExtent2D where
  width : Nat
  height : Nat
  deriving DecidableEq, Repr

structure VkSurfaceFormatKHR where
  format : Nat
  colorSpace : Nat
  deriving DecidableEq, Repr

structure VkSurfaceCapabilitiesKHR where
  minImageCount : Nat
  maxImageCount : Nat
  currentExtent : VkExtent2D
  minImageExtent : VkExtent2D
  maxImageExtent : VkExtent2D
  deriving DecidableEq, Repr

/-- The `VkSurfaceSwapChainProperties` of utility_vulkan.h. -/
structure VkSurfaceSwapChainProperties where
  caps : VkSurfaceCapabilitiesKHR
  formats : List VkSurfaceFormatKHR
  present_modes : List Nat
  deriving DecidableEq, Repr

/-- The `VkBufferMem` of utility_vulkan.h. -/
structure VkBufferMem where
  buffer : Handle
  memory : Handle
  deriving DecidableEq, Repr

/-- The `VkImageMem` of utility_vulkan.h. -/
structure VkImageMem where
  image : Handle
  memory : Handle
  deriving DecidableEq, Repr

inductive DemoMode
  | TRIANGLE
  | QUAD
  | MODEL
  deriving DecidableEq, Repr

/-- The fields of `VulkanApp::DemoModel` that the frame loop reads. -/
structure DemoModel where
  vb : VkBufferMem
  ib : VkBufferMem
  idx_cnt : Nat
  deriving DecidableEq, Repr

/-! ## Driver calls -/

/-- The driver calls issued by the embedded functions, with the arguments that
identify the object they act on. Calls whose result steers the frame loop carry it. -/
inductive Call
  | vkWaitForFences (fence : Handle)
  | vkAcquireNextImageKHR (swapchain : Handle) (semaphore : Handle) (res : VkResult)
  | vkDeviceWaitIdle
  | vkDestroyFramebuffer (frame_buffer : Handle)
  | vkDestroyImageView (image_view : Handle)
  | vkDestroySwapchainKHR (swapchain : Handle)
  | vkFreeMemory (memory : Handle)
  | vkDestroyImage (image : Handle)
  | vkCreateSwapchainKHR (ext : VkExtent2D) (min_image_count : Nat) (fmt : VkSurfaceFormatKHR)
      (present_mode : Nat) (res : VkResult)
  | vkGetSwapchainImagesKHR (swapchain : Handle)
  | vkCreateImageView (image : Handle) (res : VkResult)
  | vkCreateImage (ext : VkExtent2D) (fmt : Nat) (res : VkResult)
  | vkAllocateMemory (res : VkResult)
  | vkBindImageMemory (image : Handle) (memory : Handle)
  | vkCreateFramebuffer (attachments : List Handle) (ext : VkExtent2D) (res : VkResult)
  | vkCreateCommandPool (res : VkResult)
  | vkCreateSemaphore (res : VkResult)
  | vkCreateFence (signaled : Bool) (res : VkResult)
  | vkMapMemory (memory : Handle)
  | memcpy (memory : Handle)
  | vkUnmapMemory (memory : Handle)
  | vkFreeCommandBuffers (cmd_buffer : Handle)
  | vkAllocateCommandBuffers (res : VkResult)
  | vkBeginCommandBuffer (cmd_buffer : Handle) (res : VkResult)
  | vkCmdBeginRenderPass (cmd_buffer : Handle) (frame_buffer : Handle) (ext : VkExtent2D)
  | vkCmdBindPipeline (cmd_buffer : Handle) (pipeline : Handle)
  | vkCmdSetViewport (cmd_buffer : Handle) (ext : VkExtent2D)
  | vkCmdSetScissor (cmd_buffer : Handle) (ext : VkExtent2D)
  | vkCmdBindDescriptorSets (cmd_buffer : Handle) (desc_set : Handle)
  | vkCmdBindVertexBuffers (cmd_buffer : Handle) (vb : Handle)
  | vkCmdBindIndexBuffer (cmd_buffer : Handle) (ib : Handle)
  | vkCmdDraw (cmd_buffer : Handle) (vertex_cnt : Nat)
  | vkCmdDrawIndexed (cmd_buffer : Handle) (index_cnt : Nat)
  | vkCmdEndRenderPass (cmd_buffer : Handle)
  | vkEndCommandBuffer (cmd_buffer : Handle)
  | vkResetFences (fence : Handle)
  | vkQueueSubmit (wait_sem : Handle) (cmd_buffer : Handle) (signal_sem : Handle)
      (fence : Handle) (res : VkResult)
  | vkQueuePresentKHR (swapchain : Handle) (img_idx : Nat) (wait_sem : Handle) (res : VkResult)
  deriving DecidableEq, Repr

/-! ## Application state -/

/-- The data members of `class VulkanApp` (main.cpp:130-188) that the embedded
functions read or write. -/
structure VulkanApp where
  _vk_device : Handle
  _vk_graphics_queue : Handle
  _vk_present_queue : Handle
  _vk_swapchain : Handle
  _vk_swapchain_imgs : List Handle
  _vk_swapchain_imgs_view : List Handle
  _vk_swapchain_ext : VkExtent2D
  _vk_swapchain_fmt : Nat
  _vk_pipeline_layout : Handle
  _vk_desc_sets : List Handle
  _vk_render_pass : Handle
  _vk_graphics_pipeline : Handle
  _vk_frame_buffers : List Handle
  _vk_graphics_cmd_pool : Handle
  _vk_cmd_buffers : List Handle
  _vk_image_available_sems : List Handle
  _vk_render_finished_sems : List Handle
  _vk_inflight_fences : List Handle
  _vk_inuse_fences : List Handle
  _vk_color_image : VkImageMem
  _vk_color_image_view : Handle
  _model : DemoModel
  _vk_depth_fmt : Nat
  _vk_depth_image : VkImageMem
  _vk_depth_image_view : Handle
  _vk_triangle_vb : Handle
  _vk_quad_vb : Handle
  _vk_quad_ib : Handle
  _vk_mvp_buffers : List VkBufferMem
  _target_frame_buffer_ext : VkExtent2D
  _current_frame : Nat
  _demo_mode : DemoMode
  deriving DecidableEq, Repr

/-- The outcome of running one embedded function: the state it leaves, the driver
calls it issued in order, and its return value. -/
structure Run (α : Type) where
  app : VulkanApp
  calls : List Call
  ret : α
  deriving DecidableEq

/-! ## Driver environments -/

/-- What the driver answers during one `createSwapChain` call. -/
structure SwapChainEnv where
  props : VkSurfaceSwapChainProperties
  create_res : VkResult
  swapchain : Handle
  images : List Handle
  view_res : Nat → VkResult
  view : Nat → Handle

/-- What the driver answers during one `createVkImage` call and the image-view
creation that follows it. -/
structure ImageEnv where
  image_res : VkResult
  image : Handle
  memory_res : VkResult
  memory : Handle
  view_res : VkResult
  view : Handle

/-- What the driver answers during one `recreateSwapChainRelatedData` call. -/
structure RebuildEnv where
  swapchain : SwapChainEnv
  color : ImageEnv
  depth_fmt : Nat
  depth : ImageEnv
  fb_res : Nat → VkResult
  fb : Nat → Handle

/-- What the driver answers during one `render` call. `acquire_img` is the value
`vkAcquireNextImageKHR` stores through `&img_idx`, `none` when it stores nothing. -/
structure FrameEnv where
  acquire_res : VkResult
  acquire_img : Option Nat
  acquire_rebuild : RebuildEnv
  alloc_res : VkResult
  alloc_cmd : Handle
  begin_res : VkResult
  submit_res : VkResult
  present_res : VkResult
  present_rebuild : RebuildEnv

namespace VulkanApp

/-! ## Swapchain manager -/

/-- Source `VulkanApp::notifyTargetFrameBufferResized` (main.cpp:234-237). -/
def notifyTargetFrameBufferResized (s : VulkanApp) (frame_buffer_ext : VkExtent2D) : VulkanApp :=
  { s with _target_frame_buffer_ext := frame_buffer_ext }

/-- Surface-format choice of `createSwapChain` (main.cpp:836-848): the loop keeps the
first preferred entry, and `formats[0]` is read when the result is still undefined. -/
def selectSurfaceFormat (formats : List VkSurfaceFormatKHR) : Option VkSurfaceFormatKHR :=
  let swapchain_surface_fmt : VkSurfaceFormatKHR :=
    (formats.find? (fun fmt => fmt.format == VK_FORMAT_B8G8R8_SRGB &&
      fmt.colorSpace == VK_COLOR_SPACE_SRGB_NONLINEAR_KHR)).getD ⟨VK_FORMAT_UNDEFINED, 0⟩
  if swapchain_surface_fmt.format = VK_FORMAT_UNDEFINED then formats[0]?
  else some swapchain_surface_fmt

/-- Present-mode choice of `createSwapChain` (main.cpp:850-858). -/
def selectPresentMode (present_modes : List Nat) : Nat :=
  if present_modes.any (fun mode_iter => mode_iter == VK_PRESENT_MODE_MAILBOX_KHR) then
    VK_PRESENT_MODE_MAILBOX_KHR
  else VK_PRESENT_MODE_FIFO_KHR

/-- Extent derivation of `createSwapChain` (main.cpp:860-873). -/
def selectExtent (caps : VkSurfaceCapabilitiesKHR) (frame_buffer_ext : VkExtent2D) : VkExtent2D :=
  if caps.currentExtent.width ≠ UINT32_MAX then caps.currentExtent
  else
    { width := max caps.minImageExtent.width (min frame_buffer_ext.width caps.maxImageExtent.width)
      height :=
        max caps.minImageExtent.height (min frame_buffer_ext.height caps.maxImageExtent.height) }

/-- Image-count choice of `createSwapChain` (main.cpp:875-880), in `u32` arithmetic. -/
def selectImageCount (caps : VkSurfaceCapabilitiesKHR) : Nat :=
  let swapchain_img_cnt := (caps.minImageCount + 1) % 2 ^ 32
  if caps.minImageCount > 0 ∧ swapchain_img_cnt > caps.maxImageCount then caps.maxImageCount
  else swapchain_img_cnt

/-- The image-view loop of `createSwapChain` (main.cpp:938-964): one
`vkCreateImageView` per image, pushed onto `_vk_swapchain_imgs_view`; the first
failure returns `false` and keeps the views pushed so far. `k` counts the calls made. -/
def createSwapChainViews (env : SwapChainEnv) :
    List Handle → Nat → List Handle → List Call → List Handle × List Call × Bool
  | [], _, views, calls => (views, calls, true)
  | img :: imgs, k, views, calls =>
    if env.view_res k ≠ VkResult.VK_SUCCESS then
      (views, calls ++ [Call.vkCreateImageView img (env.view_res k)], false)
    else
      createSwapChainViews env imgs (k + 1) (views ++ [env.view k])
        (calls ++ [Call.vkCreateImageView img (env.view_res k)])

/-- Source `VulkanApp::createSwapChain` (main.cpp:832-967). The images are those the driver
reports; the debug assertion `sbAssert(img_cnt == swapchain_img_cnt)` (main.cpp:933) has
no effect on the state and is not part of the embedding. -/
def createSwapChain (s : VulkanApp) (frame_buffer_ext : VkExtent2D) (env : SwapChainEnv) :
    Option (Run Bool) :=
  match selectSurfaceFormat env.props.formats with
  | none => none
  | some swapchain_surface_fmt =>
    let swapchain_present_mode := selectPresentMode env.props.present_modes
    let swapchain_ext := selectExtent env.props.caps frame_buffer_ext
    let swapchain_img_cnt := selectImageCount env.props.caps
    if swapchain_img_cnt < MAX_INFLIGHT_FRAMES then some ⟨s, [], false⟩
    else
      let c1 := [Call.vkCreateSwapchainKHR swapchain_ext swapchain_img_cnt swapchain_surface_fmt
        swapchain_present_mode env.create_res]
      if env.create_res ≠ VkResult.VK_SUCCESS then some ⟨s, c1, false⟩
      else
        let s1 := { s with
          _vk_swapchain := env.swapchain
          _vk_swapchain_ext := swapchain_ext
          _target_frame_buffer_ext := swapchain_ext
          _vk_swapchain_fmt := swapchain_surface_fmt.format
          _vk_swapchain_imgs := env.images }
        let c2 := c1 ++ [Call.vkGetSwapchainImagesKHR env.swapchain,
          Call.vkGetSwapchainImagesKHR env.swapchain]
        let r := createSwapChainViews env env.images 0 s1._vk_swapchain_imgs_view c2
        some ⟨{ s1 with _vk_swapchain_imgs_view := r.1 }, r.2.1, r.2.2⟩

/-- Source `sb::createVkImage` (utility_vulkan.cpp:186-228) writing through `image_mem`:
the updated `VkImageMem`, the calls issued, and the result. -/
def createVkImage (ext : VkExtent2D) (format : Nat) (image_mem : VkImageMem) (env : ImageEnv) :
    VkImageMem × List Call × VkResult :=
  let c1 := [Call.vkCreateImage ext format env.image_res]
  if env.image_res ≠ VkResult.VK_SUCCESS then (image_mem, c1, env.image_res)
  else
    let m1 : VkImageMem := { image_mem with image := env.image }
    let c2 := c1 ++ [Call.vkAllocateMemory env.memory_res]
    if env.memory_res ≠ VkResult.VK_SUCCESS then (m1, c2, env.memory_res)
    else
      (⟨env.image, env.memory⟩, c2 ++ [Call.vkBindImageMemory env.image env.memory],
        VkResult.VK_SUCCESS)

/-- Source `sb::destroyVkImage` (utility_vulkan.cpp:173-184); the argument is passed by value. -/
def destroyVkImage (image_mem : VkImageMem) : List Call :=
  (if VK_NULL_HANDLE ≠ image_mem.memory then [Call.vkFreeMemory image_mem.memory] else []) ++
  (if VK_NULL_HANDLE ≠ image_mem.image then [Call.vkDestroyImage image_mem.image] else [])

/-- Source `VulkanApp::createColorImage` (main.cpp:2184-2215). -/
def createColorImage (s : VulkanApp) (env : ImageEnv) : Run Bool :=
  let r := createVkImage s._vk_swapchain_ext s._vk_swapchain_fmt s._vk_color_image env
  let s1 := { s with _vk_color_image := r.1 }
  if r.2.2 ≠ VkResult.VK_SUCCESS then ⟨s1, r.2.1, false⟩
  else
    let c2 := r.2.1 ++ [Call.vkCreateImageView s1._vk_color_image.image env.view_res]
    if env.view_res ≠ VkResult.VK_SUCCESS then ⟨s1, c2, false⟩
    else ⟨{ s1 with _vk_color_image_view := env.view }, c2, true⟩

/-- Source `VulkanApp::destroyColorImage` (main.cpp:2217-2227). -/
def destroyColorImage (s : VulkanApp) : Run Unit :=
  let c1 := if s._vk_color_image_view ≠ VK_NULL_HANDLE then
    [Call.vkDestroyImageView s._vk_color_image_view] else []
  let s1 := if s._vk_color_image_view ≠ VK_NULL_HANDLE then
    { s with _vk_color_image_view := VK_NULL_HANDLE } else s
  ⟨{ s1 with _vk_color_image := ⟨VK_NULL_HANDLE, VK_NULL_HANDLE⟩ },
    c1 ++ destroyVkImage s1._vk_color_image, ()⟩

/-- Source `VulkanApp::createDepthImage` (main.cpp:2133-2170); `depth_fmt` is what
`findVkDepthImageFormat` returns. -/
def createDepthImage (s : VulkanApp) (depth_fmt : Nat) (env : ImageEnv) : Run Bool :=
  let s0 := { s with _vk_depth_fmt := depth_fmt }
  if VK_FORMAT_UNDEFINED = s0._vk_depth_fmt then ⟨s0, [], false⟩
  else
    let r := createVkImage s0._vk_swapchain_ext s0._vk_depth_fmt s0._vk_depth_image env
    let s1 := { s0 with _vk_depth_image := r.1 }
    if r.2.2 ≠ VkResult.VK_SUCCESS then ⟨s1, r.2.1, false⟩
    else
      let c2 := r.2.1 ++ [Call.vkCreateImageView s1._vk_depth_image.image env.view_res]
      if env.view_res ≠ VkResult.VK_SUCCESS then ⟨s1, c2, false⟩
      else ⟨{ s1 with _vk_depth_image_view := env.view }, c2, true⟩

/-- Source `VulkanApp::destroyDepthImage` (main.cpp:2172-2182). -/
def destroyDepthImage (s : VulkanApp) : Run Unit :=
  let c1 := if s._vk_depth_image_view ≠ VK_NULL_HANDLE then
    [Call.vkDestroyImageView s._vk_depth_image_view] else []
  let s1 := if s._vk_depth_image_view ≠ VK_NULL_HANDLE then
    { s with _vk_depth_image_view := VK_NULL_HANDLE } else s
  ⟨{ s1 with _vk_depth_fmt := VK_FORMAT_UNDEFINED }, c1 ++ destroyVkImage s1._vk_depth_image, ()⟩

/-- Source `DArray::resize(n)` on a handle array: keeps the first `n` elements and pads with
value-initialised (null) handles. -/
def resizeHandles (xs : List Handle) (n : Nat) : List Handle :=
  xs.take n ++ List.replicate (n - xs.length) VK_NULL_HANDLE

/-- The loop of `createFrameBuffers` (main.cpp:1444-1465) over the elements of
`_vk_frame_buffers` from index `frame_buffer_idx` on: `done` are the elements already
visited, `todo` the remaining ones. The subscript `_vk_swapchain_imgs_view[frame_buffer_idx]`
is undefined when out of range. -/
def createFrameBuffersLoop (s : VulkanApp) (fb_res : Nat → VkResult) (fb : Nat → Handle) :
    List Handle → Nat → List Handle → List Call → Option (List Handle × List Call × Bool)
  | [], _, done, calls => some (done, calls, true)
  | frame_bufer :: todo, frame_buffer_idx, done, calls =>
    match s._vk_swapchain_imgs_view[frame_buffer_idx]? with
    | none => none
    | some img_view =>
      let call := Call.vkCreateFramebuffer
        [s._vk_color_image_view, s._vk_depth_image_view, img_view] s._vk_swapchain_ext
        (fb_res frame_buffer_idx)
      if fb_res frame_buffer_idx ≠ VkResult.VK_SUCCESS then
        some (done ++ frame_bufer :: todo, calls ++ [call], false)
      else
        createFrameBuffersLoop s fb_res fb todo (frame_buffer_idx + 1)
          (done ++ [fb frame_buffer_idx]) (calls ++ [call])

/-- Source `VulkanApp::createFrameBuffers` (main.cpp:1440-1468). -/
def createFrameBuffers (s : VulkanApp) (fb_res : Nat → VkResult) (fb : Nat → Handle) :
    Option (Run Bool) :=
  let resized := resizeHandles s._vk_frame_buffers s._vk_swapchain_imgs_view.length
  match createFrameBuffersLoop s fb_res fb resized 0 [] [] with
  | none => none
  | some r => some ⟨{ s with _vk_frame_buffers := r.1 }, r.2.1, r.2.2⟩

/-- Source `VulkanApp::cleanupSwapChainRelatedData` (main.cpp:669-688). -/
def cleanupSwapChainRelatedData (s : VulkanApp) : Run Unit :=
  let c1 := s._vk_frame_buffers.map Call.vkDestroyFramebuffer
  let c2 := s._vk_swapchain_imgs_view.map Call.vkDestroyImageView
  let s1 := { s with
    _vk_frame_buffers := []
    _vk_swapchain_imgs_view := []
    _vk_swapchain_imgs := [] }
  let c3 := [Call.vkDestroySwapchainKHR s1._vk_swapchain]
  let r1 := destroyColorImage s1
  let r2 := destroyDepthImage r1.app
  ⟨r2.app, c1 ++ c2 ++ c3 ++ r1.calls ++ r2.calls, ()⟩

/-- Source `VulkanApp::recreateSwapChainRelatedData` (main.cpp:969-981): the four creation
results are discarded. -/
def recreateSwapChainRelatedData (s : VulkanApp) (frame_buffer_ext : VkExtent2D)
    (env : RebuildEnv) : Option (Run Unit) :=
  let r0 := cleanupSwapChainRelatedData s
  match createSwapChain r0.app frame_buffer_ext env.swapchain with
  | none => none
  | some r1 =>
    let r2 := createColorImage r1.app env.color
    let r3 := createDepthImage r2.app env.depth_fmt env.depth
    match createFrameBuffers r3.app env.fb_res env.fb with
    | none => none
    | some r4 =>
      some ⟨r4.app,
        [Call.vkDeviceWaitIdle] ++ r0.calls ++ r1.calls ++ r2.calls ++ r3.calls ++ r4.calls, ()⟩

/-! ## Frame executor -/

/-- Prefixes the calls already issued by the caller to the outcome of the rest of
the function. -/
def after {α : Type} (pre : List Call) (r : Option (Run α)) : Option (Run α) :=
  r.map (fun r => { r with calls := pre ++ r.calls })

/-- The ring advance `_current_frame = (_current_frame + 1) % MAX_INFLIGHT_FRAMES`
(main.cpp:1827) in `u32` arithmetic. -/
def advance (s : VulkanApp) : VulkanApp :=
  { s with _current_frame := ((s._current_frame + 1) % 2 ^ 32) % MAX_INFLIGHT_FRAMES }

/-- The bind and draw commands recorded by the `switch (_demo_mode)` of `render`
(main.cpp:1743-1773). -/
def recordDraw (s : VulkanApp) (cmd_buffer : Handle) : List Call :=
  match s._demo_mode with
  | DemoMode.TRIANGLE =>
    [Call.vkCmdBindVertexBuffers cmd_buffer s._vk_triangle_vb, Call.vkCmdDraw cmd_buffer 3]
  | DemoMode.QUAD =>
    [Call.vkCmdBindVertexBuffers cmd_buffer s._vk_quad_vb,
      Call.vkCmdBindIndexBuffer cmd_buffer s._vk_quad_ib, Call.vkCmdDrawIndexed cmd_buffer 12]
  | DemoMode.MODEL =>
    [Call.vkCmdBindVertexBuffers cmd_buffer s._model.vb.buffer,
      Call.vkCmdBindIndexBuffer cmd_buffer s._model.ib.buffer,
      Call.vkCmdDrawIndexed cmd_buffer (s._model.idx_cnt % 2 ^ 32)]

/-- PRESENT and ADVANCE of `render` (main.cpp:1803-1829). -/
def renderPresent (s : VulkanApp) (env : FrameEnv) (img_idx : Nat) : Option (Run Bool) :=
  match s._vk_render_finished_sems[s._current_frame]? with
  | none => none
  | some finished =>
    let c1 := [Call.vkQueuePresentKHR s._vk_swapchain img_idx finished env.present_res]
    if env.present_res = VkResult.VK_ERROR_OUT_OF_DATE_KHR ∨
        env.present_res = VkResult.VK_SUBOPTIMAL_KHR ∨
        s._target_frame_buffer_ext.width ≠ s._vk_swapchain_ext.width ∨
        s._target_frame_buffer_ext.height ≠ s._vk_swapchain_ext.height then
      match recreateSwapChainRelatedData s s._target_frame_buffer_ext env.present_rebuild with
      | none => none
      | some r => some ⟨advance r.app, c1 ++ r.calls, true⟩
    else if env.present_res ≠ VkResult.VK_SUCCESS then some ⟨s, c1, false⟩
    else some ⟨advance s, c1, true⟩

/-- SUBMIT of `render` (main.cpp:1780-1801), followed by the rest of the function. -/
def renderSubmit (s : VulkanApp) (env : FrameEnv) (img_idx : Nat) (cmd_buffer : Handle) :
    Option (Run Bool) :=
  match s._vk_image_available_sems[s._current_frame]?,
      s._vk_render_finished_sems[s._current_frame]?,
      s._vk_inflight_fences[s._current_frame]? with
  | some available, some finished, some fence =>
    let c1 := [Call.vkResetFences fence,
      Call.vkQueueSubmit available cmd_buffer finished fence env.submit_res]
    if VkResult.VK_SUCCESS ≠ env.submit_res then some ⟨s, c1, false⟩
    else after c1 (renderPresent s env img_idx)
  | _, _, _ => none

/-- RECORD of `render` (main.cpp:1674-1778), followed by the rest of the function. -/
def renderRecord (s : VulkanApp) (env : FrameEnv) (img_idx : Nat) : Option (Run Bool) :=
  match s._vk_cmd_buffers[s._current_frame]? with
  | none => none
  | some cmd_buffer =>
    let c1 := if cmd_buffer ≠ VK_NULL_HANDLE then [Call.vkFreeCommandBuffers cmd_buffer] else []
    let s1 := if cmd_buffer ≠ VK_NULL_HANDLE then
      { s with _vk_cmd_buffers := s._vk_cmd_buffers.set s._current_frame VK_NULL_HANDLE } else s
    let c2 := c1 ++ [Call.vkAllocateCommandBuffers env.alloc_res]
    if VkResult.VK_SUCCESS ≠ env.alloc_res then some ⟨s1, c2, false⟩
    else
      let s2 := { s1 with
        _vk_cmd_buffers := s1._vk_cmd_buffers.set s1._current_frame env.alloc_cmd }
      let c3 := c2 ++ [Call.vkBeginCommandBuffer env.alloc_cmd env.begin_res]
      if VkResult.VK_SUCCESS ≠ env.begin_res then some ⟨s2, c3, false⟩
      else
        match s2._vk_frame_buffers[img_idx]?, s2._vk_desc_sets[s2._current_frame]? with
        | some frame_buffer, some desc_set =>
          let c4 := c3 ++
            [Call.vkCmdBeginRenderPass env.alloc_cmd frame_buffer s2._vk_swapchain_ext,
              Call.vkCmdBindPipeline env.alloc_cmd s2._vk_graphics_pipeline,
              Call.vkCmdSetViewport env.alloc_cmd s2._vk_swapchain_ext,
              Call.vkCmdSetScissor env.alloc_cmd s2._vk_swapchain_ext,
              Call.vkCmdBindDescriptorSets env.alloc_cmd desc_set] ++
            recordDraw s2 env.alloc_cmd ++
            [Call.vkCmdEndRenderPass env.alloc_cmd, Call.vkEndCommandBuffer env.alloc_cmd]
          after c4 (renderSubmit s2 env img_idx env.alloc_cmd)
        | _, _ => none

/-- SYNC_IMAGE and UPDATE_UNIFORMS of `render` (main.cpp:1651-1672), followed by the
rest of the function. The matrices written are not modelled, the write is the
`vkMapMemory`, `memcpy`, `vkUnmapMemory` triple on the slot's buffer memory. -/
def renderFrame (s : VulkanApp) (env : FrameEnv) (img_idx : Nat) : Option (Run Bool) :=
  match s._vk_inuse_fences[img_idx]?, s._vk_inflight_fences[s._current_frame]?,
      s._vk_mvp_buffers[s._current_frame]? with
  | some inuse, some fence, some curr_mvp_buffer =>
    let c1 := if inuse ≠ VK_NULL_HANDLE then [Call.vkWaitForFences inuse] else []
    let s1 := { s with _vk_inuse_fences := s._vk_inuse_fences.set img_idx fence }
    let c2 := c1 ++ [Call.vkMapMemory curr_mvp_buffer.memory, Call.memcpy curr_mvp_buffer.memory,
      Call.vkUnmapMemory curr_mvp_buffer.memory]
    after c2 (renderRecord s1 env img_idx)
  | _, _, _ => none

/-- Source `VulkanApp::render` (main.cpp:1629-1830). -/
def render (s : VulkanApp) (env : FrameEnv) : Option (Run Bool) :=
  if s._target_frame_buffer_ext.width = 0 ∨ s._target_frame_buffer_ext.height = 0 then
    some ⟨s, [], false⟩
  else
    match s._vk_inflight_fences[s._current_frame]?,
        s._vk_image_available_sems[s._current_frame]? with
    | some fence, some available =>
      let img_idx := env.acquire_img.getD 0
      let c1 := [Call.vkWaitForFences fence,
        Call.vkAcquireNextImageKHR s._vk_swapchain available env.acquire_res]
      if env.acquire_res = VkResult.VK_ERROR_OUT_OF_DATE_KHR then
        match recreateSwapChainRelatedData s s._vk_swapchain_ext env.acquire_rebuild with
        | none => none
        | some r => after (c1 ++ r.calls) (renderFrame r.app env img_idx)
      else if env.acquire_res ≠ VkResult.VK_SUCCESS ∧
          env.acquire_res ≠ VkResult.VK_SUBOPTIMAL_KHR then
        some ⟨s, c1, false⟩
      else after c1 (renderFrame s env img_idx)
    | _, _ => none

/-! ## Host main loop -/

/-- One iteration of the loop of `main` (main.cpp:2282-2286): the driver answers for
the `render` call, and the extent delivered by the framebuffer-size callback if
`glfwPollEvents` runs it. -/
structure LoopInput where
  frame : FrameEnv
  resized : Option VkExtent2D

/-- The framebuffer-size callback `glfwFrameBufferResized` (main.cpp:2234-2239) as run
by `glfwPollEvents`. -/
def pollEvents (s : VulkanApp) : Option VkExtent2D → VulkanApp
  | none => s
  | some frame_buffer_ext => notifyTargetFrameBufferResized s frame_buffer_ext

/-- The loop `while (...) { sample_app.render(); glfwPollEvents(); }` of `main`
(main.cpp:2282-2286) over a finite list of iterations: the final state and the outcome
of each `render` call, oldest first. -/
def mainLoop : VulkanApp → List LoopInput → Option (VulkanApp × List (Run Bool))
  | s, [] => some (s, [])
  | s, input :: inputs =>
    match render s input.frame with
    | none => none
    | some r =>
      match mainLoop (pollEvents r.app input.resized) inputs with
      | none => none
      | some (final, runs) => some (final, r :: runs)

/-! ## Start-up

The steps of start-up that lie outside the frame lifecycle (instance, surface and
device bootstrap, pipeline construction, asset loading) are summarised by their
success flag and by the handles they store; the swapchain, the framebuffers, the
synchronisation ring and the in-flight image map are built by the embedded code. -/

/-- What the driver answers during one `createVkBuffer` call. -/
structure BufferEnv where
  buffer_res : VkResult
  buffer : Handle
  memory_res : VkResult
  memory : Handle

/-- What the platform and the driver answer during `initialize`. -/
structure InitEnv where
  bootstrap_ok : Bool
  device : Handle
  graphics_queue : Handle
  present_queue : Handle
  width : Nat
  height : Nat
  swapchain : SwapChainEnv
  cmd_pool_res : VkResult
  cmd_pool : Handle
  available_res : Nat → VkResult
  available : Nat → Handle
  finished_res : Nat → VkResult
  finished : Nat → Handle
  fence_res : Nat → VkResult
  fence : Nat → Handle
  color : ImageEnv
  depth_fmt : Nat
  depth : ImageEnv
  pipeline_ok : Bool
  pipeline_layout : Handle
  render_pass : Handle
  graphics_pipeline : Handle
  fb_res : Nat → VkResult
  fb : Nat → Handle
  texture_ok : Bool
  model : Option DemoModel
  triangle : Option Handle
  quad : Option (Handle × Handle)
  mvp : Nat → BufferEnv
  desc_pool_ok : Bool
  desc_alloc_res : VkResult
  desc_sets : Nat → Handle

/-- The default-constructed `VulkanApp` (`VulkanApp() = default` with the member
initialisers of main.cpp:130-188). -/
def construct : VulkanApp where
  _vk_device := VK_NULL_HANDLE
  _vk_graphics_queue := VK_NULL_HANDLE
  _vk_present_queue := VK_NULL_HANDLE
  _vk_swapchain := VK_NULL_HANDLE
  _vk_swapchain_imgs := []
  _vk_swapchain_imgs_view := []
  _vk_swapchain_ext := ⟨0, 0⟩
  _vk_swapchain_fmt := VK_FORMAT_UNDEFINED
  _vk_pipeline_layout := VK_NULL_HANDLE
  _vk_desc_sets := []
  _vk_render_pass := VK_NULL_HANDLE
  _vk_graphics_pipeline := VK_NULL_HANDLE
  _vk_frame_buffers := []
  _vk_graphics_cmd_pool := VK_NULL_HANDLE
  _vk_cmd_buffers := []
  _vk_image_available_sems := List.replicate MAX_INFLIGHT_FRAMES VK_NULL_HANDLE
  _vk_render_finished_sems := List.replicate MAX_INFLIGHT_FRAMES VK_NULL_HANDLE
  _vk_inflight_fences := List.replicate MAX_INFLIGHT_FRAMES VK_NULL_HANDLE
  _vk_inuse_fences := []
  _vk_color_image := ⟨VK_NULL_HANDLE, VK_NULL_HANDLE⟩
  _vk_color_image_view := VK_NULL_HANDLE
  _model := ⟨⟨VK_NULL_HANDLE, VK_NULL_HANDLE⟩, ⟨VK_NULL_HANDLE, VK_NULL_HANDLE⟩, 0⟩
  _vk_depth_fmt := VK_FORMAT_UNDEFINED
  _vk_depth_image := ⟨VK_NULL_HANDLE, VK_NULL_HANDLE⟩
  _vk_depth_image_view := VK_NULL_HANDLE
  _vk_triangle_vb := VK_NULL_HANDLE
  _vk_quad_vb := VK_NULL_HANDLE
  _vk_quad_ib := VK_NULL_HANDLE
  _vk_mvp_buffers := []
  _target_frame_buffer_ext := ⟨0, 0⟩
  _current_frame := 0
  _demo_mode := DemoMode.TRIANGLE

/-- The loop of `initializeVulkanCore` creating the semaphores and fences of the ring
(main.cpp:544-558): `n` iterations remain, starting at slot `sem_idx`. Fences are
created with `VK_FENCE_CREATE_SIGNALED_BIT`. -/
def createSyncObjects (env : InitEnv) : Nat → Nat → VulkanApp → List Call → Run Bool
  | 0, _, s, calls => ⟨s, calls, true⟩
  | n + 1, sem_idx, s, calls =>
    let c1 := calls ++ [Call.vkCreateSemaphore (env.available_res sem_idx)]
    if VkResult.VK_SUCCESS ≠ env.available_res sem_idx then ⟨s, c1, false⟩
    else
      let s1 := { s with _vk_image_available_sems :=
        s._vk_image_available_sems.set sem_idx (env.available sem_idx) }
      let c2 := c1 ++ [Call.vkCreateSemaphore (env.finished_res sem_idx)]
      if VkResult.VK_SUCCESS ≠ env.finished_res sem_idx then ⟨s1, c2, false⟩
      else
        let s2 := { s1 with _vk_render_finished_sems :=
          s1._vk_render_finished_sems.set sem_idx (env.finished sem_idx) }
        let c3 := c2 ++ [Call.vkCreateFence true (env.fence_res sem_idx)]
        if VkResult.VK_SUCCESS ≠ env.fence_res sem_idx then ⟨s2, c3, false⟩
        else
          createSyncObjects env n (sem_idx + 1)
            { s2 with _vk_inflight_fences :=
              s2._vk_inflight_fences.set sem_idx (env.fence sem_idx) } c3

/-- Source `VulkanApp::initializeVulkanCore` (main.cpp:239-563). The part before the
swapchain (main.cpp:241-516) is summarised by `bootstrap_ok` and the device and queue
handles it stores. -/
def initializeVulkanCore (s : VulkanApp) (env : InitEnv) : Option (Run Bool) :=
  if !env.bootstrap_ok then some ⟨s, [], false⟩
  else
    let s0 := { s with
      _vk_device := env.device
      _vk_graphics_queue := env.graphics_queue
      _vk_present_queue := env.present_queue }
    match createSwapChain s0 ⟨env.width, env.height⟩ env.swapchain with
    | none => none
    | some r1 =>
      if !r1.ret then some ⟨r1.app, r1.calls, false⟩
      else
        let c2 := r1.calls ++ [Call.vkCreateCommandPool env.cmd_pool_res]
        if VkResult.VK_SUCCESS ≠ env.cmd_pool_res then some ⟨r1.app, c2, false⟩
        else
          let s2 := { r1.app with _vk_graphics_cmd_pool := env.cmd_pool }
          let r3 := createSyncObjects env MAX_INFLIGHT_FRAMES 0 s2 c2
          if !r3.ret then some ⟨r3.app, r3.calls, false⟩
          else
            let s3 := { r3.app with
              _vk_inuse_fences :=
                resizeHandles r3.app._vk_inuse_fences r3.app._vk_swapchain_imgs.length }
            some ⟨s3, r3.calls, true⟩

/-- Source `VulkanApp::createCommandBuffers` (main.cpp:1470-1525): only the `resize`
is live code. -/
def createCommandBuffers (s : VulkanApp) : VulkanApp :=
  { s with _vk_cmd_buffers := resizeHandles s._vk_cmd_buffers MAX_INFLIGHT_FRAMES }

/-- Source `sb::createVkBuffer` (utility_vulkan.cpp:231-265) writing through `buffer_mem`. -/
def createVkBuffer (buffer_mem : VkBufferMem) (env : BufferEnv) : VkBufferMem × VkResult :=
  if VkResult.VK_SUCCESS ≠ env.buffer_res then (buffer_mem, env.buffer_res)
  else if VkResult.VK_SUCCESS ≠ env.memory_res then
    ({ buffer_mem with buffer := env.buffer }, env.memory_res)
  else (⟨env.buffer, env.memory⟩, VkResult.VK_SUCCESS)

/-- The loop of `createUniformBuffers` (main.cpp:1111-1121) over the elements of
`_vk_mvp_buffers`. -/
def createUniformBuffersLoop (env : InitEnv) :
    List VkBufferMem → Nat → List VkBufferMem → List VkBufferMem × Bool
  | [], _, done => (done, true)
  | buffer :: todo, k, done =>
    let r := createVkBuffer buffer (env.mvp k)
    if VkResult.VK_SUCCESS ≠ r.2 then (done ++ r.1 :: todo, false)
    else createUniformBuffersLoop env todo (k + 1) (done ++ [r.1])

/-- Source `VulkanApp::createUniformBuffers` (main.cpp:1106-1124). -/
def createUniformBuffers (s : VulkanApp) (env : InitEnv) : VulkanApp × Bool :=
  let resized := s._vk_mvp_buffers.take MAX_INFLIGHT_FRAMES ++
    List.replicate (MAX_INFLIGHT_FRAMES - s._vk_mvp_buffers.length) (⟨0, 0⟩ : VkBufferMem)
  let r := createUniformBuffersLoop env resized 0 []
  ({ s with _vk_mvp_buffers := r.1 }, r.2)

/-- Source `VulkanApp::createDescriptors` (main.cpp:983-1087): sampler and pool creation are
summarised by `desc_pool_ok`; the sets are stored by `vkAllocateDescriptorSets`. -/
def createDescriptors (s : VulkanApp) (env : InitEnv) : VulkanApp × Bool :=
  if !env.desc_pool_ok then (s, false)
  else
    let s1 := { s with _vk_desc_sets := resizeHandles s._vk_desc_sets MAX_INFLIGHT_FRAMES }
    if VkResult.VK_SUCCESS ≠ env.desc_alloc_res then (s1, false)
    else
      ({ s1 with _vk_desc_sets := (List.range MAX_INFLIGHT_FRAMES).map env.desc_sets }, true)

/-- Source `VulkanApp::createGraphicsPipeline` (main.cpp:1135-1438): everything up to
`vkCreateGraphicsPipelines` is summarised by `pipeline_ok` and the three handles stored;
the result of the `createFrameBuffers()` call at its end is discarded. -/
def createGraphicsPipeline (s : VulkanApp) (env : InitEnv) : Option (Run Bool) :=
  if !env.pipeline_ok then some ⟨s, [], false⟩
  else
    let s1 := { s with
      _vk_pipeline_layout := env.pipeline_layout
      _vk_render_pass := env.render_pass
      _vk_graphics_pipeline := env.graphics_pipeline }
    match createFrameBuffers s1 env.fb_res env.fb with
    | none => none
    | some r => some ⟨r.app, r.calls, true⟩

/-- The asset and descriptor steps of `initialize` that follow `createCommandBuffers`
(main.cpp:1577-1609). -/
def initializeAssets (s : VulkanApp) (env : InitEnv) : VulkanApp × Bool :=
  if !env.texture_ok then (s, false)
  else
    match env.model with
    | none => (s, false)
    | some model =>
      let s1 := { s with _model := model }
      match env.triangle with
      | none => (s1, false)
      | some triangle_vb =>
        let s2 := { s1 with _vk_triangle_vb := triangle_vb }
        match env.quad with
        | none => (s2, false)
        | some quad =>
          let s3 := { s2 with _vk_quad_vb := quad.1, _vk_quad_ib := quad.2 }
          let r4 := createUniformBuffers s3 env
          if !r4.2 then (r4.1, false)
          else createDescriptors r4.1 env

/-- Source `VulkanApp::initialize` (main.cpp:1527-1610). -/
def initializeApp (s : VulkanApp) (mode : DemoMode) (env : InitEnv) : Option (Run Bool) :=
  let s0 := { s with _current_frame := 0, _demo_mode := mode }
  match initializeVulkanCore s0 env with
  | none => none
  | some r1 =>
    if !r1.ret then some ⟨r1.app, r1.calls, false⟩
    else
      let r2 := createColorImage r1.app env.color
      if !r2.ret then some ⟨r2.app, r1.calls ++ r2.calls, false⟩
      else
        let r3 := createDepthImage r2.app env.depth_fmt env.depth
        if !r3.ret then some ⟨r3.app, r1.calls ++ r2.calls ++ r3.calls, false⟩
        else
          match createGraphicsPipeline r3.app env with
          | none => none
          | some r4 =>
            let c4 := r1.calls ++ r2.calls ++ r3.calls ++ r4.calls
            if !r4.ret then some ⟨r4.app, c4, false⟩
            else
              let r5 := initializeAssets (createCommandBuffers r4.app) env
              some ⟨r5.1, c4, r5.2⟩

/-! ## A concrete platform

A surface advertising two to eight images at 800 x 600, a driver for which every
call succeeds, and the application state that `initialize` builds on it. -/

/-- A driver answer for an attachment image: every step succeeds, handles from `h`. -/
def demoImage (h : Handle) : ImageEnv :=
  ⟨VkResult.VK_SUCCESS, h, VkResult.VK_SUCCESS, h + 1, VkResult.VK_SUCCESS, h + 2⟩

/-- Surface capabilities: at least 2 and at most 8 images, current extent 800 x 600. -/
def demoCaps : VkSurfaceCapabilitiesKHR :=
  ⟨2, 8, ⟨800, 600⟩, ⟨1, 1⟩, ⟨4096, 4096⟩⟩

/-- A driver answer for a swapchain of `n` images, handles from `base`. -/
def demoSwapChain (base n : Nat) : SwapChainEnv :=
  ⟨⟨demoCaps, [⟨50, 0⟩], [VK_PRESENT_MODE_FIFO_KHR]⟩, VkResult.VK_SUCCESS, base,
    (List.range n).map (fun k => base + 1 + k), fun _ => VkResult.VK_SUCCESS,
    fun k => base + 20 + k⟩

/-- A driver answer for a rebuild yielding `n` images, every step succeeding. -/
def demoRebuild (base n : Nat) : RebuildEnv :=
  ⟨demoSwapChain base n, demoImage (base + 40), 126, demoImage (base + 50),
    fun _ => VkResult.VK_SUCCESS, fun k => base + 60 + k⟩

/-- A start-up in which every step succeeds, with a swapchain of three images. -/
def demoInit : InitEnv where
  bootstrap_ok := true
  device := 1
  graphics_queue := 2
  present_queue := 3
  width := 800
  height := 600
  swapchain := demoSwapChain 100 3
  cmd_pool_res := VkResult.VK_SUCCESS
  cmd_pool := 4
  available_res := fun _ => VkResult.VK_SUCCESS
  available := fun k => 10 + k
  finished_res := fun _ => VkResult.VK_SUCCESS
  finished := fun k => 20 + k
  fence_res := fun _ => VkResult.VK_SUCCESS
  fence := fun k => 30 + k
  color := demoImage 140
  depth_fmt := 126
  depth := demoImage 150
  pipeline_ok := true
  pipeline_layout := 5
  render_pass := 6
  graphics_pipeline := 7
  fb_res := fun _ => VkResult.VK_SUCCESS
  fb := fun k => 160 + k
  texture_ok := true
  model := some ⟨⟨40, 41⟩, ⟨42, 43⟩, 11484⟩
  triangle := some 44
  quad := some (45, 46)
  mvp := fun k => ⟨VkResult.VK_SUCCESS, 50 + k, VkResult.VK_SUCCESS, 60 + k⟩
  desc_pool_ok := true
  desc_alloc_res := VkResult.VK_SUCCESS
  desc_sets := fun k => 70 + k

/-- A frame in which every driver call succeeds: image `img` is acquired and the
command buffer allocated gets handle `cmd`. -/
def demoFrame (img : Nat) (cmd : Handle) : FrameEnv :=
  ⟨VkResult.VK_SUCCESS, some img, demoRebuild 200 3, VkResult.VK_SUCCESS, cmd,
    VkResult.VK_SUCCESS, VkResult.VK_SUCCESS, VkResult.VK_SUCCESS, demoRebuild 300 3⟩

/-- The outcome of `initialize` on the demo platform. -/
def demoStart : Run Bool :=
  (initializeApp construct DemoMode.MODEL demoInit).getD ⟨construct, [], false⟩

/-- The application state after the demo start-up. -/
def demoApp : VulkanApp := demoStart.app


/-- Three iterations of the main loop on the demo platform acquiring images 0, 1, 2,
with no resize in between. -/
def demoInputs : List LoopInput :=
  [⟨demoFrame 0 500, none⟩, ⟨demoFrame 1 501, none⟩, ⟨demoFrame 2 502, none⟩]

/-- The outcome of the main loop on `demoInputs`. -/
def demoLoop : VulkanApp × List (Run Bool) :=
  (mainLoop demoApp demoInputs).getD (demoApp, [])

/-- A frame in which every call succeeds except that presentation reports a suboptimal
surface. -/
def demoSuboptimalFrame : FrameEnv :=
  { demoFrame 0 500 with present_res := VkResult.VK_SUBOPTIMAL_KHR }

/-- The demo state after the window was resized to 1024 x 768 and the framebuffer-size
callback has run. -/
def demoResizedApp : VulkanApp := notifyTargetFrameBufferResized demoApp ⟨1024, 768⟩

/-- A rebuild on a surface that leaves the extent to the application (its current extent
is the `UINT32_MAX` marker), every step succeeding. -/
def demoFreeExtentRebuild (base n : Nat) : RebuildEnv :=
  { demoRebuild base n with
    swapchain := { demoSwapChain base n with
      props := ⟨⟨2, 8, ⟨UINT32_MAX, UINT32_MAX⟩, ⟨1, 1⟩, ⟨4096, 4096⟩⟩, [⟨50, 0⟩],
        [VK_PRESENT_MODE_FIFO_KHR]⟩ } }

/-- A frame whose acquire reports an out-of-date surface and stores no image index; every
later driver call succeeds. -/
def demoOutOfDateFrame : FrameEnv :=
  { demoFrame 0 500 with
    acquire_res := VkResult.VK_ERROR_OUT_OF_DATE_KHR
    acquire_img := none
    acquire_rebuild := demoFreeExtentRebuild 200 3
    present_rebuild := demoFreeExtentRebuild 300 3 }

/-- A frame whose acquire and whose present both report an out-of-date surface, the
submit in between succeeding. -/
def demoStaleTwiceFrame : FrameEnv :=
  { demoOutOfDateFrame with present_res := VkResult.VK_ERROR_OUT_OF_DATE_KHR }

/-- The demo state after one rendered frame on image 0. -/
def demoRenderedApp : VulkanApp :=
  ((render demoApp (demoFrame 0 500)).getD ⟨demoApp, [], false⟩).app

/-- A rebuild on a surface that now asks for at least three images: four are requested and
four are created, every step succeeding. -/
def demoLargerRebuild (base : Nat) : RebuildEnv :=
  { demoRebuild base 4 with
    swapchain := { demoSwapChain base 4 with
      props := ⟨⟨3, 8, ⟨800, 600⟩, ⟨1, 1⟩, ⟨4096, 4096⟩⟩, [⟨50, 0⟩],
        [VK_PRESENT_MODE_FIFO_KHR]⟩ } }

/-- The state after one rebuild of `demoRenderedApp` on the unchanged surface. -/
def demoRebuiltOnce : VulkanApp :=
  ((recreateSwapChainRelatedData demoRenderedApp ⟨800, 600⟩ (demoRebuild 200 3)).getD
    ⟨demoApp, [], ()⟩).app

/-- The first iteration of a four-frame scenario on the demo platform: slot 0 renders to
image 0. -/
def demoFirstInput : LoopInput := ⟨demoFrame 0 500, none⟩

/-- The outcome of the `render` call of `demoFirstInput`. -/
def demoFirstRun : Run Bool :=
  (render demoApp demoFirstInput.frame).getD ⟨demoApp, [], false⟩

/-- The two iterations in between: slot 1 renders to image 1, slot 0 renders to image 2. -/
def demoMidInputs : List LoopInput := [⟨demoFrame 1 501, none⟩, ⟨demoFrame 2 502, none⟩]

/-- The outcome of the main loop on `demoMidInputs` after the first iteration. -/
def demoMidLoop : VulkanApp × List (Run Bool) :=
  (mainLoop (pollEvents demoFirstRun.app demoFirstInput.resized) demoMidInputs).getD
    (demoApp, [])

/-- The fourth `render` call of the scenario: slot 1 renders to image 0 again. -/
def demoFourthRun : Run Bool :=
  (render demoMidLoop.1 (demoFrame 0 503)).getD ⟨demoApp, [], false⟩


/-! ## Teardown

The release calls issued for objects outside the swapchain manager (descriptor pool,
sampler, buffers, textures, pipeline objects, synchronisation objects, device, surface,
instance) are not part of the call vocabulary; the teardown functions are embedded by
their effect on the fields of the state, and `terminate` lists the device-idle wait and
the calls of the swapchain cleanup. -/

/-- Source `VulkanApp::destroyDescriptors` (main.cpp:1089-1104). -/
def destroyDescriptors (s : VulkanApp) : VulkanApp :=
  { s with _vk_desc_sets := [] }

/-- Source `VulkanApp::destroyUniformBuffers` (main.cpp:1126-1133). -/
def destroyUniformBuffers (s : VulkanApp) : VulkanApp :=
  { s with _vk_mvp_buffers := [] }

/-- Source `VulkanApp::unloadModel` (main.cpp:2020-2033): `_model = {}`. -/
def unloadModel (s : VulkanApp) : VulkanApp :=
  { s with _model := ⟨⟨VK_NULL_HANDLE, VK_NULL_HANDLE⟩, ⟨VK_NULL_HANDLE, VK_NULL_HANDLE⟩, 0⟩ }

/-- Source `VulkanApp::destroyQuad` (main.cpp:755-780). -/
def destroyQuad (s : VulkanApp) : VulkanApp :=
  let s1 := if s._vk_quad_ib ≠ VK_NULL_HANDLE then { s with _vk_quad_ib := VK_NULL_HANDLE } else s
  if s1._vk_quad_vb ≠ VK_NULL_HANDLE then { s1 with _vk_quad_vb := VK_NULL_HANDLE } else s1

/-- Source `VulkanApp::destroyTriangle` (main.cpp:817-830). -/
def destroyTriangle (s : VulkanApp) : VulkanApp :=
  if s._vk_triangle_vb ≠ VK_NULL_HANDLE then { s with _vk_triangle_vb := VK_NULL_HANDLE } else s

/-- The loop of `terminateVulkanCore` over the ring slots (main.cpp:613-633): `n`
iterations remain, starting at slot `sem_idx`; each slot ends with three null handles. -/
def destroySyncObjects : Nat → Nat → VulkanApp → VulkanApp
  | 0, _, s => s
  | n + 1, sem_idx, s =>
    destroySyncObjects n (sem_idx + 1)
      { s with
        _vk_image_available_sems := s._vk_image_available_sems.set sem_idx VK_NULL_HANDLE
        _vk_render_finished_sems := s._vk_render_finished_sems.set sem_idx VK_NULL_HANDLE
        _vk_inflight_fences := s._vk_inflight_fences.set sem_idx VK_NULL_HANDLE }

/-- Source `VulkanApp::terminateVulkanCore` (main.cpp:595-667). -/
def terminateVulkanCore (s : VulkanApp) : VulkanApp :=
  let s1 := { s with
    _vk_graphics_pipeline := VK_NULL_HANDLE
    _vk_pipeline_layout := VK_NULL_HANDLE
    _vk_render_pass := VK_NULL_HANDLE }
  let s2 := destroySyncObjects MAX_INFLIGHT_FRAMES 0 s1
  let s3 := if VK_NULL_HANDLE ≠ s2._vk_graphics_cmd_pool then
    { s2 with _vk_graphics_cmd_pool := VK_NULL_HANDLE } else s2
  let s4 := { s3 with _vk_graphics_queue := VK_NULL_HANDLE, _vk_present_queue := VK_NULL_HANDLE }
  if VK_NULL_HANDLE ≠ s4._vk_device then { s4 with _vk_device := VK_NULL_HANDLE } else s4

/-- Source `VulkanApp::terminate` (main.cpp:1612-1627). -/
def terminate (s : VulkanApp) : Run Unit :=
  let c0 := if VK_NULL_HANDLE ≠ s._vk_device then [Call.vkDeviceWaitIdle] else []
  let s1 := destroyDescriptors s
  let s2 := destroyUniformBuffers s1
  let s3 := unloadModel s2
  let s4 := destroyQuad s3
  let s5 := destroyTriangle s4
  let r6 := cleanupSwapChainRelatedData s5
  ⟨terminateVulkanCore r6.app, c0 ++ r6.calls, ()⟩

/-! ## Swapchain parameter selection: reference forms and sample surfaces -/

/-- Image count as the specification words it: the minimum count plus one when that does
not exceed the maximum count, and the maximum count otherwise. -/
def clampedImageCount (caps : VkSurfaceCapabilitiesKHR) : Nat :=
  if caps.minImageCount + 1 ≤ caps.maxImageCount then caps.minImageCount + 1
  else caps.maxImageCount

/-- A driver answer on a surface that supports exactly two images: the minimum count plus
one exceeds the maximum count. -/
def demoTwoImageSwapChain : SwapChainEnv :=
  { demoSwapChain 200 2 with
    props := ⟨⟨2, 2, ⟨800, 600⟩, ⟨1, 1⟩, ⟨4096, 4096⟩⟩, [⟨50, 0⟩], [VK_PRESENT_MODE_FIFO_KHR]⟩ }

/-- A driver answer on a surface that supports exactly one image. -/
def demoSingleImageSwapChain : SwapChainEnv :=
  { demoSwapChain 200 1 with
    props := ⟨⟨1, 1, ⟨800, 600⟩, ⟨1, 1⟩, ⟨4096, 4096⟩⟩, [⟨50, 0⟩], [VK_PRESENT_MODE_FIFO_KHR]⟩ }

/-- A format list whose third entry is the first preferred one. -/
def demoFormats : List VkSurfaceFormatKHR :=
  [⟨44, 0⟩, ⟨VK_FORMAT_B8G8R8_SRGB, 1⟩, ⟨VK_FORMAT_B8G8R8_SRGB, 0⟩, ⟨50, 0⟩,
    ⟨VK_FORMAT_B8G8R8_SRGB, 0⟩]

/-- The run of `createSwapChain` from the demo state for a requested extent of 5000 x 0 on
a surface that leaves the extent to the application within 1 x 1 and 4096 x 4096. -/
def demoFreeExtentRun : Run Bool :=
  (createSwapChain demoApp ⟨5000, 0⟩ (demoFreeExtentRebuild 200 3).swapchain).getD
    ⟨demoApp, [], false⟩

/-! ## Sample frames with failing driver calls -/

/-- A frame on image 0 whose queue submit reports a lost device. -/
def demoFailedSubmitFrame : FrameEnv :=
  { demoFrame 0 500 with submit_res := VkResult.VK_ERROR_DEVICE_LOST }

/-- The `render` call of the demo state on `demoFailedSubmitFrame`. -/
def demoFailedSubmitRun : Run Bool :=
  (render demoApp demoFailedSubmitFrame).getD ⟨demoApp, [], false⟩

/-- A frame whose acquire reports an out-of-date surface and stores no image index, whose
submit succeeds and whose present reports a lost device. -/
def demoStaleAcquireLostPresentFrame : FrameEnv :=
  { demoOutOfDateFrame with present_res := VkResult.VK_ERROR_DEVICE_LOST }

/-- The `render` call of the demo state on `demoStaleAcquireLostPresentFrame`. -/
def demoStaleAcquireLostPresentRun : Run Bool :=
  (render demoApp demoStaleAcquireLostPresentFrame).getD ⟨demoApp, [], false⟩

/-! ## Sample rebuilds with failing creation steps -/

/-- A rebuild in which `vkCreateSwapchainKHR` fails and every other driver call would
succeed. -/
def demoFailedCreateRebuild : RebuildEnv :=
  { demoRebuild 200 3 with
    swapchain := { demoSwapChain 200 3 with
      create_res := VkResult.VK_ERROR_OUT_OF_DEVICE_MEMORY } }

/-- A frame whose present reports a suboptimal surface and whose rebuild fails to create
the swapchain. -/
def demoFailedRebuildFrame : FrameEnv :=
  { demoSuboptimalFrame with present_rebuild := demoFailedCreateRebuild }

/-- The `render` call of the demo state on `demoFailedRebuildFrame`. -/
def demoFailedRebuildRun : Run Bool :=
  (render demoApp demoFailedRebuildFrame).getD ⟨demoApp, [], false⟩

/-- The rebuild of the resized demo state for the extent 1024 x 768, every step
succeeding. -/
def demoRebuildRun : Run Unit :=
  (recreateSwapChainRelatedData demoResizedApp ⟨1024, 768⟩ (demoRebuild 200 3)).getD
    ⟨demoResizedApp, [], ()⟩

/-- A rebuild in which the creation of the second swapchain image view fails and every
other driver call succeeds. -/
def demoFailedViewRebuild : RebuildEnv :=
  { demoRebuild 200 3 with
    swapchain := { demoSwapChain 200 3 with
      view_res := fun k =>
        if k = 1 then VkResult.VK_ERROR_OUT_OF_HOST_MEMORY else VkResult.VK_SUCCESS } }

/-- A frame whose present reports a suboptimal surface and whose rebuild fails to create
the second swapchain image view. -/
def demoFailedViewFrame : FrameEnv :=
  { demoSuboptimalFrame with present_rebuild := demoFailedViewRebuild }

/-- The `render` call of the demo state on `demoFailedViewFrame`. -/
def demoFailedViewRun : Run Bool :=
  (render demoApp demoFailedViewFrame).getD ⟨demoApp, [], false⟩

/-- A driver answer on a surface that advertises no upper limit on the image count
(`maxImageCount` is 0) and asks for at least two images. -/
def demoUnlimitedSwapChain : SwapChainEnv :=
  { demoSwapChain 200 3 with
    props := ⟨⟨2, 0, ⟨800, 600⟩, ⟨1, 1⟩, ⟨4096, 4096⟩⟩, [⟨50, 0⟩], [VK_PRESENT_MODE_FIFO_KHR]⟩ }

/-- The run of `createSwapChain` on the cleaned-up resized demo state (target 1024 x 768)
for the extent 1024 x 768, on a surface whose current extent is 800 x 600. -/
def demoRecreatedSwapChainRun : Run Bool :=
  (createSwapChain (cleanupSwapChainRelatedData demoResizedApp).app ⟨1024, 768⟩
    (demoSwapChain 200 3)).getD ⟨demoResizedApp, [], false⟩

/-- A frame on image 0 whose present reports a lost device, every other call succeeding. -/
def demoLostPresentFrame : FrameEnv :=
  { demoFrame 0 500 with present_res := VkResult.VK_ERROR_DEVICE_LOST }

/-- The `render` call of the resized demo state (target 1024 x 768, swapchain 800 x 600)
on `demoLostPresentFrame`. -/
def demoLostPresentRun : Run Bool :=
  (render demoResizedApp demoLostPresentFrame).getD ⟨demoResizedApp, [], false⟩

/-- The demo state after a frame whose present reports a suboptimal surface and whose
rebuild, on a surface that now asks for at least three images, creates four images. -/
def demoGrownApp : VulkanApp :=
  ((render demoApp { demoSuboptimalFrame with present_rebuild := demoLargerRebuild 200 }).getD
    ⟨demoApp, [], false⟩).app

/-- The run of `initializeVulkanCore` from the default-constructed application on the demo
platform. -/
def demoCoreRun : Run Bool :=
  (initializeVulkanCore construct demoInit).getD ⟨construct, [], false⟩

end VulkanApp

/-! ## Auxiliary definitions for the proofs -/

/-- The groups of driver calls: fence waits, image acquisition, swapchain management
(everything the rebuild branch issues), the mapped uniform write, command-buffer
recording, fence reset, queue submission, presentation, and start-up calls. -/
inductive CallKind
  | wait
  | acquire
  | manage
  | write
  | record
  | reset
  | submit
  | present
  | setup
  deriving DecidableEq, Repr

/-- The group a driver call belongs to. -/
def Call.kind : Call → CallKind
  | Call.vkWaitForFences _ => CallKind.wait
  | Call.vkAcquireNextImageKHR _ _ _ => CallKind.acquire
  | Call.vkDeviceWaitIdle => CallKind.manage
  | Call.vkDestroyFramebuffer _ => CallKind.manage
  | Call.vkDestroyImageView _ => CallKind.manage
  | Call.vkDestroySwapchainKHR _ => CallKind.manage
  | Call.vkFreeMemory _ => CallKind.manage
  | Call.vkDestroyImage _ => CallKind.manage
  | Call.vkCreateSwapchainKHR _ _ _ _ _ => CallKind.manage
  | Call.vkGetSwapchainImagesKHR _ => CallKind.manage
  | Call.vkCreateImageView _ _ => CallKind.manage
  | Call.vkCreateImage _ _ _ => CallKind.manage
  | Call.vkAllocateMemory _ => CallKind.manage
  | Call.vkBindImageMemory _ _ => CallKind.manage
  | Call.vkCreateFramebuffer _ _ _ => CallKind.manage
  | Call.vkCreateCommandPool _ => CallKind.setup
  | Call.vkCreateSemaphore _ => CallKind.setup
  | Call.vkCreateFence _ _ => CallKind.setup
  | Call.vkMapMemory _ => CallKind.write
  | Call.memcpy _ => CallKind.write
  | Call.vkUnmapMemory _ => CallKind.write
  | Call.vkFreeCommandBuffers _ => CallKind.record
  | Call.vkAllocateCommandBuffers _ => CallKind.record
  | Call.vkBeginCommandBuffer _ _ => CallKind.record
  | Call.vkCmdBeginRenderPass _ _ _ => CallKind.record
  | Call.vkCmdBindPipeline _ _ => CallKind.record
  | Call.vkCmdSetViewport _ _ => CallKind.record
  | Call.vkCmdSetScissor _ _ => CallKind.record
  | Call.vkCmdBindDescriptorSets _ _ => CallKind.record
  | Call.vkCmdBindVertexBuffers _ _ => CallKind.record
  | Call.vkCmdBindIndexBuffer _ _ => CallKind.record
  | Call.vkCmdDraw _ _ => CallKind.record
  | Call.vkCmdDrawIndexed _ _ => CallKind.record
  | Call.vkCmdEndRenderPass _ => CallKind.record
  | Call.vkEndCommandBuffer _ => CallKind.record
  | Call.vkResetFences _ => CallKind.reset
  | Call.vkQueueSubmit _ _ _ _ _ => CallKind.submit
  | Call.vkQueuePresentKHR _ _ _ _ => CallKind.present

/-- Every call of the list belongs to group `k`. -/
def AllKind (k : CallKind) (l : List Call) : Prop := ∀ c ∈ l, c.kind = k

/-- Effect of one driver call on the submissions in flight, kept as the list of the fences
they carry, newest first: a `vkQueueSubmit` that succeeds puts the submission carrying
its fence in flight, and a `vkWaitForFences` that returns confirms the most recent
submission carrying the awaited fence (a fence stays unsignaled from its reset until the
submission carrying it completes). No other call confirms a submission; in particular a
device-idle wait is not counted as a fence confirmation. -/
def inFlightStep (pending : List Handle) : Call → List Handle
  | Call.vkQueueSubmit _ _ _ fence VkResult.VK_SUCCESS => fence :: pending
  | Call.vkWaitForFences fence => pending.erase fence
  | _ => pending

/-- The submissions in flight after a sequence of driver calls, none being in flight at
its start. -/
def inFlight (calls : List Call) : List Handle := calls.foldl inFlightStep []

/-- The largest number of submissions in flight at any point of a sequence of driver
calls that starts with `pending` in flight. -/
def peakInFlight : List Handle → List Call → Nat
  | pending, [] => pending.length
  | pending, c :: cs => max pending.length (peakInFlight (inFlightStep pending c) cs)

/-- A call that puts no submission in flight. -/
def Quiet (c : Call) : Prop := ∀ pending, (inFlightStep pending c).Sublist pending

namespace VulkanApp

/-- The members of the synchronisation ring and the per-slot arrays, which no
swapchain-manager function writes. -/
def slotState (s : VulkanApp) :
    Nat × List Handle × List Handle × List Handle × List Handle × List VkBufferMem ×
      List Handle × List Handle :=
  (s._current_frame, s._vk_inflight_fences, s._vk_inuse_fences, s._vk_image_available_sems,
    s._vk_render_finished_sems, s._vk_mvp_buffers, s._vk_cmd_buffers, s._vk_desc_sets)

/-- The ring index that follows `f`: `(f + 1) % MAX_INFLIGHT_FRAMES` in `u32` arithmetic. -/
def nextFrame (f : Nat) : Nat := ((f + 1) % 2 ^ 32) % MAX_INFLIGHT_FRAMES

/-- The stale-surface condition tested after `vkQueuePresentKHR` (main.cpp:1813-1815). -/
def presentStale (s : VulkanApp) (env : FrameEnv) : Prop :=
  env.present_res = VkResult.VK_ERROR_OUT_OF_DATE_KHR ∨
    env.present_res = VkResult.VK_SUBOPTIMAL_KHR ∨
    s._target_frame_buffer_ext.width ≠ s._vk_swapchain_ext.width ∨
    s._target_frame_buffer_ext.height ≠ s._vk_swapchain_ext.height


/-- Whether a driver call releases an object of the swapchain-dependent state. -/
def isDestroyCall : Call → Bool
  | Call.vkDestroyFramebuffer _ => true
  | Call.vkDestroyImageView _ => true
  | Call.vkDestroySwapchainKHR _ => true
  | Call.vkFreeMemory _ => true
  | Call.vkDestroyImage _ => true
  | _ => false

/-- Whether a driver call builds the new swapchain-dependent state: creation of the
swapchain, retrieval of its images, and creation, allocation and binding of images, image
views and framebuffers. -/
def isCreateCall : Call → Bool
  | Call.vkCreateSwapchainKHR _ _ _ _ _ => true
  | Call.vkGetSwapchainImagesKHR _ => true
  | Call.vkCreateImageView _ _ => true
  | Call.vkCreateImage _ _ _ => true
  | Call.vkAllocateMemory _ => true
  | Call.vkBindImageMemory _ _ => true
  | Call.vkCreateFramebuffer _ _ _ => true
  | _ => false

/-- The three swapchain-sized sequences of the state: images, image views, framebuffers. -/
def chainState (s : VulkanApp) : List Handle × List Handle × List Handle :=
  (s._vk_swapchain_imgs, s._vk_swapchain_imgs_view, s._vk_frame_buffers)

/-- States reachable after a successful `initialize` of a default-constructed application
through `render` calls, resize notifications, rebuilds and `terminate`, in any order and
whatever the driver answers, provided the driver answers of every rebuild run on the way
satisfy `ok`. -/
inductive ReachableWith (ok : RebuildEnv → Prop) : VulkanApp → Prop
  | init (mode : DemoMode) (env : InitEnv) (r : Run Bool) :
      initializeApp construct mode env = some r → r.ret = true → ReachableWith ok r.app
  | render (s : VulkanApp) (env : FrameEnv) (r : Run Bool) :
      ReachableWith ok s → ok env.acquire_rebuild → ok env.present_rebuild →
      VulkanApp.render s env = some r → ReachableWith ok r.app
  | notify (s : VulkanApp) (frame_buffer_ext : VkExtent2D) :
      ReachableWith ok s → ReachableWith ok (notifyTargetFrameBufferResized s frame_buffer_ext)
  | rebuild (s : VulkanApp) (frame_buffer_ext : VkExtent2D) (env : RebuildEnv) (r : Run Unit) :
      ReachableWith ok s → ok env →
      recreateSwapChainRelatedData s frame_buffer_ext env = some r → ReachableWith ok r.app
  | terminate (s : VulkanApp) :
      ReachableWith ok s → ReachableWith ok (VulkanApp.terminate s).app

/-- States reachable after a successful `initialize` whatever the driver answers. -/
def Reachable (s : VulkanApp) : Prop := ReachableWith (fun _ => True) s

/-- The driver creates every swapchain image view of the rebuild. -/
def ViewsCreated (env : RebuildEnv) : Prop :=
  ∀ j, env.swapchain.view_res j = VkResult.VK_SUCCESS

/-- The two extents compared after a present: the tracked target extent and the extent of
the swapchain. -/
def extentState (s : VulkanApp) : VkExtent2D × VkExtent2D :=
  (s._target_frame_buffer_ext, s._vk_swapchain_ext)

/-- States reached from `initialize` of a default-constructed application through
`render` calls, resize notifications and rebuilds, failing calls included; `ok` records
whether `initialize` succeeded. -/
inductive Started : Bool → VulkanApp → Prop
  | init (mode : DemoMode) (env : InitEnv) (r : Run Bool) :
      initializeApp construct mode env = some r → Started r.ret r.app
  | render (ok : Bool) (s : VulkanApp) (env : FrameEnv) (r : Run Bool) :
      Started ok s → VulkanApp.render s env = some r → Started ok r.app
  | notify (ok : Bool) (s : VulkanApp) (frame_buffer_ext : VkExtent2D) :
      Started ok s → Started ok (notifyTargetFrameBufferResized s frame_buffer_ext)
  | rebuild (ok : Bool) (s : VulkanApp) (frame_buffer_ext : VkExtent2D) (env : RebuildEnv)
      (r : Run Unit) :
      Started ok s → recreateSwapChainRelatedData s frame_buffer_ext env = some r →
      Started ok r.app

/-- The lengths of the fixed-size per-slot arrays (semaphores and fences). -/
def ringLengths (s : VulkanApp) : Nat × Nat × Nat :=
  (s._vk_image_available_sems.length, s._vk_render_finished_sems.length,
    s._vk_inflight_fences.length)

/-- The lengths of the dynamic per-slot arrays (uniform buffers, descriptor sets, command
buffers). -/
def slotLengths (s : VulkanApp) : Nat × Nat × Nat :=
  (s._vk_mvp_buffers.length, s._vk_desc_sets.length, s._vk_cmd_buffers.length)

/-- Effect of one driver call on the number of frame command buffers that are allocated and
not yet freed: a `vkAllocateCommandBuffers` that succeeds allocates one, a
`vkFreeCommandBuffers` frees one. -/
def cmdBufferStep (live : Nat) : Call → Nat
  | Call.vkAllocateCommandBuffers VkResult.VK_SUCCESS => live + 1
  | Call.vkFreeCommandBuffers _ => live - 1
  | _ => live

/-- The number of frame command buffers allocated and not yet freed after a sequence of
driver calls, none being allocated at its start. -/
def liveCmdBuffers (calls : List Call) : Nat := calls.foldl cmdBufferStep 0

/-- The largest number of frame command buffers allocated and not yet freed at any point of
a sequence of driver calls that starts with `live` of them. -/
def peakCmdBuffers : Nat → List Call → Nat
  | live, [] => live
  | live, c :: cs => max live (peakCmdBuffers (cmdBufferStep live c) cs)

/-- The number of non-null handles of an array. -/
def nonNullCount (l : List Handle) : Nat := l.countP (fun h => h != VK_NULL_HANDLE)

/-- A call that is neither a `vkFreeCommandBuffers` nor a `vkAllocateCommandBuffers`. -/
def CmdNeutral (c : Call) : Prop :=
  (∀ cmd_buffer, c ≠ Call.vkFreeCommandBuffers cmd_buffer) ∧
    (∀ res, c ≠ Call.vkAllocateCommandBuffers res)

end VulkanApp

/-! ## Utility functions (utility.cpp, utility_vulkan.cpp) -/

/-- Source `sb::getMipLevelCount` (utility.cpp:8-11):
`floor(log2(max(width, height))) + 1` converted to `u32`. The logarithm of the `int`
maximum is taken in double precision, where its floor is the integer logarithm for every
positive `int`; for a maximum of 0 the logarithm is minus infinity and the conversion to
`u32` is undefined. -/
def getMipLevelCount (width height : Nat) : Option Nat :=
  if max width height = 0 then none else some (Nat.log 2 (max width height) + 1)

/-- The extent of the next mip level in `sb::generateMipmaps`
(utility_vulkan.cpp:495-496). -/
def nextMipExtent (curr : Nat × Nat) : Nat × Nat :=
  (if curr.1 > 1 then curr.1 / 2 else 1, if curr.2 > 1 then curr.2 / 2 else 1)

/-- The loop of `sb::generateMipmaps` (utility_vulkan.cpp:493-534) with `n` iterations
remaining and `curr` the extent of the level last written: the extents of the levels the
remaining iterations blit to. -/
def generateMipmapsLoop : Nat → Nat × Nat → List (Nat × Nat)
  | 0, _ => []
  | n + 1, curr => nextMipExtent curr :: generateMipmapsLoop n (nextMipExtent curr)

/-- Source `sb::generateMipmaps` (utility_vulkan.cpp:471-546), by the extents of the mip
levels it reads and writes: level 0 is the image itself, and the loop
`for (i = 1; i < mip_count; ++i)` blits level `i` from level `i - 1`. -/
def generateMipmaps (width height mip_count : Nat) : List (Nat × Nat) :=
  (width, height) :: generateMipmapsLoop (mip_count - 1) (width, height)

/-- The `VkMemoryType` of the Vulkan headers, by its property flags. -/
structure VkMemoryType where
  propertyFlags : Nat
  deriving DecidableEq, Repr

/-- The `VkPhysicalDeviceMemoryProperties` of the Vulkan headers: `memoryTypes` is the
array `memoryTypes[VK_MAX_MEMORY_TYPES]`. -/
structure VkPhysicalDeviceMemoryProperties where
  memoryTypeCount : Nat
  memoryTypes : List VkMemoryType
  deriving DecidableEq, Repr

/-- The size of the `memoryTypes` array. -/
def VK_MAX_MEMORY_TYPES : Nat := 32

/-- The loop of `sb::findVkDeviceMemoryTypeIndex` (utility_vulkan.cpp:161-168) with `n`
iterations remaining, at index `idx`. The shift `1 << idx` of an `int` is undefined from
`idx = 32` on, and so is a subscript of `memoryTypes` out of its range; the second operand
of `&&` is evaluated only if the first is true. -/
def findVkDeviceMemoryTypeIndexLoop (mem_props : VkPhysicalDeviceMemoryProperties)
    (possible_types property_flags : Nat) : Nat → Nat → Option Nat
  | 0, _ => some UINT32_MAX
  | n + 1, idx =>
    if 32 ≤ idx then none
    else if (1 <<< idx) &&& possible_types ≠ 0 then
      match mem_props.memoryTypes[idx]? with
      | none => none
      | some memory_type =>
        if memory_type.propertyFlags &&& property_flags = property_flags then some idx
        else findVkDeviceMemoryTypeIndexLoop mem_props possible_types property_flags n (idx + 1)
    else findVkDeviceMemoryTypeIndexLoop mem_props possible_types property_flags n (idx + 1)

/-- Source `sb::findVkDeviceMemoryTypeIndex` (utility_vulkan.cpp:155-171), on the memory
properties `vkGetPhysicalDeviceMemoryProperties` reports. -/
def findVkDeviceMemoryTypeIndex (mem_props : VkPhysicalDeviceMemoryProperties)
    (possible_types property_flags : Nat) : Option Nat :=
  findVkDeviceMemoryTypeIndexLoop mem_props possible_types property_flags
    mem_props.memoryTypeCount 0

/-- Memory type `idx` suits a request: bit `idx` of `possible_types` is set and every
property flag required is among the flags of the type. -/
def MemoryTypeSuits (mem_props : VkPhysicalDeviceMemoryProperties)
    (possible_types property_flags : Nat) (idx : Nat) : Prop :=
  possible_types.testBit idx = true ∧
    ∃ memory_type, mem_props.memoryTypes[idx]? = some memory_type ∧
      ∀ bit, property_flags.testBit bit = true → memory_type.propertyFlags.testBit bit = true

/-- A memory-property table with three types: device-local (flags 1), host-visible and
coherent (flags 6), and host-visible, coherent and cached (flags 14). -/
def demoMemoryProperties : VkPhysicalDeviceMemoryProperties :=
  ⟨3, [⟨1⟩, ⟨6⟩, ⟨14⟩] ++ List.replicate 29 ⟨0⟩⟩

namespace VulkanApp
end VulkanApp

/-! ## Theorems -/

set_option maxRecDepth 100000

theorem allKind_nil (k : CallKind) : AllKind k [] := by
  intro c hc; cases hc

theorem allKind_cons {k : CallKind} {c : Call} {l : List Call} :
    AllKind k (c :: l) ↔ c.kind = k ∧ AllKind k l := by
  unfold AllKind
  exact List.forall_mem_cons

theorem allKind_append {k : CallKind} {l1 l2 : List Call} :
    AllKind k (l1 ++ l2) ↔ AllKind k l1 ∧ AllKind k l2 := by
  unfold AllKind
  exact List.forall_mem_append

theorem allKind_ite {k : CallKind} {p : Prop} [Decidable p] {l1 l2 : List Call}
    (h1 : AllKind k l1) (h2 : AllKind k l2) : AllKind k (if p then l1 else l2) := by
  split_ifs <;> assumption

theorem kind_ne_of_eq {c : Call} {k k2 : CallKind} (h : c.kind = k) (hne : k ≠ k2) :
    c.kind ≠ k2 := by
  rw [h]; exact hne

theorem not_mem_of_allKind {k : CallKind} {l : List Call} {c : Call} (h : AllKind k l)
    (hc : c.kind ≠ k) : c ∉ l :=
  fun hm => hc (h c hm)

/-! ### Submissions in flight -/

theorem quiet_of_kind {c : Call} (h : c.kind ≠ CallKind.submit) : Quiet c := by
  intro q
  cases c <;> first
    | exact List.Sublist.refl _
    | exact List.erase_sublist _ _
    | exact absurd rfl h

theorem quiet_failed_submit (a b c f : Handle) {res : VkResult}
    (h : res ≠ VkResult.VK_SUCCESS) : Quiet (Call.vkQueueSubmit a b c f res) := by
  intro q
  cases res <;> first
    | exact absurd rfl h
    | exact List.Sublist.refl _

theorem foldl_quiet_sublist (l : List Call) :
    ∀ q : List Handle, (∀ c ∈ l, Quiet c) → (l.foldl inFlightStep q).Sublist q := by
  induction l with
  | nil => intro q _; exact List.Sublist.refl _
  | cons c cs ih =>
    intro q h
    rw [List.foldl_cons]
    exact (ih _ (fun x hx => h x (List.mem_cons_of_mem _ hx))).trans
      (h c (List.mem_cons_self _ _) q)

theorem peakInFlight_nil (q : List Handle) : peakInFlight q [] = q.length := rfl

theorem peakInFlight_cons (q : List Handle) (c : Call) (cs : List Call) :
    peakInFlight q (c :: cs) = max q.length (peakInFlight (inFlightStep q c) cs) := rfl

theorem inFlightStep_wait (q : List Handle) (fence : Handle) :
    inFlightStep q (Call.vkWaitForFences fence) = q.erase fence := rfl

theorem inFlightStep_submit (q : List Handle) (a b c fence : Handle) :
    inFlightStep q (Call.vkQueueSubmit a b c fence VkResult.VK_SUCCESS) = fence :: q := rfl

theorem le_peakInFlight (l : List Call) (q : List Handle) : q.length ≤ peakInFlight q l := by
  cases l with
  | nil => exact Nat.le_refl _
  | cons c cs => exact Nat.le_max_left _ _

theorem peakInFlight_quiet (l : List Call) :
    ∀ q : List Handle, (∀ c ∈ l, Quiet c) → peakInFlight q l ≤ q.length := by
  induction l with
  | nil => intro q _; exact Nat.le_refl _
  | cons c cs ih =>
    intro q h
    rw [peakInFlight_cons]
    apply Nat.max_le.mpr
    refine ⟨Nat.le_refl _, ?_⟩
    exact (ih _ (fun x hx => h x (List.mem_cons_of_mem _ hx))).trans
      (h c (List.mem_cons_self _ _) q).length_le

theorem peakInFlight_append (l1 l2 : List Call) :
    ∀ q : List Handle, peakInFlight q (l1 ++ l2) =
      max (peakInFlight q l1) (peakInFlight (l1.foldl inFlightStep q) l2) := by
  induction l1 with
  | nil =>
    intro q
    simp only [List.nil_append, List.foldl_nil, peakInFlight_nil]
    exact (Nat.max_eq_right (le_peakInFlight l2 q)).symm
  | cons c cs ih =>
    intro q
    simp only [List.cons_append, peakInFlight_cons, List.foldl_cons, ih, Nat.max_assoc]

theorem length_foldl_le_peakInFlight (l : List Call) :
    ∀ (q : List Handle) (p : List Call), p <+: l →
      (p.foldl inFlightStep q).length ≤ peakInFlight q l := by
  induction l with
  | nil =>
    intro q p hp
    rw [List.prefix_nil] at hp
    subst hp
    exact Nat.le_refl _
  | cons c cs ih =>
    intro q p hp
    rcases List.prefix_cons_iff.mp hp with rfl | ⟨t, rfl, ht⟩
    · exact le_peakInFlight _ _
    · rw [List.foldl_cons]
      exact (ih _ _ ht).trans (Nat.le_max_right _ _)

theorem length_le_of_nodup_subset {q F : List Handle} (hn : q.Nodup) (hs : q ⊆ F) :
    q.length ≤ F.length :=
  (hn.subperm hs).length_le

/-- One frame slot at work: after the wait on the slot fence, calls that put nothing
in flight, then at most one successful submit carrying the slot fence, keep the
submissions in flight duplicate-free and among the ring fences. -/
theorem slot_calls_bounded {F q : List Handle} {fence : Handle} (hF : fence ∈ F)
    (hn : q.Nodup) (hs : q ⊆ F) (A C : List Call) (hA : ∀ c ∈ A, Quiet c)
    (hC : ∀ c ∈ C, Quiet c) (a b c : Handle) :
    ((Call.vkWaitForFences fence :: A ++
        Call.vkQueueSubmit a b c fence VkResult.VK_SUCCESS :: C).foldl inFlightStep q).Nodup ∧
      (Call.vkWaitForFences fence :: A ++
        Call.vkQueueSubmit a b c fence VkResult.VK_SUCCESS :: C).foldl inFlightStep q ⊆ F ∧
      peakInFlight q (Call.vkWaitForFences fence :: A ++
        Call.vkQueueSubmit a b c fence VkResult.VK_SUCCESS :: C) ≤ F.length := by
  have hq1n : (q.erase fence).Nodup := hn.erase fence
  have hq1s : q.erase fence ⊆ F := fun x hx => hs (List.mem_of_mem_erase hx)
  have hq1f : fence ∉ q.erase fence := fun hx => (hn.mem_erase_iff.mp hx).1 rfl
  have hsub := foldl_quiet_sublist A (q.erase fence) hA
  have hq2n : (A.foldl inFlightStep (q.erase fence)).Nodup := hq1n.sublist hsub
  have hq2s : A.foldl inFlightStep (q.erase fence) ⊆ F := fun x hx => hq1s (hsub.subset hx)
  have hq2f : fence ∉ A.foldl inFlightStep (q.erase fence) := fun hx => hq1f (hsub.subset hx)
  have hq3n : (fence :: A.foldl inFlightStep (q.erase fence)).Nodup :=
    List.nodup_cons.mpr ⟨hq2f, hq2n⟩
  have hq3s : fence :: A.foldl inFlightStep (q.erase fence) ⊆ F := by
    intro x hx
    rcases List.mem_cons.mp hx with rfl | hx
    · exact hF
    · exact hq2s hx
  have hsub4 := foldl_quiet_sublist C (fence :: A.foldl inFlightStep (q.erase fence)) hC
  have hfold : (Call.vkWaitForFences fence :: A ++
      Call.vkQueueSubmit a b c fence VkResult.VK_SUCCESS :: C).foldl inFlightStep q =
      C.foldl inFlightStep (fence :: A.foldl inFlightStep (q.erase fence)) := by
    simp only [List.cons_append, List.foldl_cons, List.foldl_append, inFlightStep_wait,
      inFlightStep_submit]
  refine ⟨?_, ?_, ?_⟩
  · rw [hfold]; exact hq3n.sublist hsub4
  · rw [hfold]; exact fun x hx => hq3s (hsub4.subset hx)
  · have hpeak : peakInFlight q (Call.vkWaitForFences fence :: A ++
        Call.vkQueueSubmit a b c fence VkResult.VK_SUCCESS :: C) =
        max q.length (max (peakInFlight (q.erase fence) A)
          (max (A.foldl inFlightStep (q.erase fence)).length
            (peakInFlight (fence :: A.foldl inFlightStep (q.erase fence)) C))) := by
      simp only [List.cons_append, peakInFlight_cons, peakInFlight_append, inFlightStep_wait,
        inFlightStep_submit]
    rw [hpeak]
    have b1 := length_le_of_nodup_subset hn hs
    have b2 := (peakInFlight_quiet A _ hA).trans (length_le_of_nodup_subset hq1n hq1s)
    have b3 := length_le_of_nodup_subset hq2n hq2s
    have b4 := (peakInFlight_quiet C _ hC).trans (length_le_of_nodup_subset hq3n hq3s)
    exact Nat.max_le.mpr ⟨b1, Nat.max_le.mpr ⟨b2, Nat.max_le.mpr ⟨b3, b4⟩⟩⟩

/-- Calls that put nothing in flight keep the submissions in flight duplicate-free and
among the ring fences. -/
theorem quiet_calls_bounded {F q : List Handle} (hn : q.Nodup) (hs : q ⊆ F) (A : List Call)
    (hA : ∀ c ∈ A, Quiet c) :
    (A.foldl inFlightStep q).Nodup ∧ A.foldl inFlightStep q ⊆ F ∧
      peakInFlight q A ≤ F.length := by
  have hsub := foldl_quiet_sublist A q hA
  exact ⟨hn.sublist hsub, fun x hx => hs (hsub.subset hx),
    (peakInFlight_quiet A q hA).trans (length_le_of_nodup_subset hn hs)⟩

namespace VulkanApp

/-! ### The swapchain manager leaves the ring alone -/

theorem createSwapChain_slotState {s : VulkanApp} {e : VkExtent2D} {env : SwapChainEnv}
    {r : Run Bool} (h : createSwapChain s e env = some r) : slotState r.app = slotState s := by
  unfold createSwapChain at h
  split at h
  · simp at h
  · dsimp only at h
    split_ifs at h <;> (simp only [Option.some.injEq] at h; subst h; rfl)

theorem createColorImage_slotState (s : VulkanApp) (env : ImageEnv) :
    slotState (createColorImage s env).app = slotState s := by
  unfold createColorImage
  dsimp only
  split_ifs <;> rfl

theorem createDepthImage_slotState (s : VulkanApp) (fmt : Nat) (env : ImageEnv) :
    slotState (createDepthImage s fmt env).app = slotState s := by
  unfold createDepthImage
  dsimp only
  split_ifs <;> rfl

theorem createFrameBuffers_slotState {s : VulkanApp} {fb_res : Nat → VkResult}
    {fb : Nat → Handle} {r : Run Bool} (h : createFrameBuffers s fb_res fb = some r) :
    slotState r.app = slotState s := by
  unfold createFrameBuffers at h
  dsimp only at h
  split at h
  · simp at h
  · simp only [Option.some.injEq] at h; subst h; rfl

theorem cleanupSwapChainRelatedData_slotState (s : VulkanApp) :
    slotState (cleanupSwapChainRelatedData s).app = slotState s := by
  unfold cleanupSwapChainRelatedData destroyDepthImage destroyColorImage
  dsimp only
  split_ifs <;> rfl

theorem recreateSwapChainRelatedData_slotState {s : VulkanApp} {e : VkExtent2D}
    {env : RebuildEnv} {r : Run Unit} (h : recreateSwapChainRelatedData s e env = some r) :
    slotState r.app = slotState s := by
  unfold recreateSwapChainRelatedData at h
  dsimp only at h
  split at h
  · simp at h
  · rename_i r1 h1
    split at h
    · simp at h
    · rename_i r4 h4
      simp only [Option.some.injEq] at h; subst h
      dsimp only
      rw [createFrameBuffers_slotState h4, createDepthImage_slotState, createColorImage_slotState,
        createSwapChain_slotState h1, cleanupSwapChainRelatedData_slotState]

theorem slotState_current_frame {s t : VulkanApp} (h : slotState s = slotState t) :
    s._current_frame = t._current_frame := by
  simp only [slotState, Prod.mk.injEq] at h
  exact h.1

theorem slotState_inflight_fences {s t : VulkanApp} (h : slotState s = slotState t) :
    s._vk_inflight_fences = t._vk_inflight_fences := by
  simp only [slotState, Prod.mk.injEq] at h
  exact h.2.1

theorem slotState_inuse_fences {s t : VulkanApp} (h : slotState s = slotState t) :
    s._vk_inuse_fences = t._vk_inuse_fences := by
  simp only [slotState, Prod.mk.injEq] at h
  exact h.2.2.1

/-! ### Inversion of the stages of `render` -/

theorem after_eq_some {α : Type} {pre : List Call} {x : Option (Run α)} {r : Run α}
    (h : after pre x = some r) : ∃ r0, x = some r0 ∧ r = ⟨r0.app, pre ++ r0.calls, r0.ret⟩ := by
  unfold after at h
  cases x with
  | none => simp at h
  | some r0 =>
    simp only [Option.map_some', Option.some.injEq] at h
    exact ⟨r0, rfl, h.symm⟩

theorem renderPresent_inv {s : VulkanApp} {env : FrameEnv} {i : Nat} {r : Run Bool}
    (h : renderPresent s env i = some r) :
    ∃ finished, s._vk_render_finished_sems[s._current_frame]? = some finished ∧
      ((presentStale s env ∧ ∃ rb,
          recreateSwapChainRelatedData s s._target_frame_buffer_ext env.present_rebuild = some rb ∧
          r = ⟨advance rb.app,
            Call.vkQueuePresentKHR s._vk_swapchain i finished env.present_res :: rb.calls, true⟩) ∨
        (¬ presentStale s env ∧ env.present_res ≠ VkResult.VK_SUCCESS ∧
          r = ⟨s, [Call.vkQueuePresentKHR s._vk_swapchain i finished env.present_res], false⟩) ∨
        (¬ presentStale s env ∧ env.present_res = VkResult.VK_SUCCESS ∧
          r = ⟨advance s,
            [Call.vkQueuePresentKHR s._vk_swapchain i finished env.present_res], true⟩)) := by
  unfold renderPresent at h
  split at h
  · simp at h
  · rename_i finished hfin
    refine ⟨finished, hfin, ?_⟩
    dsimp only at h
    by_cases hst : presentStale s env
    · have hst2 := hst
      unfold presentStale at hst2
      rw [if_pos hst2] at h
      split at h
      · simp at h
      · rename_i rb hrb
        simp only [Option.some.injEq] at h
        exact Or.inl ⟨hst, rb, hrb, by rw [← h]; rfl⟩
    · have hst2 := hst
      unfold presentStale at hst2
      rw [if_neg hst2] at h
      split_ifs at h with hp
      · simp only [Option.some.injEq] at h
        exact Or.inr (Or.inl ⟨hst, hp, h.symm⟩)
      · simp only [Option.some.injEq] at h
        exact Or.inr (Or.inr ⟨hst, not_not.mp hp, h.symm⟩)

theorem renderSubmit_inv {s : VulkanApp} {env : FrameEnv} {i : Nat} {cmd : Handle}
    {r : Run Bool} (h : renderSubmit s env i cmd = some r) :
    ∃ available finished fence,
      s._vk_image_available_sems[s._current_frame]? = some available ∧
      s._vk_render_finished_sems[s._current_frame]? = some finished ∧
      s._vk_inflight_fences[s._current_frame]? = some fence ∧
      ((env.submit_res ≠ VkResult.VK_SUCCESS ∧
          r = ⟨s, [Call.vkResetFences fence,
            Call.vkQueueSubmit available cmd finished fence env.submit_res], false⟩) ∨
        (env.submit_res = VkResult.VK_SUCCESS ∧ ∃ r0, renderPresent s env i = some r0 ∧
          r = ⟨r0.app, [Call.vkResetFences fence,
            Call.vkQueueSubmit available cmd finished fence env.submit_res] ++ r0.calls,
            r0.ret⟩)) := by
  unfold renderSubmit at h
  split at h
  · rename_i available finished fence ha hf hfe
    refine ⟨available, finished, fence, ha, hf, hfe, ?_⟩
    dsimp only at h
    split_ifs at h with hs
    · simp only [Option.some.injEq] at h
      exact Or.inl ⟨fun e => hs e.symm, h.symm⟩
    · obtain ⟨r0, h0, hr⟩ := after_eq_some h
      exact Or.inr ⟨(not_not.mp hs).symm, r0, h0, hr⟩
  · simp at h

theorem recordDraw_kind (s : VulkanApp) (cmd : Handle) :
    AllKind CallKind.record (recordDraw s cmd) := by
  unfold recordDraw
  split <;> simp [allKind_cons, allKind_nil, Call.kind]

theorem renderRecord_inv {s : VulkanApp} {env : FrameEnv} {i : Nat} {r : Run Bool}
    (h : renderRecord s env i = some r) :
    ∃ cb pre, AllKind CallKind.record pre ∧
      (r = ⟨{ s with _vk_cmd_buffers := cb }, pre, false⟩ ∨
        ∃ r0, renderSubmit { s with _vk_cmd_buffers := cb } env i env.alloc_cmd = some r0 ∧
          r = ⟨r0.app, pre ++ r0.calls, r0.ret⟩) := by
  unfold renderRecord at h
  split at h
  · simp at h
  · rename_i cmd_buffer hcmd
    dsimp only at h
    by_cases hnull : cmd_buffer ≠ VK_NULL_HANDLE
    · simp only [if_pos hnull] at h
      split_ifs at h with ha hb
      · simp only [Option.some.injEq] at h
        refine ⟨_, _, ?_, Or.inl h.symm⟩
        simp [allKind_cons, allKind_append, allKind_nil, Call.kind]
      · simp only [Option.some.injEq] at h
        refine ⟨_, _, ?_, Or.inl h.symm⟩
        simp [allKind_cons, allKind_append, allKind_nil, Call.kind]
      · split at h
        · obtain ⟨r0, h0, hr⟩ := after_eq_some h
          refine ⟨_, _, ?_, Or.inr ⟨r0, h0, hr⟩⟩
          simp [allKind_cons, allKind_append, allKind_nil, Call.kind, recordDraw_kind]
        · simp at h
    · simp only [if_neg hnull] at h
      split_ifs at h with ha hb
      · simp only [Option.some.injEq] at h
        refine ⟨s._vk_cmd_buffers, _, ?_, Or.inl h.symm⟩
        simp [allKind_cons, allKind_append, allKind_nil, Call.kind]
      · simp only [Option.some.injEq] at h
        refine ⟨_, _, ?_, Or.inl h.symm⟩
        simp [allKind_cons, allKind_append, allKind_nil, Call.kind]
      · split at h
        · obtain ⟨r0, h0, hr⟩ := after_eq_some h
          refine ⟨_, _, ?_, Or.inr ⟨r0, h0, hr⟩⟩
          simp [allKind_cons, allKind_append, allKind_nil, Call.kind, recordDraw_kind]
        · simp at h

theorem renderFrame_inv {s : VulkanApp} {env : FrameEnv} {i : Nat} {r : Run Bool}
    (h : renderFrame s env i = some r) :
    ∃ inuse fence mvp r0, s._vk_inuse_fences[i]? = some inuse ∧
      s._vk_inflight_fences[s._current_frame]? = some fence ∧
      s._vk_mvp_buffers[s._current_frame]? = some mvp ∧
      renderRecord { s with _vk_inuse_fences := s._vk_inuse_fences.set i fence } env i = some r0 ∧
      r = ⟨r0.app, (if inuse ≠ VK_NULL_HANDLE then [Call.vkWaitForFences inuse] else []) ++
        [Call.vkMapMemory mvp.memory, Call.memcpy mvp.memory, Call.vkUnmapMemory mvp.memory] ++
        r0.calls, r0.ret⟩ := by
  unfold renderFrame at h
  split at h
  · rename_i inuse fence mvp hi hf hm
    obtain ⟨r0, h0, hr⟩ := after_eq_some h
    exact ⟨inuse, fence, mvp, r0, hi, hf, hm, h0, hr⟩
  · simp at h

theorem render_inv {s : VulkanApp} {env : FrameEnv} {r : Run Bool} (h : render s env = some r) :
    ((s._target_frame_buffer_ext.width = 0 ∨ s._target_frame_buffer_ext.height = 0) ∧
      r = ⟨s, [], false⟩) ∨
    (¬ (s._target_frame_buffer_ext.width = 0 ∨ s._target_frame_buffer_ext.height = 0) ∧
      ∃ fence available, s._vk_inflight_fences[s._current_frame]? = some fence ∧
        s._vk_image_available_sems[s._current_frame]? = some available ∧
        ((env.acquire_res = VkResult.VK_ERROR_OUT_OF_DATE_KHR ∧ ∃ rb r0,
            recreateSwapChainRelatedData s s._vk_swapchain_ext env.acquire_rebuild = some rb ∧
            renderFrame rb.app env (env.acquire_img.getD 0) = some r0 ∧
            r = ⟨r0.app, [Call.vkWaitForFences fence,
              Call.vkAcquireNextImageKHR s._vk_swapchain available env.acquire_res] ++
              rb.calls ++ r0.calls, r0.ret⟩) ∨
          (env.acquire_res ≠ VkResult.VK_ERROR_OUT_OF_DATE_KHR ∧
            env.acquire_res ≠ VkResult.VK_SUCCESS ∧
            env.acquire_res ≠ VkResult.VK_SUBOPTIMAL_KHR ∧
            r = ⟨s, [Call.vkWaitForFences fence,
              Call.vkAcquireNextImageKHR s._vk_swapchain available env.acquire_res], false⟩) ∨
          ((env.acquire_res = VkResult.VK_SUCCESS ∨
              env.acquire_res = VkResult.VK_SUBOPTIMAL_KHR) ∧ ∃ r0,
            renderFrame s env (env.acquire_img.getD 0) = some r0 ∧
            r = ⟨r0.app, [Call.vkWaitForFences fence,
              Call.vkAcquireNextImageKHR s._vk_swapchain available env.acquire_res] ++
              r0.calls, r0.ret⟩))) := by
  unfold render at h
  by_cases hz : s._target_frame_buffer_ext.width = 0 ∨ s._target_frame_buffer_ext.height = 0
  · rw [if_pos hz] at h
    simp only [Option.some.injEq] at h
    exact Or.inl ⟨hz, h.symm⟩
  · rw [if_neg hz] at h
    refine Or.inr ⟨hz, ?_⟩
    split at h
    · rename_i fence available hf ha
      refine ⟨fence, available, hf, ha, ?_⟩
      dsimp only at h
      by_cases hood : env.acquire_res = VkResult.VK_ERROR_OUT_OF_DATE_KHR
      · rw [if_pos hood] at h
        split at h
        · simp at h
        · rename_i rb hrb
          obtain ⟨r0, h0, hr⟩ := after_eq_some h
          exact Or.inl ⟨hood, rb, r0, hrb, h0, hr⟩
      · rw [if_neg hood] at h
        split_ifs at h with hbad
        · simp only [Option.some.injEq] at h
          exact Or.inr (Or.inl ⟨hood, hbad.1, hbad.2, h.symm⟩)
        · obtain ⟨r0, h0, hr⟩ := after_eq_some h
          refine Or.inr (Or.inr ⟨?_, r0, h0, hr⟩)
          by_cases hs : env.acquire_res = VkResult.VK_SUCCESS
          · exact Or.inl hs
          · right
            by_contra hsub
            exact hbad ⟨hs, hsub⟩
    · simp at h

/-! ### The ring index -/

theorem renderPresent_current_frame {s : VulkanApp} {env : FrameEnv} {i : Nat} {r : Run Bool}
    (h : renderPresent s env i = some r) :
    r.app._current_frame = if r.ret then nextFrame s._current_frame else s._current_frame := by
  obtain ⟨finished, -, h1 | h1 | h1⟩ := renderPresent_inv h
  · obtain ⟨-, rb, hrb, rfl⟩ := h1
    simp [advance, nextFrame,
      slotState_current_frame (recreateSwapChainRelatedData_slotState hrb)]
  · obtain ⟨-, -, rfl⟩ := h1
    simp
  · obtain ⟨-, -, rfl⟩ := h1
    simp [advance, nextFrame]

theorem renderSubmit_current_frame {s : VulkanApp} {env : FrameEnv} {i : Nat} {cmd : Handle}
    {r : Run Bool} (h : renderSubmit s env i cmd = some r) :
    r.app._current_frame = if r.ret then nextFrame s._current_frame else s._current_frame := by
  obtain ⟨a, f, fe, -, -, -, h1 | h1⟩ := renderSubmit_inv h
  · obtain ⟨-, rfl⟩ := h1
    simp
  · obtain ⟨-, r0, h0, rfl⟩ := h1
    have h2 := renderPresent_current_frame h0
    simpa using h2

theorem renderRecord_current_frame {s : VulkanApp} {env : FrameEnv} {i : Nat}
    {r : Run Bool} (h : renderRecord s env i = some r) :
    r.app._current_frame = if r.ret then nextFrame s._current_frame else s._current_frame := by
  obtain ⟨cb, pre, -, h1 | h1⟩ := renderRecord_inv h
  · subst h1
    simp
  · obtain ⟨r0, h0, rfl⟩ := h1
    have h2 := renderSubmit_current_frame h0
    simpa using h2

theorem renderFrame_current_frame {s : VulkanApp} {env : FrameEnv} {i : Nat}
    {r : Run Bool} (h : renderFrame s env i = some r) :
    r.app._current_frame = if r.ret then nextFrame s._current_frame else s._current_frame := by
  obtain ⟨inuse, fence, mvp, r0, -, -, -, h0, rfl⟩ := renderFrame_inv h
  have h2 := renderRecord_current_frame h0
  simpa using h2

theorem render_current_frame {s : VulkanApp} {env : FrameEnv} {r : Run Bool}
    (h : render s env = some r) :
    r.app._current_frame = if r.ret then nextFrame s._current_frame else s._current_frame := by
  obtain ⟨-, rfl⟩ | ⟨-, fence, available, -, -, h1 | h1 | h1⟩ := render_inv h
  · simp
  · obtain ⟨-, rb, r0, hrb, h0, rfl⟩ := h1
    have h2 := renderFrame_current_frame h0
    rw [slotState_current_frame (recreateSwapChainRelatedData_slotState hrb)] at h2
    simpa using h2
  · obtain ⟨-, -, -, rfl⟩ := h1
    simp
  · obtain ⟨-, r0, h0, rfl⟩ := h1
    have h2 := renderFrame_current_frame h0
    simpa using h2

theorem pollEvents_current_frame (s : VulkanApp) (e : Option VkExtent2D) :
    (pollEvents s e)._current_frame = s._current_frame := by
  cases e <;> rfl

theorem nextFrame_lt (f : Nat) : nextFrame f < MAX_INFLIGHT_FRAMES := by
  unfold nextFrame MAX_INFLIGHT_FRAMES
  exact Nat.mod_lt _ (by decide)

theorem nextFrame_of_lt {f : Nat} (h : f < MAX_INFLIGHT_FRAMES) :
    nextFrame f = (f + 1) % MAX_INFLIGHT_FRAMES := by
  unfold nextFrame MAX_INFLIGHT_FRAMES at *
  have : (f + 1) % 2 ^ 32 = f + 1 := Nat.mod_eq_of_lt (by omega)
  rw [this]

/-- After a run of the main loop in which every `render` call returned `true`, the ring
index has advanced once per call. -/
theorem mainLoop_current_frame (inputs : List LoopInput) :
    ∀ (s final : VulkanApp) (runs : List (Run Bool)),
      s._current_frame < MAX_INFLIGHT_FRAMES →
      mainLoop s inputs = some (final, runs) → (∀ r ∈ runs, r.ret = true) →
      final._current_frame = (s._current_frame + inputs.length) % MAX_INFLIGHT_FRAMES := by
  induction inputs with
  | nil =>
    intro s final runs hlt h _
    simp only [mainLoop, Option.some.injEq, Prod.mk.injEq] at h
    rw [← h.1]
    simp [Nat.mod_eq_of_lt hlt]
  | cons input inputs ih =>
    intro s final runs hlt h hall
    unfold mainLoop at h
    split at h
    · simp at h
    · rename_i r hr
      split at h
      · simp at h
      · rename_i final1 runs1 hloop
        simp only [Option.some.injEq, Prod.mk.injEq] at h
        obtain ⟨rfl, rfl⟩ := h
        have hret : r.ret = true := hall r (List.mem_cons_self _ _)
        have hf := render_current_frame hr
        rw [hret, if_pos rfl, nextFrame_of_lt hlt] at hf
        have hlt1 : (pollEvents r.app input.resized)._current_frame < MAX_INFLIGHT_FRAMES := by
          rw [pollEvents_current_frame, hf]
          exact Nat.mod_lt _ (by decide)
        have := ih _ _ _ hlt1 hloop (fun r1 h1 => hall r1 (List.mem_cons_of_mem _ h1))
        rw [this, pollEvents_current_frame, hf, List.length_cons]
        simp only [MAX_INFLIGHT_FRAMES]
        omega

/-! ### Start-up leaves the ring index at zero -/

theorem createSyncObjects_current_frame (env : InitEnv) (n : Nat) :
    ∀ (k : Nat) (s : VulkanApp) (calls : List Call),
      (createSyncObjects env n k s calls).app._current_frame = s._current_frame := by
  induction n with
  | zero => intro k s calls; rfl
  | succ n ih =>
    intro k s calls
    unfold createSyncObjects
    dsimp only
    split
    · rfl
    · split
      · rfl
      · split
        · rfl
        · rw [ih]

theorem initializeVulkanCore_current_frame {s : VulkanApp} {env : InitEnv} {r : Run Bool}
    (h : initializeVulkanCore s env = some r) : r.app._current_frame = s._current_frame := by
  unfold initializeVulkanCore at h
  split at h
  · simp only [Option.some.injEq] at h; subst h; rfl
  · dsimp only at h
    split at h
    · simp at h
    · rename_i r1 h1
      have e1 := slotState_current_frame (createSwapChain_slotState h1)
      split at h
      · simp only [Option.some.injEq] at h; subst h; exact e1
      · split at h
        · simp only [Option.some.injEq] at h; subst h; exact e1
        · split at h <;> simp only [Option.some.injEq] at h <;> subst h <;> dsimp only <;>
            rw [createSyncObjects_current_frame] <;> exact e1

theorem createUniformBuffers_current_frame (s : VulkanApp) (env : InitEnv) :
    (createUniformBuffers s env).1._current_frame = s._current_frame := rfl

theorem createDescriptors_current_frame (s : VulkanApp) (env : InitEnv) :
    (createDescriptors s env).1._current_frame = s._current_frame := by
  unfold createDescriptors
  dsimp only
  split_ifs <;> rfl

theorem initializeAssets_current_frame (s : VulkanApp) (env : InitEnv) :
    (initializeAssets s env).1._current_frame = s._current_frame := by
  unfold initializeAssets
  split
  · rfl
  · split
    · rfl
    · split
      · rfl
      · split
        · rfl
        · dsimp only
          split
          · rfl
          · rw [createDescriptors_current_frame]; rfl

theorem createGraphicsPipeline_current_frame {s : VulkanApp} {env : InitEnv} {r : Run Bool}
    (h : createGraphicsPipeline s env = some r) : r.app._current_frame = s._current_frame := by
  unfold createGraphicsPipeline at h
  split at h
  · simp only [Option.some.injEq] at h; subst h; rfl
  · dsimp only at h
    split at h
    · simp at h
    · rename_i r1 h1
      simp only [Option.some.injEq] at h; subst h
      have e1 := slotState_current_frame (createFrameBuffers_slotState h1)
      simpa using e1

theorem initializeApp_current_frame {s : VulkanApp} {mode : DemoMode} {env : InitEnv}
    {r : Run Bool} (h : initializeApp s mode env = some r) : r.app._current_frame = 0 := by
  unfold initializeApp at h
  dsimp only at h
  split at h
  · simp at h
  · rename_i r1 h1
    have e1 := initializeVulkanCore_current_frame h1
    have e2 := slotState_current_frame (createColorImage_slotState r1.app env.color)
    have e3 := slotState_current_frame
      (createDepthImage_slotState (createColorImage r1.app env.color).app env.depth_fmt env.depth)
    split at h
    · simp only [Option.some.injEq] at h; subst h; exact e1
    · split at h
      · simp only [Option.some.injEq] at h; subst h; exact e2.trans e1
      · split at h
        · simp only [Option.some.injEq] at h; subst h; exact e3.trans (e2.trans e1)
        · split at h
          · simp at h
          · rename_i r4 h4
            have e4 := createGraphicsPipeline_current_frame h4
            split at h <;> simp only [Option.some.injEq] at h <;> subst h
            · exact e4.trans (e3.trans (e2.trans e1))
            · rw [initializeAssets_current_frame]
              exact e4.trans (e3.trans (e2.trans e1))

/-! ### A device-idle wait in a frame whose acquire was not out of date -/

theorem renderPresent_idle_ret {s : VulkanApp} {env : FrameEnv} {i : Nat} {r : Run Bool}
    (h : renderPresent s env i = some r) (hi : Call.vkDeviceWaitIdle ∈ r.calls) :
    r.ret = true := by
  obtain ⟨finished, -, h1 | h1 | h1⟩ := renderPresent_inv h
  · obtain ⟨-, rb, -, rfl⟩ := h1
    rfl
  · obtain ⟨-, -, rfl⟩ := h1
    simp at hi
  · obtain ⟨-, -, rfl⟩ := h1
    rfl

theorem renderSubmit_idle_ret {s : VulkanApp} {env : FrameEnv} {i : Nat} {cmd : Handle}
    {r : Run Bool} (h : renderSubmit s env i cmd = some r)
    (hi : Call.vkDeviceWaitIdle ∈ r.calls) : r.ret = true := by
  obtain ⟨a, f, fe, -, -, -, h1 | h1⟩ := renderSubmit_inv h
  · obtain ⟨-, rfl⟩ := h1
    simp at hi
  · obtain ⟨-, r0, h0, rfl⟩ := h1
    simp at hi
    have h2 := renderPresent_idle_ret h0 hi
    exact h2

theorem renderRecord_idle_ret {s : VulkanApp} {env : FrameEnv} {i : Nat}
    {r : Run Bool} (h : renderRecord s env i = some r)
    (hi : Call.vkDeviceWaitIdle ∈ r.calls) : r.ret = true := by
  obtain ⟨cb, pre, hpre, h1 | h1⟩ := renderRecord_inv h
  · subst h1
    exact absurd hi (not_mem_of_allKind hpre (by decide))
  · obtain ⟨r0, h0, rfl⟩ := h1
    dsimp only at hi
    rcases List.mem_append.mp hi with hi | hi
    · exact absurd hi (not_mem_of_allKind hpre (by decide))
    · have h2 := renderSubmit_idle_ret h0 hi
      exact h2

theorem renderFrame_idle_ret {s : VulkanApp} {env : FrameEnv} {i : Nat}
    {r : Run Bool} (h : renderFrame s env i = some r)
    (hi : Call.vkDeviceWaitIdle ∈ r.calls) : r.ret = true := by
  obtain ⟨inuse, fence, mvp, r0, -, -, -, h0, rfl⟩ := renderFrame_inv h
  have hi2 : Call.vkDeviceWaitIdle ∈ r0.calls := by
    dsimp only at hi
    rcases List.mem_append.mp hi with hi | hi
    · rcases List.mem_append.mp hi with hi | hi
      · split_ifs at hi <;> simp at hi
      · simp at hi
    · exact hi
  have h2 := renderRecord_idle_ret h0 hi2
  exact h2

/-! ### The shape of a frame from SYNC_IMAGE on -/

/-- Normal form of `renderFrame`: the in-flight map is updated at `i`, the calls up to
RECORD are the optional wait on the fence found for the image, the uniform write and
recording calls; the frame then stops in RECORD, stops at a failed submit, or runs PRESENT
in the state `s1`. -/
theorem renderFrame_shape {s : VulkanApp} {env : FrameEnv} {i : Nat} {r : Run Bool}
    (h : renderFrame s env i = some r) :
    ∃ inuse fence mvp cb pre available finished,
      s._vk_inuse_fences[i]? = some inuse ∧
      s._vk_inflight_fences[s._current_frame]? = some fence ∧
      s._vk_mvp_buffers[s._current_frame]? = some mvp ∧
      AllKind CallKind.record pre ∧
      (r = ⟨{ s with _vk_inuse_fences := s._vk_inuse_fences.set i fence, _vk_cmd_buffers := cb },
          (if inuse ≠ VK_NULL_HANDLE then [Call.vkWaitForFences inuse] else []) ++
          [Call.vkMapMemory mvp.memory, Call.memcpy mvp.memory, Call.vkUnmapMemory mvp.memory] ++
          pre, false⟩ ∨
        (env.submit_res ≠ VkResult.VK_SUCCESS ∧
          r = ⟨{ s with _vk_inuse_fences := s._vk_inuse_fences.set i fence,
                        _vk_cmd_buffers := cb },
            (if inuse ≠ VK_NULL_HANDLE then [Call.vkWaitForFences inuse] else []) ++
            [Call.vkMapMemory mvp.memory, Call.memcpy mvp.memory,
              Call.vkUnmapMemory mvp.memory] ++ pre ++
            [Call.vkResetFences fence,
              Call.vkQueueSubmit available env.alloc_cmd finished fence env.submit_res],
            false⟩) ∨
        (env.submit_res = VkResult.VK_SUCCESS ∧ ∃ rp,
          renderPresent { s with _vk_inuse_fences := s._vk_inuse_fences.set i fence,
                                 _vk_cmd_buffers := cb } env i = some rp ∧
          r = ⟨rp.app,
            (if inuse ≠ VK_NULL_HANDLE then [Call.vkWaitForFences inuse] else []) ++
            [Call.vkMapMemory mvp.memory, Call.memcpy mvp.memory,
              Call.vkUnmapMemory mvp.memory] ++ pre ++
            [Call.vkResetFences fence,
              Call.vkQueueSubmit available env.alloc_cmd finished fence env.submit_res] ++
            rp.calls, rp.ret⟩)) := by
  obtain ⟨inuse, fence, mvp, r0, hi, hf, hm, h0, rfl⟩ := renderFrame_inv h
  obtain ⟨cb, pre, hpre, h1 | h1⟩ := renderRecord_inv h0
  · subst h1
    exact ⟨inuse, fence, mvp, cb, pre, 0, 0, hi, hf, hm, hpre, Or.inl rfl⟩
  · obtain ⟨r1, h1, rfl⟩ := h1
    obtain ⟨a, fin, fe, -, -, hfe, h2 | h2⟩ := renderSubmit_inv h1
    · obtain ⟨hs, rfl⟩ := h2
      have hfe2 : fe = fence := by
        have : s._vk_inflight_fences[s._current_frame]? = some fe := hfe
        rw [hf] at this
        exact (Option.some.inj this).symm
      subst hfe2
      refine ⟨inuse, fe, mvp, cb, pre, a, fin, hi, hf, hm, hpre, Or.inr (Or.inl ⟨hs, ?_⟩)⟩
      simp only [List.append_assoc]
    · obtain ⟨hs, rp, hrp, rfl⟩ := h2
      have hfe2 : fe = fence := by
        have : s._vk_inflight_fences[s._current_frame]? = some fe := hfe
        rw [hf] at this
        exact (Option.some.inj this).symm
      subst hfe2
      refine ⟨inuse, fe, mvp, cb, pre, a, fin, hi, hf, hm, hpre,
        Or.inr (Or.inr ⟨hs, rp, hrp, ?_⟩)⟩
      simp only [List.append_assoc]

/-! ### The rebuild branch issues swapchain-management calls only -/

theorem createSwapChainViews_kind (env : SwapChainEnv) (imgs : List Handle) :
    ∀ (k : Nat) (views : List Handle) (calls : List Call), AllKind CallKind.manage calls →
      AllKind CallKind.manage (createSwapChainViews env imgs k views calls).2.1 := by
  induction imgs with
  | nil => intro k views calls hc; exact hc
  | cons img imgs ih =>
    intro k views calls hc
    unfold createSwapChainViews
    split
    · simp [allKind_append, allKind_cons, allKind_nil, Call.kind, hc]
    · apply ih
      simp [allKind_append, allKind_cons, allKind_nil, Call.kind, hc]

theorem createSwapChain_kind {s : VulkanApp} {e : VkExtent2D} {env : SwapChainEnv}
    {r : Run Bool} (h : createSwapChain s e env = some r) : AllKind CallKind.manage r.calls := by
  unfold createSwapChain at h
  split at h
  · simp at h
  · dsimp only at h
    split at h
    · simp only [Option.some.injEq] at h; subst h; exact allKind_nil _
    · split at h
      · simp only [Option.some.injEq] at h; subst h
        simp [allKind_cons, allKind_nil, Call.kind]
      · simp only [Option.some.injEq] at h; subst h
        apply createSwapChainViews_kind
        simp [allKind_append, allKind_cons, allKind_nil, Call.kind]

theorem createVkImage_kind (ext : VkExtent2D) (fmt : Nat) (m : VkImageMem) (env : ImageEnv) :
    AllKind CallKind.manage (createVkImage ext fmt m env).2.1 := by
  unfold createVkImage
  dsimp only
  split
  · simp [allKind_cons, allKind_nil, Call.kind]
  · split <;> simp [allKind_append, allKind_cons, allKind_nil, Call.kind]

theorem createColorImage_kind (s : VulkanApp) (env : ImageEnv) :
    AllKind CallKind.manage (createColorImage s env).calls := by
  unfold createColorImage
  dsimp only
  split
  · exact createVkImage_kind _ _ _ _
  · split <;>
      simp [allKind_append, allKind_cons, allKind_nil, Call.kind, createVkImage_kind]

theorem createDepthImage_kind (s : VulkanApp) (fmt : Nat) (env : ImageEnv) :
    AllKind CallKind.manage (createDepthImage s fmt env).calls := by
  unfold createDepthImage
  dsimp only
  split
  · exact allKind_nil _
  · split
    · exact createVkImage_kind _ _ _ _
    · split <;>
        simp [allKind_append, allKind_cons, allKind_nil, Call.kind, createVkImage_kind]

theorem createFrameBuffersLoop_kind (s : VulkanApp) (fb_res : Nat → VkResult)
    (fb : Nat → Handle) (todo : List Handle) :
    ∀ (k : Nat) (done : List Handle) (calls : List Call)
      (r : List Handle × List Call × Bool), AllKind CallKind.manage calls →
      createFrameBuffersLoop s fb_res fb todo k done calls = some r →
      AllKind CallKind.manage r.2.1 := by
  induction todo with
  | nil =>
    intro k done calls r hc h
    simp only [createFrameBuffersLoop, Option.some.injEq] at h
    subst h; exact hc
  | cons x todo ih =>
    intro k done calls r hc h
    unfold createFrameBuffersLoop at h
    split at h
    · simp at h
    · dsimp only at h
      split at h
      · simp only [Option.some.injEq] at h; subst h
        simp [allKind_append, allKind_cons, allKind_nil, Call.kind, hc]
      · refine ih _ _ _ _ ?_ h
        simp [allKind_append, allKind_cons, allKind_nil, Call.kind, hc]

theorem createFrameBuffers_kind {s : VulkanApp} {fb_res : Nat → VkResult}
    {fb : Nat → Handle} {r : Run Bool} (h : createFrameBuffers s fb_res fb = some r) :
    AllKind CallKind.manage r.calls := by
  unfold createFrameBuffers at h
  dsimp only at h
  split at h
  · simp at h
  · rename_i r1 h1
    simp only [Option.some.injEq] at h; subst h
    exact createFrameBuffersLoop_kind _ _ _ _ _ _ _ _ (allKind_nil _) h1

theorem allKind_map (k : CallKind) (f : Handle → Call) (hf : ∀ x, (f x).kind = k)
    (l : List Handle) : AllKind k (l.map f) := by
  intro c hc
  obtain ⟨x, -, rfl⟩ := List.mem_map.mp hc
  exact hf x

theorem destroyVkImage_kind (m : VkImageMem) : AllKind CallKind.manage (destroyVkImage m) := by
  unfold destroyVkImage
  rw [allKind_append]
  constructor <;> split <;> simp [allKind_cons, allKind_nil, Call.kind]

theorem destroyColorImage_kind (s : VulkanApp) :
    AllKind CallKind.manage (destroyColorImage s).calls := by
  unfold destroyColorImage
  dsimp only
  rw [allKind_append]
  refine ⟨?_, destroyVkImage_kind _⟩
  split <;> simp [allKind_cons, allKind_nil, Call.kind]

theorem destroyDepthImage_kind (s : VulkanApp) :
    AllKind CallKind.manage (destroyDepthImage s).calls := by
  unfold destroyDepthImage
  dsimp only
  rw [allKind_append]
  refine ⟨?_, destroyVkImage_kind _⟩
  split <;> simp [allKind_cons, allKind_nil, Call.kind]

theorem cleanupSwapChainRelatedData_kind (s : VulkanApp) :
    AllKind CallKind.manage (cleanupSwapChainRelatedData s).calls := by
  unfold cleanupSwapChainRelatedData
  dsimp only
  simp only [allKind_append, allKind_cons]
  have h1 : AllKind CallKind.manage (s._vk_frame_buffers.map Call.vkDestroyFramebuffer) :=
    allKind_map _ Call.vkDestroyFramebuffer (fun _ => rfl) _
  have h2 : AllKind CallKind.manage (s._vk_swapchain_imgs_view.map Call.vkDestroyImageView) :=
    allKind_map _ Call.vkDestroyImageView (fun _ => rfl) _
  exact ⟨⟨⟨⟨h1, h2⟩, rfl, allKind_nil _⟩, destroyColorImage_kind _⟩, destroyDepthImage_kind _⟩

theorem recreateSwapChainRelatedData_kind {s : VulkanApp} {e : VkExtent2D}
    {env : RebuildEnv} {r : Run Unit} (h : recreateSwapChainRelatedData s e env = some r) :
    AllKind CallKind.manage r.calls := by
  unfold recreateSwapChainRelatedData at h
  dsimp only at h
  split at h
  · simp at h
  · rename_i r1 h1
    split at h
    · simp at h
    · rename_i r4 h4
      simp only [Option.some.injEq] at h; subst h
      simp only [allKind_append, allKind_cons]
      exact ⟨⟨⟨⟨⟨⟨rfl, allKind_nil _⟩, cleanupSwapChainRelatedData_kind _⟩,
        createSwapChain_kind h1⟩, createColorImage_kind _ _⟩, createDepthImage_kind _ _ _⟩,
        createFrameBuffers_kind h4⟩

/-! ### The shape of a whole frame -/

/-- Normal form of `render`: the zero-extent no-op, a failed acquire, or the frame proper
run from a base state that is the entry state, or the rebuilt state when the acquire
reported out-of-date. -/
theorem render_shape {s : VulkanApp} {env : FrameEnv} {r : Run Bool}
    (h : render s env = some r) :
    ((s._target_frame_buffer_ext.width = 0 ∨ s._target_frame_buffer_ext.height = 0) ∧
      r = ⟨s, [], false⟩) ∨
    ∃ fence available, s._vk_inflight_fences[s._current_frame]? = some fence ∧
      s._vk_image_available_sems[s._current_frame]? = some available ∧
      ((env.acquire_res ≠ VkResult.VK_ERROR_OUT_OF_DATE_KHR ∧
          env.acquire_res ≠ VkResult.VK_SUCCESS ∧
          env.acquire_res ≠ VkResult.VK_SUBOPTIMAL_KHR ∧
          r = ⟨s, [Call.vkWaitForFences fence,
            Call.vkAcquireNextImageKHR s._vk_swapchain available env.acquire_res], false⟩) ∨
        ∃ base mgmt r0, AllKind CallKind.manage mgmt ∧ slotState base = slotState s ∧
          (((env.acquire_res = VkResult.VK_SUCCESS ∨
                env.acquire_res = VkResult.VK_SUBOPTIMAL_KHR) ∧ base = s ∧ mgmt = []) ∨
            (env.acquire_res = VkResult.VK_ERROR_OUT_OF_DATE_KHR ∧ ∃ rb,
              recreateSwapChainRelatedData s s._vk_swapchain_ext env.acquire_rebuild = some rb ∧
              base = rb.app ∧ mgmt = rb.calls)) ∧
          renderFrame base env (env.acquire_img.getD 0) = some r0 ∧
          r = ⟨r0.app, [Call.vkWaitForFences fence,
            Call.vkAcquireNextImageKHR s._vk_swapchain available env.acquire_res] ++ mgmt ++
            r0.calls, r0.ret⟩) := by
  obtain ⟨hz, rfl⟩ | ⟨-, fence, available, hf, ha, h1 | h1 | h1⟩ := render_inv h
  · exact Or.inl ⟨hz, rfl⟩
  · obtain ⟨hood, rb, r0, hrb, h0, rfl⟩ := h1
    exact Or.inr ⟨fence, available, hf, ha, Or.inr ⟨rb.app, rb.calls, r0,
      recreateSwapChainRelatedData_kind hrb, recreateSwapChainRelatedData_slotState hrb,
      Or.inr ⟨hood, rb, hrb, rfl, rfl⟩, h0, rfl⟩⟩
  · exact Or.inr ⟨fence, available, hf, ha, Or.inl h1⟩
  · obtain ⟨hok, r0, h0, rfl⟩ := h1
    exact Or.inr ⟨fence, available, hf, ha, Or.inr ⟨s, [], r0, allKind_nil _, rfl,
      Or.inl ⟨hok, rfl, rfl⟩, h0, by simp⟩⟩

/-! ### Calls and ring state of a whole frame -/

theorem slotState_mvp_buffers {s t : VulkanApp} (h : slotState s = slotState t) :
    s._vk_mvp_buffers = t._vk_mvp_buffers := by
  simp only [slotState, Prod.mk.injEq] at h
  exact h.2.2.2.2.2.1

theorem renderPresent_effect {s : VulkanApp} {env : FrameEnv} {i : Nat} {r : Run Bool}
    (h : renderPresent s env i = some r) :
    r.app._vk_inuse_fences = s._vk_inuse_fences ∧
      r.app._vk_inflight_fences = s._vk_inflight_fences ∧
      ∀ c ∈ r.calls, c.kind = CallKind.present ∨ c.kind = CallKind.manage := by
  obtain ⟨finished, -, h1 | h1 | h1⟩ := renderPresent_inv h
  · obtain ⟨-, rb, hrb, rfl⟩ := h1
    have hs := recreateSwapChainRelatedData_slotState hrb
    have e1 : rb.app._vk_inuse_fences = s._vk_inuse_fences := slotState_inuse_fences hs
    have e2 : rb.app._vk_inflight_fences = s._vk_inflight_fences := slotState_inflight_fences hs
    refine ⟨e1, e2, ?_⟩
    intro c hc
    rcases List.mem_cons.mp hc with hc | hc
    · subst hc; exact Or.inl rfl
    · exact Or.inr (recreateSwapChainRelatedData_kind hrb c hc)
  · obtain ⟨-, -, rfl⟩ := h1
    refine ⟨rfl, rfl, ?_⟩
    intro c hc
    simp only [List.mem_singleton] at hc
    subst hc; exact Or.inl rfl
  · obtain ⟨-, -, rfl⟩ := h1
    refine ⟨rfl, rfl, ?_⟩
    intro c hc
    simp only [List.mem_singleton] at hc
    subst hc; exact Or.inl rfl

/-- Calls and ring state of a `render` call: either nothing was done, or the acquire failed,
or the frame ran through SYNC_IMAGE and UPDATE_UNIFORMS: then the calls are the slot wait,
the acquire, the rebuild calls `mgmt` of an out-of-date acquire, the optional wait on the
fence `inuse` found in the in-flight map, the uniform write, recording calls `rec`, the
fence reset and submit `sub` if recording succeeded, and the present (with its rebuild)
`pres` if the submit succeeded. -/
theorem render_sync {s : VulkanApp} {env : FrameEnv} {r : Run Bool}
    (h : render s env = some r) :
    r = ⟨s, [], false⟩ ∨
    ∃ fence available, s._vk_inflight_fences[s._current_frame]? = some fence ∧
      s._vk_image_available_sems[s._current_frame]? = some available ∧
      (r = ⟨s, [Call.vkWaitForFences fence,
          Call.vkAcquireNextImageKHR s._vk_swapchain available env.acquire_res], false⟩ ∨
        ∃ mgmt inuse buf rec sub pres,
          AllKind CallKind.manage mgmt ∧
          s._vk_inuse_fences[env.acquire_img.getD 0]? = some inuse ∧
          s._vk_mvp_buffers[s._current_frame]? = some buf ∧
          AllKind CallKind.record rec ∧
          ((sub = [] ∧ pres = []) ∨ ∃ av cmd fin,
            sub = [Call.vkResetFences fence,
              Call.vkQueueSubmit av cmd fin fence env.submit_res] ∧
            (env.submit_res ≠ VkResult.VK_SUCCESS → pres = [])) ∧
          (∀ c ∈ pres, c.kind = CallKind.present ∨ c.kind = CallKind.manage) ∧
          r.calls = [Call.vkWaitForFences fence,
              Call.vkAcquireNextImageKHR s._vk_swapchain available env.acquire_res] ++ mgmt ++
            (if inuse ≠ VK_NULL_HANDLE then [Call.vkWaitForFences inuse] else []) ++
            [Call.vkMapMemory buf.memory, Call.memcpy buf.memory, Call.vkUnmapMemory buf.memory] ++
            rec ++ sub ++ pres ∧
          r.app._vk_inuse_fences = s._vk_inuse_fences.set (env.acquire_img.getD 0) fence ∧
          r.app._vk_inflight_fences = s._vk_inflight_fences) := by
  obtain ⟨-, rfl⟩ | ⟨fence, available, hf, ha, h1 | h1⟩ := render_shape h
  · exact Or.inl rfl
  · exact Or.inr ⟨fence, available, hf, ha, Or.inl h1.2.2.2⟩
  · obtain ⟨base, mgmt, r0, hmg, hbase, -, h0, rfl⟩ := h1
    refine Or.inr ⟨fence, available, hf, ha, Or.inr ?_⟩
    have hbf := slotState_inflight_fences hbase
    have hbi := slotState_inuse_fences hbase
    have hbm := slotState_mvp_buffers hbase
    have hbc := slotState_current_frame hbase
    obtain ⟨inuse, fe, mvp, cb, pre, av, fin, hi, hfe, hm, hpre, h2 | h2 | h2⟩ :=
      renderFrame_shape h0
    all_goals
      rw [hbf, hbc] at hfe
      rw [hbi] at hi
      rw [hbm, hbc] at hm
      have hfe2 : fe = fence := by
        rw [hf] at hfe
        exact (Option.some.inj hfe).symm
      subst hfe2
    · subst h2
      refine ⟨mgmt, inuse, mvp, pre, [], [], hmg, hi, hm, hpre, Or.inl ⟨rfl, rfl⟩, ?_, ?_, ?_, ?_⟩
      · intro c hc; cases hc
      · simp only [List.append_assoc, List.append_nil]
      · show base._vk_inuse_fences.set _ _ = _
        rw [hbi]
      · exact hbf
    · obtain ⟨hs, rfl⟩ := h2
      refine ⟨mgmt, inuse, mvp, pre, _, [], hmg, hi, hm, hpre,
        Or.inr ⟨av, env.alloc_cmd, fin, rfl, fun _ => rfl⟩, ?_, ?_, ?_, ?_⟩
      · intro c hc; cases hc
      · simp only [List.append_assoc, List.append_nil]
      · show base._vk_inuse_fences.set _ _ = _
        rw [hbi]
      · exact hbf
    · obtain ⟨hs, rp, hrp, rfl⟩ := h2
      obtain ⟨e1, e2, e3⟩ := renderPresent_effect hrp
      refine ⟨mgmt, inuse, mvp, pre, _, rp.calls, hmg, hi, hm, hpre,
        Or.inr ⟨av, env.alloc_cmd, fin, rfl, fun hne => absurd hs hne⟩, e3, ?_, ?_, ?_⟩
      · simp only [List.append_assoc]
      · show rp.app._vk_inuse_fences = _
        rw [e1]
        show base._vk_inuse_fences.set _ _ = _
        rw [hbi]
      · show rp.app._vk_inflight_fences = _
        rw [e2]
        exact hbf

/-! ### Submissions in flight across `render` calls -/

theorem quiet_of_allKind {k : CallKind} {l : List Call} (h : AllKind k l)
    (hk : k ≠ CallKind.submit) : ∀ c ∈ l, Quiet c :=
  fun c hc => quiet_of_kind (by rw [h c hc]; exact hk)

theorem quiet_wait_ite (inuse : Handle) :
    ∀ c ∈ (if inuse ≠ VK_NULL_HANDLE then [Call.vkWaitForFences inuse] else []), Quiet c := by
  intro c hc
  split_ifs at hc
  · simp only [List.mem_singleton] at hc
    subst hc
    exact quiet_of_kind (by simp [Call.kind])
  · cases hc

theorem render_in_flight {s : VulkanApp} {env : FrameEnv} {r : Run Bool}
    (h : render s env = some r) (q : List Handle) (hn : q.Nodup)
    (hs : q ⊆ s._vk_inflight_fences) :
    (r.calls.foldl inFlightStep q).Nodup ∧
      r.calls.foldl inFlightStep q ⊆ s._vk_inflight_fences ∧
      peakInFlight q r.calls ≤ s._vk_inflight_fences.length := by
  obtain rfl | ⟨fence, available, hf, -, h1 | h1⟩ := render_sync h
  · exact quiet_calls_bounded hn hs [] (fun c hc => by cases hc)
  · subst h1
    refine quiet_calls_bounded hn hs _ ?_
    intro c hc
    simp only [List.mem_cons, List.mem_singleton, List.not_mem_nil, or_false] at hc
    rcases hc with rfl | rfl <;> exact quiet_of_kind (by simp [Call.kind])
  · obtain ⟨mgmt, inuse, buf, rec, sub, pres, hmg, -, -, hrec, hsub, hpres, hcalls, -, -⟩ := h1
    have qmg := quiet_of_allKind hmg (by decide)
    have qrec := quiet_of_allKind hrec (by decide)
    have qw := quiet_wait_ite inuse
    have qpres : ∀ c ∈ pres, Quiet c := by
      intro c hc
      rcases hpres c hc with hk | hk <;> exact quiet_of_kind (by rw [hk]; decide)
    have qhead : ∀ c ∈ Call.vkAcquireNextImageKHR s._vk_swapchain available env.acquire_res ::
        (mgmt ++ (if inuse ≠ VK_NULL_HANDLE then [Call.vkWaitForFences inuse] else []) ++
          [Call.vkMapMemory buf.memory, Call.memcpy buf.memory, Call.vkUnmapMemory buf.memory] ++
          rec), Quiet c := by
      intro c hc
      simp only [List.mem_cons, List.mem_append, List.mem_singleton, List.not_mem_nil,
        or_false] at hc
      rcases hc with rfl | ((hc | hc) | hc) | hc
      · exact quiet_of_kind (by simp [Call.kind])
      · exact qmg c hc
      · exact qw c hc
      · rcases hc with rfl | rfl | rfl <;> exact quiet_of_kind (by simp [Call.kind])
      · exact qrec c hc
    rw [hcalls]
    rcases hsub with ⟨rfl, rfl⟩ | ⟨av, cmd, fin, rfl, hfail⟩
    · have e : [Call.vkWaitForFences fence,
          Call.vkAcquireNextImageKHR s._vk_swapchain available env.acquire_res] ++ mgmt ++
          (if inuse ≠ VK_NULL_HANDLE then [Call.vkWaitForFences inuse] else []) ++
          [Call.vkMapMemory buf.memory, Call.memcpy buf.memory, Call.vkUnmapMemory buf.memory] ++
          rec ++ [] ++ [] =
          Call.vkWaitForFences fence ::
            (Call.vkAcquireNextImageKHR s._vk_swapchain available env.acquire_res ::
            (mgmt ++ (if inuse ≠ VK_NULL_HANDLE then [Call.vkWaitForFences inuse] else []) ++
              [Call.vkMapMemory buf.memory, Call.memcpy buf.memory,
                Call.vkUnmapMemory buf.memory] ++ rec)) := by
        simp only [List.append_nil, List.cons_append, List.nil_append, List.append_assoc]
      rw [e]
      refine quiet_calls_bounded hn hs _ ?_
      intro c hc
      rcases List.mem_cons.mp hc with rfl | hc
      · exact quiet_of_kind (by simp [Call.kind])
      · exact qhead c hc
    · by_cases hres : env.submit_res = VkResult.VK_SUCCESS
      · have e : [Call.vkWaitForFences fence,
            Call.vkAcquireNextImageKHR s._vk_swapchain available env.acquire_res] ++ mgmt ++
            (if inuse ≠ VK_NULL_HANDLE then [Call.vkWaitForFences inuse] else []) ++
            [Call.vkMapMemory buf.memory, Call.memcpy buf.memory,
              Call.vkUnmapMemory buf.memory] ++
            rec ++ [Call.vkResetFences fence,
              Call.vkQueueSubmit av cmd fin fence env.submit_res] ++ pres =
            Call.vkWaitForFences fence ::
              (Call.vkAcquireNextImageKHR s._vk_swapchain available env.acquire_res ::
                (mgmt ++ (if inuse ≠ VK_NULL_HANDLE then [Call.vkWaitForFences inuse] else []) ++
                [Call.vkMapMemory buf.memory, Call.memcpy buf.memory,
                  Call.vkUnmapMemory buf.memory] ++ rec) ++ [Call.vkResetFences fence]) ++
              Call.vkQueueSubmit av cmd fin fence VkResult.VK_SUCCESS :: pres := by
          rw [hres]
          simp only [List.cons_append, List.nil_append, List.append_assoc]
        rw [e]
        refine slot_calls_bounded (List.getElem?_mem hf) hn hs _ pres ?_ qpres av cmd fin
        intro c hc
        rcases List.mem_append.mp hc with hc | hc
        · exact qhead c hc
        · simp only [List.mem_singleton] at hc
          subst hc
          exact quiet_of_kind (by simp [Call.kind])
      · have hp := hfail hres
        subst hp
        have e : [Call.vkWaitForFences fence,
            Call.vkAcquireNextImageKHR s._vk_swapchain available env.acquire_res] ++ mgmt ++
            (if inuse ≠ VK_NULL_HANDLE then [Call.vkWaitForFences inuse] else []) ++
            [Call.vkMapMemory buf.memory, Call.memcpy buf.memory,
              Call.vkUnmapMemory buf.memory] ++
            rec ++ [Call.vkResetFences fence,
              Call.vkQueueSubmit av cmd fin fence env.submit_res] ++ [] =
            Call.vkWaitForFences fence ::
              (Call.vkAcquireNextImageKHR s._vk_swapchain available env.acquire_res ::
                (mgmt ++ (if inuse ≠ VK_NULL_HANDLE then [Call.vkWaitForFences inuse] else []) ++
                [Call.vkMapMemory buf.memory, Call.memcpy buf.memory,
                  Call.vkUnmapMemory buf.memory] ++ rec) ++ [Call.vkResetFences fence,
                  Call.vkQueueSubmit av cmd fin fence env.submit_res]) := by
          simp only [List.cons_append, List.nil_append, List.append_assoc, List.append_nil]
        rw [e]
        refine quiet_calls_bounded hn hs _ ?_
        intro c hc
        rcases List.mem_cons.mp hc with rfl | hc
        · exact quiet_of_kind (by simp [Call.kind])
        · rcases List.mem_append.mp hc with hc | hc
          · exact qhead c hc
          · simp only [List.mem_cons, List.mem_singleton, List.not_mem_nil, or_false] at hc
            rcases hc with rfl | rfl
            · exact quiet_of_kind (by simp [Call.kind])
            · exact quiet_failed_submit _ _ _ _ hres

theorem render_inflight_fences {s : VulkanApp} {env : FrameEnv} {r : Run Bool}
    (h : render s env = some r) : r.app._vk_inflight_fences = s._vk_inflight_fences := by
  obtain rfl | ⟨fence, available, -, -, h1 | h1⟩ := render_sync h
  · rfl
  · subst h1; rfl
  · obtain ⟨mgmt, inuse, buf, rec, sub, pres, -, -, -, -, -, -, -, -, hF⟩ := h1
    exact hF

theorem pollEvents_inflight_fences (s : VulkanApp) (e : Option VkExtent2D) :
    (pollEvents s e)._vk_inflight_fences = s._vk_inflight_fences := by
  cases e <;> rfl

theorem mainLoop_in_flight (inputs : List LoopInput) :
    ∀ (s final : VulkanApp) (runs : List (Run Bool)) (q : List Handle),
      mainLoop s inputs = some (final, runs) → q.Nodup → q ⊆ s._vk_inflight_fences →
      peakInFlight q (runs.map (fun r => r.calls)).flatten ≤ s._vk_inflight_fences.length := by
  induction inputs with
  | nil =>
    intro s final runs q h hn hs
    simp only [mainLoop, Option.some.injEq, Prod.mk.injEq] at h
    rw [← h.2]
    exact length_le_of_nodup_subset hn hs
  | cons input inputs ih =>
    intro s final runs q h hn hs
    unfold mainLoop at h
    split at h
    · simp at h
    · rename_i r hr
      split at h
      · simp at h
      · rename_i final1 runs1 hloop
        simp only [Option.some.injEq, Prod.mk.injEq] at h
        obtain ⟨-, rfl⟩ := h
        obtain ⟨b1, b2, b3⟩ := render_in_flight hr q hn hs
        have hF : (pollEvents r.app input.resized)._vk_inflight_fences =
            s._vk_inflight_fences := by
          rw [pollEvents_inflight_fences, render_inflight_fences hr]
        have b4 := ih _ _ _ (r.calls.foldl inFlightStep q) hloop b1 (by rw [hF]; exact b2)
        rw [hF] at b4
        simp only [List.map_cons, List.flatten_cons, peakInFlight_append]
        exact Nat.max_le.mpr ⟨b3, b4⟩

/-! ### Start-up keeps the ring at `MAX_INFLIGHT_FRAMES` fences -/

theorem createSyncObjects_fences_length (env : InitEnv) (n : Nat) :
    ∀ (k : Nat) (s : VulkanApp) (calls : List Call),
      (createSyncObjects env n k s calls).app._vk_inflight_fences.length =
        s._vk_inflight_fences.length := by
  induction n with
  | zero => intro k s calls; rfl
  | succ n ih =>
    intro k s calls
    unfold createSyncObjects
    dsimp only
    split
    · rfl
    · split
      · rfl
      · split
        · rfl
        · rw [ih]
          exact List.length_set _ _ _

theorem initializeVulkanCore_fences_length {s : VulkanApp} {env : InitEnv} {r : Run Bool}
    (h : initializeVulkanCore s env = some r) :
    r.app._vk_inflight_fences.length = s._vk_inflight_fences.length := by
  unfold initializeVulkanCore at h
  split at h
  · simp only [Option.some.injEq] at h; subst h; rfl
  · dsimp only at h
    split at h
    · simp at h
    · rename_i r1 h1
      have e0 := slotState_inflight_fences (createSwapChain_slotState h1)
      have e1 : r1.app._vk_inflight_fences = s._vk_inflight_fences := e0
      split at h
      · simp only [Option.some.injEq] at h; subst h; rw [e1]
      · split at h
        · simp only [Option.some.injEq] at h; subst h; rw [e1]
        · split at h <;> simp only [Option.some.injEq] at h <;> subst h <;> dsimp only <;>
            rw [createSyncObjects_fences_length] <;> dsimp only <;> rw [e1]

theorem createDescriptors_fences (s : VulkanApp) (env : InitEnv) :
    (createDescriptors s env).1._vk_inflight_fences = s._vk_inflight_fences := by
  unfold createDescriptors
  dsimp only
  split
  · rfl
  · split <;> rfl

theorem initializeAssets_fences (s : VulkanApp) (env : InitEnv) :
    (initializeAssets s env).1._vk_inflight_fences = s._vk_inflight_fences := by
  unfold initializeAssets
  split
  · rfl
  · split
    · rfl
    · split
      · rfl
      · split
        · rfl
        · dsimp only
          split
          · rfl
          · rw [createDescriptors_fences]; rfl

theorem createGraphicsPipeline_fences {s : VulkanApp} {env : InitEnv} {r : Run Bool}
    (h : createGraphicsPipeline s env = some r) :
    r.app._vk_inflight_fences = s._vk_inflight_fences := by
  unfold createGraphicsPipeline at h
  split at h
  · simp only [Option.some.injEq] at h; subst h; rfl
  · dsimp only at h
    split at h
    · simp at h
    · rename_i r1 h1
      simp only [Option.some.injEq] at h; subst h
      have e1 := slotState_inflight_fences (createFrameBuffers_slotState h1)
      simpa using e1

theorem initializeApp_fences_length {s : VulkanApp} {mode : DemoMode} {env : InitEnv}
    {r : Run Bool} (h : initializeApp s mode env = some r) :
    r.app._vk_inflight_fences.length = s._vk_inflight_fences.length := by
  unfold initializeApp at h
  dsimp only at h
  split at h
  · simp at h
  · rename_i r1 h1
    have e1 := initializeVulkanCore_fences_length h1
    have e2 := slotState_inflight_fences (createColorImage_slotState r1.app env.color)
    have e3 := slotState_inflight_fences
      (createDepthImage_slotState (createColorImage r1.app env.color).app env.depth_fmt env.depth)
    split at h
    · simp only [Option.some.injEq] at h; subst h; exact e1
    · split at h
      · simp only [Option.some.injEq] at h; subst h
        show (createColorImage r1.app env.color).app._vk_inflight_fences.length = _
        rw [e2]; exact e1
      · split at h
        · simp only [Option.some.injEq] at h; subst h
          show (createDepthImage (createColorImage r1.app env.color).app env.depth_fmt
            env.depth).app._vk_inflight_fences.length = _
          rw [e3, e2]; exact e1
        · split at h
          · simp at h
          · rename_i r4 h4
            have e4 := createGraphicsPipeline_fences h4
            split at h <;> simp only [Option.some.injEq] at h <;> subst h
            · show r4.app._vk_inflight_fences.length = _
              rw [e4, e3, e2]; exact e1
            · show (initializeAssets (createCommandBuffers r4.app) env).1._vk_inflight_fences.length
                = _
              rw [initializeAssets_fences]
              show r4.app._vk_inflight_fences.length = _
              rw [e4, e3, e2]; exact e1

/-- In a `render` call every submit is the one carrying the slot fence, and the wait on
that fence is the first call issued. -/
theorem render_submit_after_wait {s : VulkanApp} {env : FrameEnv} {r : Run Bool}
    (h : render s env = some r) (a b c fence : Handle) (res : VkResult)
    (hsub : Call.vkQueueSubmit a b c fence res ∈ r.calls) :
    r.calls.head? = some (Call.vkWaitForFences fence) ∧
      s._vk_inflight_fences[s._current_frame]? = some fence ∧ res = env.submit_res := by
  obtain rfl | ⟨fe, available, hf, -, h1 | h1⟩ := render_sync h
  · simp at hsub
  · subst h1
    simp at hsub
  · obtain ⟨mgmt, inuse, buf, rec, sub, pres, hmg, -, -, hrec, hsb, hpres, hcalls, -, -⟩ := h1
    rw [hcalls] at hsub ⊢
    simp only [List.mem_append, List.mem_cons, List.mem_singleton, List.not_mem_nil,
      or_false] at hsub
    have key : Call.vkQueueSubmit a b c fence res ∈ sub := by
      rcases hsub with (((((hx | hx) | hx) | hx) | hx) | hx) | hx
      · rcases hx with hx | hx <;> cases hx
      · exact absurd hx (not_mem_of_allKind hmg (by simp [Call.kind]))
      · split_ifs at hx <;> simp at hx
      · rcases hx with hx | hx | hx <;> cases hx
      · exact absurd hx (not_mem_of_allKind hrec (by simp [Call.kind]))
      · exact hx
      · rcases hpres _ hx with hk | hk <;> simp [Call.kind] at hk
    rcases hsb with ⟨rfl, -⟩ | ⟨av, cmd, fin, rfl, -⟩
    · cases key
    · simp only [List.mem_cons, List.mem_singleton, List.not_mem_nil, or_false] at key
      rcases key with key | key
      · cases key
      · injection key with _ _ _ e4 e5
        subst e4 e5
        exact ⟨by simp, hf, rfl⟩

/-! ### The in-flight image map across `render` calls -/

/-- A list splits in only one way around its single `memcpy`. -/
theorem split_at_memcpy (A : List Call) :
    ∀ (A2 B B2 : List Call) (m m2 : Handle),
      A ++ Call.memcpy m :: B = A2 ++ Call.memcpy m2 :: B2 →
      (∀ c ∈ A, ∀ x, c ≠ Call.memcpy x) → (∀ c ∈ B, ∀ x, c ≠ Call.memcpy x) →
      A2 = A ∧ m2 = m ∧ B2 = B := by
  induction A with
  | nil =>
    intro A2 B B2 m m2 h _ hB
    cases A2 with
    | nil =>
      simp only [List.nil_append, List.cons.injEq, Call.memcpy.injEq] at h
      exact ⟨rfl, h.1.symm, h.2.symm⟩
    | cons a A2 =>
      simp only [List.nil_append, List.cons_append, List.cons.injEq] at h
      exact absurd rfl (hB (Call.memcpy m2) (by rw [h.2]; simp) m2)
  | cons a A ih =>
    intro A2 B B2 m m2 h hA hB
    cases A2 with
    | nil =>
      simp only [List.nil_append, List.cons_append, List.cons.injEq] at h
      exact absurd h.1 (hA a (List.mem_cons_self _ _) m2)
    | cons a2 A2 =>
      simp only [List.cons_append, List.cons.injEq] at h
      obtain ⟨e1, e2, e3⟩ := ih A2 B B2 m m2 h.2
        (fun c hc => hA c (List.mem_cons_of_mem _ hc)) hB
      exact ⟨by rw [h.1, e1], e2, e3⟩

theorem ne_memcpy_of_kind {c : Call} (h : c.kind ≠ CallKind.write) (x : Handle) :
    c ≠ Call.memcpy x := by
  intro e
  subst e
  exact h rfl

theorem ne_memcpy_of_allKind {k : CallKind} {l : List Call} (h : AllKind k l)
    (hk : k ≠ CallKind.write) : ∀ c ∈ l, ∀ x, c ≠ Call.memcpy x :=
  fun c hc x => ne_memcpy_of_kind (by rw [h c hc]; exact hk) x

/-- The calls of a `render` call up to its uniform write: the slot wait, the acquire, the
rebuild calls of an out-of-date acquire, the wait on the fence the in-flight map holds for
the image, and the mapping of the slot's uniform buffer. -/
theorem render_write_split {s : VulkanApp} {env : FrameEnv} {r : Run Bool}
    (h : render s env = some r) {pre post : List Call} {mem : Handle}
    (hw : r.calls = pre ++ Call.memcpy mem :: post) :
    ∃ fence available mgmt inuse buf,
      s._vk_inflight_fences[s._current_frame]? = some fence ∧
      AllKind CallKind.manage mgmt ∧
      s._vk_inuse_fences[env.acquire_img.getD 0]? = some inuse ∧
      s._vk_mvp_buffers[s._current_frame]? = some buf ∧ buf.memory = mem ∧
      pre = [Call.vkWaitForFences fence,
          Call.vkAcquireNextImageKHR s._vk_swapchain available env.acquire_res] ++ mgmt ++
        (if inuse ≠ VK_NULL_HANDLE then [Call.vkWaitForFences inuse] else []) ++
        [Call.vkMapMemory buf.memory] := by
  obtain rfl | ⟨fence, available, hf, -, h1 | h1⟩ := render_sync h
  · cases pre <;> simp at hw
  · subst h1
    exfalso
    have : Call.memcpy mem ∈ [Call.vkWaitForFences fence,
        Call.vkAcquireNextImageKHR s._vk_swapchain available env.acquire_res] := by
      have e : [Call.vkWaitForFences fence,
          Call.vkAcquireNextImageKHR s._vk_swapchain available env.acquire_res] =
          pre ++ Call.memcpy mem :: post := hw
      rw [e]; simp
    simp at this
  · obtain ⟨mgmt, inuse, buf, rec, sub, pres, hmg, hi, hm, hrec, hsb, hpres, hcalls, -, -⟩ := h1
    rw [hcalls] at hw
    have e : [Call.vkWaitForFences fence,
        Call.vkAcquireNextImageKHR s._vk_swapchain available env.acquire_res] ++ mgmt ++
        (if inuse ≠ VK_NULL_HANDLE then [Call.vkWaitForFences inuse] else []) ++
        [Call.vkMapMemory buf.memory, Call.memcpy buf.memory, Call.vkUnmapMemory buf.memory] ++
        rec ++ sub ++ pres =
        ([Call.vkWaitForFences fence,
          Call.vkAcquireNextImageKHR s._vk_swapchain available env.acquire_res] ++ mgmt ++
          (if inuse ≠ VK_NULL_HANDLE then [Call.vkWaitForFences inuse] else []) ++
          [Call.vkMapMemory buf.memory]) ++ Call.memcpy buf.memory ::
          (Call.vkUnmapMemory buf.memory :: (rec ++ sub ++ pres)) := by
      simp only [List.cons_append, List.nil_append, List.append_assoc]
    rw [e] at hw
    have hA : ∀ c ∈ [Call.vkWaitForFences fence,
          Call.vkAcquireNextImageKHR s._vk_swapchain available env.acquire_res] ++ mgmt ++
          (if inuse ≠ VK_NULL_HANDLE then [Call.vkWaitForFences inuse] else []) ++
          [Call.vkMapMemory buf.memory], ∀ x, c ≠ Call.memcpy x := by
      intro c hc x
      simp only [List.mem_append, List.mem_cons, List.mem_singleton, List.not_mem_nil,
        or_false] at hc
      rcases hc with ((hc | hc) | hc) | hc
      · rcases hc with rfl | rfl <;> simp
      · exact ne_memcpy_of_allKind hmg (by decide) c hc x
      · split_ifs at hc
        · simp only [List.mem_singleton] at hc
          subst hc; simp
        · cases hc
      · subst hc; simp
    have hB : ∀ c ∈ Call.vkUnmapMemory buf.memory :: (rec ++ sub ++ pres),
        ∀ x, c ≠ Call.memcpy x := by
      intro c hc x
      simp only [List.mem_append, List.mem_cons] at hc
      rcases hc with rfl | (hc | hc) | hc
      · simp
      · exact ne_memcpy_of_allKind hrec (by decide) c hc x
      · rcases hsb with ⟨rfl, -⟩ | ⟨av, cmd, fin, rfl, -⟩
        · cases hc
        · simp only [List.mem_cons, List.mem_singleton, List.not_mem_nil, or_false] at hc
          rcases hc with rfl | rfl <;> simp
      · rcases hpres c hc with hk | hk <;>
          exact ne_memcpy_of_kind (by rw [hk]; decide) x
    obtain ⟨e1, e2, -⟩ := split_at_memcpy _ _ _ _ _ _ hw hA hB
    exact ⟨fence, available, mgmt, inuse, buf, hf, hmg, hi, hm, e2.symm, e1⟩

/-- A `render` call keeps the fence the in-flight map holds for image `i`, unless it waits
on that fence; it keeps it in any case when it uses another image index. -/
theorem render_inuse_entry {s : VulkanApp} {env : FrameEnv} {r : Run Bool}
    (h : render s env = some r) {i : Nat} {fence : Handle}
    (hm : s._vk_inuse_fences[i]? = some fence) (hne : fence ≠ VK_NULL_HANDLE) :
    (r.app._vk_inuse_fences[i]? = some fence ∨ Call.vkWaitForFences fence ∈ r.calls) ∧
      (env.acquire_img.getD 0 ≠ i → r.app._vk_inuse_fences[i]? = some fence) := by
  obtain rfl | ⟨fe, available, -, -, h1 | h1⟩ := render_sync h
  · exact ⟨Or.inl hm, fun _ => hm⟩
  · subst h1
    exact ⟨Or.inl hm, fun _ => hm⟩
  · obtain ⟨mgmt, inuse, buf, rec, sub, pres, -, hi, -, -, -, -, hcalls, hmap, -⟩ := h1
    have hkeep : env.acquire_img.getD 0 ≠ i → r.app._vk_inuse_fences[i]? = some fence := by
      intro hd
      rw [hmap, List.getElem?_set_ne hd]
      exact hm
    refine ⟨?_, hkeep⟩
    by_cases hd : env.acquire_img.getD 0 = i
    · right
      rw [hd, hm] at hi
      have e : fence = inuse := Option.some.inj hi
      subst e
      rw [hcalls, if_pos hne]
      simp
    · exact Or.inl (hkeep hd)

theorem pollEvents_inuse_fences (s : VulkanApp) (e : Option VkExtent2D) :
    (pollEvents s e)._vk_inuse_fences = s._vk_inuse_fences := by
  cases e <;> rfl

theorem mainLoop_inuse_entry (inputs : List LoopInput) :
    ∀ (s final : VulkanApp) (runs : List (Run Bool)) (i : Nat) (fence : Handle),
      mainLoop s inputs = some (final, runs) → s._vk_inuse_fences[i]? = some fence →
      fence ≠ VK_NULL_HANDLE →
      (final._vk_inuse_fences[i]? = some fence ∨
          Call.vkWaitForFences fence ∈ (runs.map (fun r => r.calls)).flatten) ∧
        ((∀ x ∈ inputs, x.frame.acquire_img.getD 0 ≠ i) →
          final._vk_inuse_fences[i]? = some fence) := by
  induction inputs with
  | nil =>
    intro s final runs i fence h hm _
    simp only [mainLoop, Option.some.injEq, Prod.mk.injEq] at h
    rw [← h.1]
    exact ⟨Or.inl hm, fun _ => hm⟩
  | cons input inputs ih =>
    intro s final runs i fence h hm hne
    unfold mainLoop at h
    split at h
    · simp at h
    · rename_i r hr
      split at h
      · simp at h
      · rename_i final1 runs1 hloop
        simp only [Option.some.injEq, Prod.mk.injEq] at h
        obtain ⟨rfl, rfl⟩ := h
        obtain ⟨d1, d2⟩ := render_inuse_entry hr hm hne
        constructor
        · rcases d1 with d1 | d1
          · have hm1 : (pollEvents r.app input.resized)._vk_inuse_fences[i]? = some fence := by
              rw [pollEvents_inuse_fences]; exact d1
            rcases (ih _ _ _ i fence hloop hm1 hne).1 with d3 | d3
            · exact Or.inl d3
            · right
              simp only [List.map_cons, List.flatten_cons, List.mem_append]
              exact Or.inr d3
          · right
            simp only [List.map_cons, List.flatten_cons, List.mem_append]
            exact Or.inl d1
        · intro hall
          have hm1 : (pollEvents r.app input.resized)._vk_inuse_fences[i]? = some fence := by
            rw [pollEvents_inuse_fences]
            exact d2 (hall input (List.mem_cons_self _ _))
          exact (ih _ _ _ i fence hloop hm1 hne).2
            (fun x hx => hall x (List.mem_cons_of_mem _ hx))

/-- A `render` call that submits successfully has recorded the fence the submit carries
as the owner of the image index it used. -/
theorem render_submit_records {s : VulkanApp} {env : FrameEnv} {r : Run Bool}
    (h : render s env = some r) {a b c fence : Handle}
    (hsub : Call.vkQueueSubmit a b c fence VkResult.VK_SUCCESS ∈ r.calls) :
    r.app._vk_inuse_fences[env.acquire_img.getD 0]? = some fence := by
  obtain ⟨-, hf, -⟩ := render_submit_after_wait h a b c fence _ hsub
  obtain rfl | ⟨fe, available, hfe, -, h1 | h1⟩ := render_sync h
  · simp at hsub
  · subst h1
    simp at hsub
  · obtain ⟨mgmt, inuse, buf, rec, sub, pres, -, hi, -, -, -, -, -, hmap, -⟩ := h1
    rw [hf] at hfe
    have e : fence = fe := Option.some.inj hfe
    subst e
    rw [hmap]
    have hlt : env.acquire_img.getD 0 < s._vk_inuse_fences.length := by
      obtain ⟨hlt, -⟩ := List.getElem?_eq_some_iff.mp hi
      exact hlt
    exact List.getElem?_set_self hlt

/-! ### Frames that reach PRESENT -/

/-- A `render` call with a present call among its calls ran PRESENT after a successful
submit, from the base state of the frame with the in-flight map and the command-buffer
array updated. -/
theorem render_reaches_present {s : VulkanApp} {env : FrameEnv} {r : Run Bool}
    (h : render s env = some r) {sc : Handle} {idx : Nat} {sem : Handle} {res : VkResult}
    (hp : Call.vkQueuePresentKHR sc idx sem res ∈ r.calls) :
    ∃ (fence available : Handle) (base : VulkanApp) (mgmt : List Call) (inuse : Handle)
      (mvp : VkBufferMem) (cb : List Handle) (rec : List Call) (av fin : Handle) (rp : Run Bool),
      AllKind CallKind.manage mgmt ∧ AllKind CallKind.record rec ∧
      (((env.acquire_res = VkResult.VK_SUCCESS ∨
            env.acquire_res = VkResult.VK_SUBOPTIMAL_KHR) ∧ base = s ∧ mgmt = []) ∨
        (env.acquire_res = VkResult.VK_ERROR_OUT_OF_DATE_KHR ∧ ∃ rb,
          recreateSwapChainRelatedData s s._vk_swapchain_ext env.acquire_rebuild = some rb ∧
          base = rb.app ∧ mgmt = rb.calls)) ∧
      env.submit_res = VkResult.VK_SUCCESS ∧
      renderPresent { base with
          _vk_inuse_fences := base._vk_inuse_fences.set (env.acquire_img.getD 0) fence,
          _vk_cmd_buffers := cb } env (env.acquire_img.getD 0) = some rp ∧
      r = ⟨rp.app,
        [Call.vkWaitForFences fence,
          Call.vkAcquireNextImageKHR s._vk_swapchain available env.acquire_res] ++ mgmt ++
        ((if inuse ≠ VK_NULL_HANDLE then [Call.vkWaitForFences inuse] else []) ++
          [Call.vkMapMemory mvp.memory, Call.memcpy mvp.memory, Call.vkUnmapMemory mvp.memory] ++
          rec ++ [Call.vkResetFences fence,
            Call.vkQueueSubmit av env.alloc_cmd fin fence env.submit_res]) ++ rp.calls,
        rp.ret⟩ := by
  obtain ⟨-, rfl⟩ | ⟨fence, available, hf, -, h1 | h1⟩ := render_shape h
  · simp at hp
  · obtain ⟨-, -, -, rfl⟩ := h1
    simp at hp
  · obtain ⟨base, mgmt, r0, hmg, hbs, hbase, h0, rfl⟩ := h1
    obtain ⟨inuse, fe, mvp, cb, pre, av, fin, -, hfe, -, hpre, h2 | h2 | h2⟩ :=
      renderFrame_shape h0
    · subst h2
      exfalso
      simp only [List.mem_append, List.mem_cons, List.mem_singleton, List.not_mem_nil,
        or_false] at hp
      rcases hp with (hp | hp) | (hp | hp) | hp
      · rcases hp with hp | hp <;> cases hp
      · exact not_mem_of_allKind hmg (by simp [Call.kind]) hp
      · split_ifs at hp <;> simp at hp
      · rcases hp with hp | hp | hp <;> cases hp
      · exact not_mem_of_allKind hpre (by simp [Call.kind]) hp
    · obtain ⟨-, rfl⟩ := h2
      exfalso
      simp only [List.mem_append, List.mem_cons, List.mem_singleton, List.not_mem_nil,
        or_false] at hp
      rcases hp with (hp | hp) | ((hp | hp) | hp) | hp
      · rcases hp with hp | hp <;> cases hp
      · exact not_mem_of_allKind hmg (by simp [Call.kind]) hp
      · split_ifs at hp <;> simp at hp
      · rcases hp with hp | hp | hp <;> cases hp
      · exact not_mem_of_allKind hpre (by simp [Call.kind]) hp
      · rcases hp with hp | hp <;> cases hp
    · obtain ⟨hs, rp, hrp, rfl⟩ := h2
      rw [slotState_inflight_fences hbs, slotState_current_frame hbs, hf] at hfe
      have e : fence = fe := Option.some.inj hfe
      subst e
      refine ⟨fence, available, base, mgmt, inuse, mvp, cb, pre, av, fin, rp, hmg, hpre, hbase,
        hs, hrp, ?_⟩
      simp only [List.append_assoc]

/-- When the acquire did not report out-of-date, the submit succeeded and the present
reports an out-of-date or suboptimal surface, the call runs the rebuild branch once, after
the present call, with the tracked target extent, and returns success: no call before the
present is a swapchain-management call, and the calls after it are those of one
`recreateSwapChainRelatedData` run. -/
theorem stale_present_rebuilds_once {s : VulkanApp} {env : FrameEnv} {r : Run Bool}
    (h : render s env = some r)
    (hacq : env.acquire_res ≠ VkResult.VK_ERROR_OUT_OF_DATE_KHR)
    {sc : Handle} {idx : Nat} {sem : Handle} {res : VkResult}
    (hp : Call.vkQueuePresentKHR sc idx sem res ∈ r.calls)
    (hstale : env.present_res = VkResult.VK_ERROR_OUT_OF_DATE_KHR ∨
      env.present_res = VkResult.VK_SUBOPTIMAL_KHR) :
    ∃ (m cb : List Handle) (pre : List Call) (rb : Run Unit) (finished : Handle),
      (∀ c ∈ pre, c.kind ≠ CallKind.manage) ∧
      recreateSwapChainRelatedData { s with _vk_inuse_fences := m, _vk_cmd_buffers := cb }
        s._target_frame_buffer_ext env.present_rebuild = some rb ∧
      r.calls = pre ++ Call.vkQueuePresentKHR s._vk_swapchain (env.acquire_img.getD 0) finished
        env.present_res :: rb.calls ∧
      r.ret = true := by
  obtain ⟨fence, available, base, mgmt, inuse, mvp, cb, rec, av, fin, rp, -, hrec, hbase, -,
    hrp, rfl⟩ := render_reaches_present h hp
  rcases hbase with ⟨-, rfl, rfl⟩ | ⟨hood, -⟩
  · obtain ⟨finished, -, h3 | h3 | h3⟩ := renderPresent_inv hrp
    · obtain ⟨-, rb, hrb, rfl⟩ := h3
      refine ⟨_, cb, _, rb, finished, ?_, hrb, rfl, rfl⟩
      intro c hc
      rcases List.mem_append.mp hc with hc | hc
      · rcases List.mem_append.mp hc with hc | hc
        · simp only [List.mem_cons, List.mem_singleton, List.not_mem_nil, or_false] at hc
          rcases hc with rfl | rfl <;> (intro hk; cases hk)
        · cases hc
      · rcases List.mem_append.mp hc with hc | hc
        · rcases List.mem_append.mp hc with hc | hc
          · rcases List.mem_append.mp hc with hc | hc
            · split_ifs at hc
              · simp only [List.mem_singleton] at hc
                subst hc
                intro hk; cases hk
              · cases hc
            · simp only [List.mem_cons, List.mem_singleton, List.not_mem_nil, or_false] at hc
              rcases hc with rfl | rfl | rfl <;> (intro hk; cases hk)
          · exact kind_ne_of_eq (hrec c hc) (by decide)
        · simp only [List.mem_cons, List.mem_singleton, List.not_mem_nil, or_false] at hc
          rcases hc with rfl | rfl <;> (intro hk; cases hk)
    · exfalso
      apply h3.1
      rcases hstale with e | e
      · exact Or.inl e
      · exact Or.inr (Or.inl e)
    · exfalso
      apply h3.1
      rcases hstale with e | e
      · exact Or.inl e
      · exact Or.inr (Or.inl e)
  · exact absurd hood hacq


/-! ### Swapchain parameter selection -/

theorem find_preferred_format {formats : List VkSurfaceFormatKHR} {f : VkSurfaceFormatKHR}
    (h : formats.find? (fun fmt => fmt.format == VK_FORMAT_B8G8R8_SRGB &&
      fmt.colorSpace == VK_COLOR_SPACE_SRGB_NONLINEAR_KHR) = some f) :
    f.format = VK_FORMAT_B8G8R8_SRGB ∧ f.colorSpace = VK_COLOR_SPACE_SRGB_NONLINEAR_KHR := by
  have := List.find?_some h
  simpa using this

theorem selectSurfaceFormat_isSome {formats : List VkSurfaceFormatKHR} (hf : formats ≠ []) :
    ∃ fmt, selectSurfaceFormat formats = some fmt := by
  unfold selectSurfaceFormat
  cases hfind : formats.find? (fun fmt => fmt.format == VK_FORMAT_B8G8R8_SRGB &&
      fmt.colorSpace == VK_COLOR_SPACE_SRGB_NONLINEAR_KHR) with
  | none =>
    cases formats with
    | nil => exact absurd rfl hf
    | cons a l => exact ⟨a, by simp [VK_FORMAT_UNDEFINED]⟩
  | some f =>
    have hp := find_preferred_format hfind
    refine ⟨f, ?_⟩
    simp [hp.1, VK_FORMAT_B8G8R8_SRGB, VK_FORMAT_UNDEFINED]

/-- The image-view loop appends to the views and to the calls it is given: at most one
view per image, exactly one per image when it succeeds, and it succeeds when the driver
creates every view. -/
theorem createSwapChainViews_spec (env : SwapChainEnv) (imgs : List Handle) :
    ∀ (k : Nat) (views : List Handle) (calls : List Call),
      ∃ (newViews : List Handle) (vcalls : List Call) (ok : Bool),
        createSwapChainViews env imgs k views calls = (views ++ newViews, calls ++ vcalls, ok) ∧
        newViews.length ≤ imgs.length ∧
        (ok = true → newViews.length = imgs.length) ∧
        (∀ c ∈ vcalls, ∃ img res, c = Call.vkCreateImageView img res) ∧
        ((∀ j, env.view_res j = VkResult.VK_SUCCESS) → ok = true) := by
  induction imgs with
  | nil =>
    intro k views calls
    exact ⟨[], [], true, by simp [createSwapChainViews], le_refl _, fun _ => rfl,
      fun c hc => by simp at hc, fun _ => rfl⟩
  | cons img imgs ih =>
    intro k views calls
    unfold createSwapChainViews
    by_cases hres : env.view_res k ≠ VkResult.VK_SUCCESS
    · rw [if_pos hres]
      refine ⟨[], [Call.vkCreateImageView img (env.view_res k)], false, by simp, by simp,
        fun h => by simp at h, ?_, fun hall => absurd (hall k) hres⟩
      intro c hc
      exact ⟨img, env.view_res k, by simpa using hc⟩
    · rw [if_neg hres]
      obtain ⟨nv, vc, ok, heq, hlen, hok, hvc, hall⟩ := ih (k + 1) (views ++ [env.view k])
        (calls ++ [Call.vkCreateImageView img (env.view_res k)])
      refine ⟨env.view k :: nv, Call.vkCreateImageView img (env.view_res k) :: vc, ok,
        by simp [heq], by simpa using hlen, fun h => by simpa using hok h, ?_, hall⟩
      intro c hc
      rcases List.mem_cons.mp hc with hc | hc
      · exact ⟨img, env.view_res k, hc⟩
      · exact hvc c hc

/-- The three ways `createSwapChain` ends: rejected for a too small image count, failed
swapchain creation, or a created swapchain followed by the image-view loop. -/
theorem createSwapChain_inv {s : VulkanApp} {e : VkExtent2D} {env : SwapChainEnv}
    {r : Run Bool} (h : createSwapChain s e env = some r) :
    ∃ fmt, selectSurfaceFormat env.props.formats = some fmt ∧
      ((selectImageCount env.props.caps < MAX_INFLIGHT_FRAMES ∧ r = ⟨s, [], false⟩) ∨
       (¬ selectImageCount env.props.caps < MAX_INFLIGHT_FRAMES ∧
          env.create_res ≠ VkResult.VK_SUCCESS ∧
          r = ⟨s, [Call.vkCreateSwapchainKHR (selectExtent env.props.caps e)
            (selectImageCount env.props.caps) fmt (selectPresentMode env.props.present_modes)
            env.create_res], false⟩) ∨
       (¬ selectImageCount env.props.caps < MAX_INFLIGHT_FRAMES ∧
          env.create_res = VkResult.VK_SUCCESS ∧
          ∃ (newViews : List Handle) (vcalls : List Call),
            r.app = { s with
              _vk_swapchain := env.swapchain
              _vk_swapchain_ext := selectExtent env.props.caps e
              _target_frame_buffer_ext := selectExtent env.props.caps e
              _vk_swapchain_fmt := fmt.format
              _vk_swapchain_imgs := env.images
              _vk_swapchain_imgs_view := s._vk_swapchain_imgs_view ++ newViews } ∧
            r.calls = [Call.vkCreateSwapchainKHR (selectExtent env.props.caps e)
              (selectImageCount env.props.caps) fmt
              (selectPresentMode env.props.present_modes) env.create_res,
              Call.vkGetSwapchainImagesKHR env.swapchain,
              Call.vkGetSwapchainImagesKHR env.swapchain] ++ vcalls ∧
            newViews.length ≤ env.images.length ∧
            (r.ret = true → newViews.length = env.images.length) ∧
            (∀ c ∈ vcalls, ∃ img res, c = Call.vkCreateImageView img res) ∧
            ((∀ j, env.view_res j = VkResult.VK_SUCCESS) → r.ret = true))) := by
  unfold createSwapChain at h
  split at h
  · simp at h
  · rename_i fmt hfmt
    refine ⟨fmt, hfmt, ?_⟩
    dsimp only at h
    split at h
    · rename_i hcnt
      simp only [Option.some.injEq] at h
      exact Or.inl ⟨hcnt, h.symm⟩
    · rename_i hcnt
      split at h
      · rename_i hres
        simp only [Option.some.injEq] at h
        exact Or.inr (Or.inl ⟨hcnt, hres, h.symm⟩)
      · rename_i hres
        simp only [Option.some.injEq] at h
        refine Or.inr (Or.inr ⟨hcnt, not_not.mp hres, ?_⟩)
        obtain ⟨nv, vc, ok, heq, hlen, hok, hvc, hall⟩ := createSwapChainViews_spec env env.images 0
          s._vk_swapchain_imgs_view
          ([Call.vkCreateSwapchainKHR (selectExtent env.props.caps e)
            (selectImageCount env.props.caps) fmt (selectPresentMode env.props.present_modes)
            env.create_res] ++ [Call.vkGetSwapchainImagesKHR env.swapchain,
              Call.vkGetSwapchainImagesKHR env.swapchain])
        rw [heq] at h
        subst h
        exact ⟨nv, vc, rfl, by simp, hlen, hok, hvc, hall⟩

/-! ### A fatal present result -/

/-- When the acquire did not report out-of-date, the frame reached PRESENT with the tracked
target extent equal to the swapchain extent, and the present result is neither success nor
out-of-date nor suboptimal, the call returns failure, issues no swapchain-management call
at all, ends with the present call and leaves the ring index unchanged. -/
theorem fatal_present_fails_without_rebuild {s : VulkanApp} {env : FrameEnv} {r : Run Bool}
    (h : render s env = some r)
    (hacq : env.acquire_res ≠ VkResult.VK_ERROR_OUT_OF_DATE_KHR)
    {sc : Handle} {idx : Nat} {sem : Handle} {res : VkResult}
    (hp : Call.vkQueuePresentKHR sc idx sem res ∈ r.calls)
    (hext : s._target_frame_buffer_ext = s._vk_swapchain_ext)
    (h1 : env.present_res ≠ VkResult.VK_SUCCESS)
    (h2 : env.present_res ≠ VkResult.VK_ERROR_OUT_OF_DATE_KHR)
    (h3 : env.present_res ≠ VkResult.VK_SUBOPTIMAL_KHR) :
    r.ret = false ∧ r.app._current_frame = s._current_frame ∧
      (∀ c ∈ r.calls, c.kind ≠ CallKind.manage) ∧
      ∃ pre finished, r.calls = pre ++
        [Call.vkQueuePresentKHR s._vk_swapchain (env.acquire_img.getD 0) finished
          env.present_res] := by
  obtain ⟨fence, available, base, mgmt, inuse, mvp, cb, rec, av, fin, rp, -, hrec, hbase, -,
    hrp, rfl⟩ := render_reaches_present h hp
  rcases hbase with ⟨-, rfl, rfl⟩ | ⟨hood, -⟩
  · have hns : ¬ presentStale { base with
        _vk_inuse_fences := base._vk_inuse_fences.set (env.acquire_img.getD 0) fence,
        _vk_cmd_buffers := cb } env := by
      intro hst
      rcases hst with e | e | e | e
      · exact h2 e
      · exact h3 e
      · exact e (by rw [hext])
      · exact e (by rw [hext])
    obtain ⟨finished, -, h4 | h4 | h4⟩ := renderPresent_inv hrp
    · exact absurd h4.1 hns
    · obtain ⟨-, -, rfl⟩ := h4
      refine ⟨rfl, rfl, ?_, _, finished, rfl⟩
      intro c hc
      rcases List.mem_append.mp hc with hc | hc
      · rcases List.mem_append.mp hc with hc | hc
        · rcases List.mem_append.mp hc with hc | hc
          · simp only [List.mem_cons, List.mem_singleton, List.not_mem_nil, or_false] at hc
            rcases hc with rfl | rfl <;> (intro hk; cases hk)
          · cases hc
        · rcases List.mem_append.mp hc with hc | hc
          · rcases List.mem_append.mp hc with hc | hc
            · rcases List.mem_append.mp hc with hc | hc
              · split_ifs at hc
                · simp only [List.mem_singleton] at hc
                  subst hc
                  intro hk; cases hk
                · cases hc
              · simp only [List.mem_cons, List.mem_singleton, List.not_mem_nil, or_false] at hc
                rcases hc with rfl | rfl | rfl <;> (intro hk; cases hk)
            · exact kind_ne_of_eq (hrec c hc) (by decide)
          · simp only [List.mem_cons, List.mem_singleton, List.not_mem_nil, or_false] at hc
            rcases hc with rfl | rfl <;> (intro hk; cases hk)
      · simp only [List.mem_singleton] at hc
        subst hc
        intro hk; cases hk
    · exact absurd h4.2.1 h1
  · exact absurd hood hacq

/-! ### The steps of a rebuild -/

/-- A rebuild is the device-idle wait, the cleanup, and the four creation helpers run in
order, each from the state the previous one left, whatever the previous one returned. -/
theorem recreateSwapChainRelatedData_inv {s : VulkanApp} {e : VkExtent2D} {env : RebuildEnv}
    {r : Run Unit} (h : recreateSwapChainRelatedData s e env = some r) :
    ∃ r1 r4, createSwapChain (cleanupSwapChainRelatedData s).app e env.swapchain = some r1 ∧
      createFrameBuffers
        (createDepthImage (createColorImage r1.app env.color).app env.depth_fmt env.depth).app
        env.fb_res env.fb = some r4 ∧
      r.app = r4.app ∧
      r.calls = [Call.vkDeviceWaitIdle] ++ (cleanupSwapChainRelatedData s).calls ++ r1.calls ++
        (createColorImage r1.app env.color).calls ++
        (createDepthImage (createColorImage r1.app env.color).app env.depth_fmt
          env.depth).calls ++ r4.calls := by
  unfold recreateSwapChainRelatedData at h
  dsimp only at h
  split at h
  · simp at h
  · rename_i r1 h1
    split at h
    · simp at h
    · rename_i r4 h4
      simp only [Option.some.injEq] at h; subst h
      exact ⟨r1, r4, h1, h4, rfl, rfl⟩

/-! ### Destroy calls and create calls of a rebuild -/

theorem isCreateCall_not_destroy (c : Call) (h : isCreateCall c = true) :
    isDestroyCall c = false := by
  cases c <;> simp [isCreateCall, isDestroyCall] at h ⊢

theorem createSwapChain_create {s : VulkanApp} {e : VkExtent2D} {env : SwapChainEnv}
    {r : Run Bool} (h : createSwapChain s e env = some r) :
    ∀ c ∈ r.calls, isCreateCall c = true := by
  obtain ⟨f, _, hcase⟩ := createSwapChain_inv h
  rcases hcase with ⟨_, hr⟩ | ⟨_, _, hr⟩ | ⟨_, _, nv, vc, _, hcalls, _, _, hvc, _⟩
  · subst hr; intro c hc; cases hc
  · subst hr; intro c hc
    simp only [List.mem_singleton] at hc
    subst hc; rfl
  · rw [hcalls]
    intro c hc
    rcases List.mem_append.mp hc with hc | hc
    · simp only [List.mem_cons, List.mem_singleton, List.not_mem_nil, or_false] at hc
      rcases hc with rfl | rfl | rfl <;> rfl
    · obtain ⟨img, res, rfl⟩ := hvc c hc
      rfl

theorem createVkImage_create (ext : VkExtent2D) (fmt : Nat) (m : VkImageMem) (env : ImageEnv) :
    ∀ c ∈ (createVkImage ext fmt m env).2.1, isCreateCall c = true := by
  unfold createVkImage
  dsimp only
  split
  · simp [isCreateCall]
  · split <;> simp [isCreateCall]

theorem createColorImage_create (s : VulkanApp) (env : ImageEnv) :
    ∀ c ∈ (createColorImage s env).calls, isCreateCall c = true := by
  have hv := createVkImage_create s._vk_swapchain_ext s._vk_swapchain_fmt s._vk_color_image env
  unfold createColorImage
  dsimp only
  split
  · exact hv
  · split <;>
    · intro c hc
      rcases List.mem_append.mp hc with hc | hc
      · exact hv c hc
      · simp only [List.mem_singleton] at hc
        subst hc; rfl

theorem createDepthImage_create (s : VulkanApp) (fmt : Nat) (env : ImageEnv) :
    ∀ c ∈ (createDepthImage s fmt env).calls, isCreateCall c = true := by
  have hv := createVkImage_create s._vk_swapchain_ext fmt s._vk_depth_image env
  unfold createDepthImage
  dsimp only
  split
  · intro c hc; cases hc
  · split
    · exact hv
    · split <;>
      · intro c hc
        rcases List.mem_append.mp hc with hc | hc
        · exact hv c hc
        · simp only [List.mem_singleton] at hc
          subst hc; rfl

theorem createFrameBuffersLoop_create (s : VulkanApp) (fb_res : Nat → VkResult)
    (fb : Nat → Handle) (todo : List Handle) :
    ∀ (k : Nat) (done : List Handle) (calls : List Call)
      (r : List Handle × List Call × Bool), (∀ c ∈ calls, isCreateCall c = true) →
      createFrameBuffersLoop s fb_res fb todo k done calls = some r →
      ∀ c ∈ r.2.1, isCreateCall c = true := by
  induction todo with
  | nil =>
    intro k done calls r hc h
    simp only [createFrameBuffersLoop, Option.some.injEq] at h
    subst h; exact hc
  | cons x todo ih =>
    intro k done calls r hc h
    unfold createFrameBuffersLoop at h
    split at h
    · simp at h
    · dsimp only at h
      have hstep : ∀ (view : Handle), ∀ c ∈ calls ++ [Call.vkCreateFramebuffer
          [s._vk_color_image_view, s._vk_depth_image_view, view] s._vk_swapchain_ext
          (fb_res k)], isCreateCall c = true := by
        intro view c hm
        rcases List.mem_append.mp hm with hm | hm
        · exact hc c hm
        · simp only [List.mem_singleton] at hm
          subst hm; rfl
      split at h
      · simp only [Option.some.injEq] at h; subst h
        exact hstep _
      · exact ih _ _ _ _ (hstep _) h

theorem createFrameBuffers_create {s : VulkanApp} {fb_res : Nat → VkResult}
    {fb : Nat → Handle} {r : Run Bool} (h : createFrameBuffers s fb_res fb = some r) :
    ∀ c ∈ r.calls, isCreateCall c = true := by
  unfold createFrameBuffers at h
  dsimp only at h
  split at h
  · simp at h
  · rename_i r1 h1
    simp only [Option.some.injEq] at h; subst h
    exact createFrameBuffersLoop_create _ _ _ _ _ _ _ _ (fun c hc => by cases hc) h1

theorem ite_singleton_destroy (p : Prop) [Decidable p] (x c : Call)
    (hc : c ∈ (if p then [x] else [])) (hx : isDestroyCall x = true) :
    isDestroyCall c = true := by
  split_ifs at hc
  · simp only [List.mem_singleton] at hc
    subst hc; exact hx
  · cases hc

theorem destroyVkImage_destroy (m : VkImageMem) :
    ∀ c ∈ destroyVkImage m, isDestroyCall c = true := by
  unfold destroyVkImage
  intro c hc
  rcases List.mem_append.mp hc with hc | hc
  · exact ite_singleton_destroy _ _ c hc rfl
  · exact ite_singleton_destroy _ _ c hc rfl

theorem destroyColorImage_destroy (s : VulkanApp) :
    ∀ c ∈ (destroyColorImage s).calls, isDestroyCall c = true := by
  unfold destroyColorImage
  dsimp only
  intro c hc
  rcases List.mem_append.mp hc with hc | hc
  · exact ite_singleton_destroy _ _ c hc rfl
  · exact destroyVkImage_destroy _ c hc

theorem destroyDepthImage_destroy (s : VulkanApp) :
    ∀ c ∈ (destroyDepthImage s).calls, isDestroyCall c = true := by
  unfold destroyDepthImage
  dsimp only
  intro c hc
  rcases List.mem_append.mp hc with hc | hc
  · exact ite_singleton_destroy _ _ c hc rfl
  · exact destroyVkImage_destroy _ c hc

theorem cleanupSwapChainRelatedData_destroy (s : VulkanApp) :
    ∀ c ∈ (cleanupSwapChainRelatedData s).calls, isDestroyCall c = true := by
  unfold cleanupSwapChainRelatedData
  dsimp only
  intro c hc
  rcases List.mem_append.mp hc with hc | hc
  · rcases List.mem_append.mp hc with hc | hc
    · rcases List.mem_append.mp hc with hc | hc
      · rcases List.mem_append.mp hc with hc | hc
        · obtain ⟨x, -, rfl⟩ := List.mem_map.mp hc
          rfl
        · obtain ⟨x, -, rfl⟩ := List.mem_map.mp hc
          rfl
      · simp only [List.mem_singleton] at hc
        subst hc; rfl
    · exact destroyColorImage_destroy _ c hc
  · exact destroyDepthImage_destroy _ c hc

theorem isDestroyCall_not_create (c : Call) (h : isDestroyCall c = true) :
    isCreateCall c = false := by
  cases c <;> simp [isCreateCall, isDestroyCall] at h ⊢

/-! ### The three swapchain-sized sequences -/

theorem createColorImage_chainState (s : VulkanApp) (env : ImageEnv) :
    chainState (createColorImage s env).app = chainState s := by
  unfold createColorImage
  dsimp only
  split_ifs <;> rfl

theorem createDepthImage_chainState (s : VulkanApp) (fmt : Nat) (env : ImageEnv) :
    chainState (createDepthImage s fmt env).app = chainState s := by
  unfold createDepthImage
  dsimp only
  split_ifs <;> rfl

theorem cleanupSwapChainRelatedData_chainState (s : VulkanApp) :
    chainState (cleanupSwapChainRelatedData s).app = ([], [], []) := by
  unfold cleanupSwapChainRelatedData destroyDepthImage destroyColorImage
  dsimp only
  split_ifs <;> rfl

theorem resizeHandles_length (xs : List Handle) (n : Nat) : (resizeHandles xs n).length = n := by
  unfold resizeHandles
  simp only [List.length_append, List.length_take, List.length_replicate]
  omega

theorem createFrameBuffersLoop_length (s : VulkanApp) (fb_res : Nat → VkResult)
    (fb : Nat → Handle) (todo : List Handle) :
    ∀ (k : Nat) (done : List Handle) (calls : List Call)
      (r : List Handle × List Call × Bool),
      createFrameBuffersLoop s fb_res fb todo k done calls = some r →
      r.1.length = done.length + todo.length := by
  induction todo with
  | nil =>
    intro k done calls r h
    simp only [createFrameBuffersLoop, Option.some.injEq] at h
    subst h; rfl
  | cons x todo ih =>
    intro k done calls r h
    unfold createFrameBuffersLoop at h
    split at h
    · simp at h
    · dsimp only at h
      split at h
      · simp only [Option.some.injEq] at h; subst h
        simp
      · have := ih _ _ _ _ h
        simp only [List.length_append, List.length_singleton, List.length_cons,
          List.length_nil] at this ⊢
        omega

/-- Framebuffer creation leaves the images and the views alone and ends with as many
framebuffers as there are views, whether or not it succeeds. -/
theorem createFrameBuffers_chainState {s : VulkanApp} {fb_res : Nat → VkResult}
    {fb : Nat → Handle} {r : Run Bool} (h : createFrameBuffers s fb_res fb = some r) :
    r.app._vk_swapchain_imgs = s._vk_swapchain_imgs ∧
      r.app._vk_swapchain_imgs_view = s._vk_swapchain_imgs_view ∧
      r.app._vk_frame_buffers.length = s._vk_swapchain_imgs_view.length := by
  unfold createFrameBuffers at h
  dsimp only at h
  split at h
  · simp at h
  · rename_i r1 h1
    simp only [Option.some.injEq] at h; subst h
    refine ⟨rfl, rfl, ?_⟩
    have := createFrameBuffersLoop_length _ _ _ _ _ _ _ _ h1
    simpa [resizeHandles_length] using this

/-- Swapchain creation from a state without image views: the framebuffers are left alone,
there are at most as many views as images, and as many when the call succeeds or when the
driver creates every view. -/
theorem createSwapChain_chainState {s : VulkanApp} {e : VkExtent2D} {env : SwapChainEnv}
    {r : Run Bool} (h : createSwapChain s e env = some r)
    (hv : s._vk_swapchain_imgs_view = []) (hi : s._vk_swapchain_imgs = []) :
    r.app._vk_frame_buffers = s._vk_frame_buffers ∧
      r.app._vk_swapchain_imgs_view.length ≤ r.app._vk_swapchain_imgs.length ∧
      (r.ret = true → r.app._vk_swapchain_imgs.length = r.app._vk_swapchain_imgs_view.length) ∧
      ((∀ j, env.view_res j = VkResult.VK_SUCCESS) →
        r.app._vk_swapchain_imgs.length = r.app._vk_swapchain_imgs_view.length) := by
  obtain ⟨f, _, hcase⟩ := createSwapChain_inv h
  rcases hcase with ⟨_, hr⟩ | ⟨_, _, hr⟩ | ⟨_, _, nv, vc, happ, _, hlen, hok, _, hall⟩
  · subst hr
    simp [hv, hi]
  · subst hr
    simp [hv, hi]
  · have e1 : r.app._vk_frame_buffers = s._vk_frame_buffers := by rw [happ]
    have e2 : r.app._vk_swapchain_imgs = env.images := by rw [happ]
    have e3 : r.app._vk_swapchain_imgs_view = nv := by rw [happ]; simp [hv]
    rw [e2, e3]
    exact ⟨e1, hlen, fun hr => (hok hr).symm, fun ha => (hok (hall ha)).symm⟩

theorem chainState_eq {s t : VulkanApp} (h : chainState s = chainState t) :
    s._vk_swapchain_imgs = t._vk_swapchain_imgs ∧
      s._vk_swapchain_imgs_view = t._vk_swapchain_imgs_view ∧
      s._vk_frame_buffers = t._vk_frame_buffers := by
  unfold chainState at h
  simp only [Prod.mk.injEq] at h
  exact h

/-- After a rebuild there are as many framebuffers as image views and at most as many
views as images; there are as many views as images when the driver created every view. -/
theorem recreateSwapChainRelatedData_chainState {s : VulkanApp} {e : VkExtent2D}
    {env : RebuildEnv} {r : Run Unit} (h : recreateSwapChainRelatedData s e env = some r) :
    r.app._vk_swapchain_imgs_view.length = r.app._vk_frame_buffers.length ∧
      r.app._vk_swapchain_imgs_view.length ≤ r.app._vk_swapchain_imgs.length ∧
      (ViewsCreated env →
        r.app._vk_swapchain_imgs.length = r.app._vk_swapchain_imgs_view.length) := by
  obtain ⟨r1, r4, h1, h4, happ, -⟩ := recreateSwapChainRelatedData_inv h
  have hc := cleanupSwapChainRelatedData_chainState s
  unfold chainState at hc
  simp only [Prod.mk.injEq] at hc
  obtain ⟨ci, cv, -⟩ := hc
  obtain ⟨-, hle, -, hall⟩ := createSwapChain_chainState h1 cv ci
  obtain ⟨e2i, e2v, -⟩ := chainState_eq (createColorImage_chainState r1.app env.color)
  obtain ⟨e3i, e3v, -⟩ := chainState_eq
    (createDepthImage_chainState (createColorImage r1.app env.color).app env.depth_fmt env.depth)
  obtain ⟨e4i, e4v, e4f⟩ := createFrameBuffers_chainState h4
  rw [happ, e4i, e4v, e4f, e3i, e3v, e2i, e2v]
  exact ⟨rfl, hle, hall⟩

theorem destroySyncObjects_chainState (n : Nat) :
    ∀ (k : Nat) (s : VulkanApp), chainState (destroySyncObjects n k s) = chainState s := by
  induction n with
  | zero => intro k s; rfl
  | succ n ih =>
    intro k s
    unfold destroySyncObjects
    rw [ih]
    rfl

theorem terminateVulkanCore_chainState (s : VulkanApp) :
    chainState (terminateVulkanCore s) = chainState s := by
  unfold terminateVulkanCore
  dsimp only
  have h := destroySyncObjects_chainState MAX_INFLIGHT_FRAMES 0
    { s with
      _vk_graphics_pipeline := VK_NULL_HANDLE
      _vk_pipeline_layout := VK_NULL_HANDLE
      _vk_render_pass := VK_NULL_HANDLE }
  split_ifs <;> exact h

/-- After `terminate` the three sequences are empty. -/
theorem terminate_chainState (s : VulkanApp) : chainState (terminate s).app = ([], [], []) := by
  unfold terminate
  dsimp only
  rw [terminateVulkanCore_chainState, cleanupSwapChainRelatedData_chainState]

/-- A frame run from SYNC_IMAGE on leaves the three sequences as they are, or as the
present-time rebuild left them. -/
theorem renderFrame_chainState {s : VulkanApp} {env : FrameEnv} {i : Nat} {r : Run Bool}
    (h : renderFrame s env i = some r) :
    chainState r.app = chainState s ∨
      ∃ s2 e rb, recreateSwapChainRelatedData s2 e env.present_rebuild = some rb ∧
        chainState r.app = chainState rb.app := by
  obtain ⟨inuse, fence, mvp, cb, pre, av, fin, -, -, -, -, h2 | h2 | h2⟩ := renderFrame_shape h
  · subst h2
    exact Or.inl rfl
  · obtain ⟨-, rfl⟩ := h2
    exact Or.inl rfl
  · obtain ⟨-, rp, hrp, rfl⟩ := h2
    obtain ⟨finished, -, h3 | h3 | h3⟩ := renderPresent_inv hrp
    · obtain ⟨-, rb, hrb, rfl⟩ := h3
      exact Or.inr ⟨_, _, rb, hrb, rfl⟩
    · obtain ⟨-, -, rfl⟩ := h3
      exact Or.inl rfl
    · obtain ⟨-, -, rfl⟩ := h3
      exact Or.inl rfl

/-- A `render` call leaves the three sequences as they are, or as a rebuild run during
the call left them. -/
theorem render_chainState {s : VulkanApp} {env : FrameEnv} {r : Run Bool}
    (h : render s env = some r) :
    chainState r.app = chainState s ∨
      ∃ s2 e renv rb, (renv = env.acquire_rebuild ∨ renv = env.present_rebuild) ∧
        recreateSwapChainRelatedData s2 e renv = some rb ∧
        chainState r.app = chainState rb.app := by
  obtain ⟨-, rfl⟩ | ⟨fence, available, -, -, h1 | h1⟩ := render_shape h
  · exact Or.inl rfl
  · obtain ⟨-, -, -, rfl⟩ := h1
    exact Or.inl rfl
  · obtain ⟨base, mgmt, r0, -, -, hbase, h0, rfl⟩ := h1
    rcases renderFrame_chainState h0 with hc | ⟨s2, e, rb, hrb, hc⟩
    · rcases hbase with ⟨-, rfl, -⟩ | ⟨-, rb, hrb, rfl, -⟩
      · exact Or.inl hc
      · exact Or.inr ⟨_, _, _, rb, Or.inl rfl, hrb, hc⟩
    · exact Or.inr ⟨s2, e, _, rb, Or.inr rfl, hrb, hc⟩

/-! ### Start-up builds sequences of equal length -/

theorem createSyncObjects_chainState (env : InitEnv) (n : Nat) :
    ∀ (k : Nat) (s : VulkanApp) (calls : List Call),
      chainState (createSyncObjects env n k s calls).app = chainState s := by
  induction n with
  | zero => intro k s calls; rfl
  | succ n ih =>
    intro k s calls
    unfold createSyncObjects
    dsimp only
    split
    · rfl
    · split
      · rfl
      · split
        · rfl
        · rw [ih]
          rfl

theorem initializeVulkanCore_chainState {s : VulkanApp} {env : InitEnv} {r : Run Bool}
    (h : initializeVulkanCore s env = some r) (hret : r.ret = true)
    (hv : s._vk_swapchain_imgs_view = []) (hi : s._vk_swapchain_imgs = []) :
    r.app._vk_swapchain_imgs.length = r.app._vk_swapchain_imgs_view.length := by
  unfold initializeVulkanCore at h
  split at h
  · simp only [Option.some.injEq] at h; subst h; cases hret
  · dsimp only at h
    split at h
    · simp at h
    · rename_i r1 h1
      split at h
      · simp only [Option.some.injEq] at h; subst h; cases hret
      · rename_i hr1
        have hr1t : r1.ret = true := by simpa using hr1
        obtain ⟨-, -, hok, -⟩ := createSwapChain_chainState h1 hv hi
        have e1 := hok hr1t
        split at h
        · simp only [Option.some.injEq] at h; subst h; cases hret
        · split at h
          · simp only [Option.some.injEq] at h; subst h; cases hret
          · simp only [Option.some.injEq] at h; subst h
            dsimp only
            obtain ⟨ei, ev, -⟩ := chainState_eq (createSyncObjects_chainState env
              MAX_INFLIGHT_FRAMES 0 { r1.app with _vk_graphics_cmd_pool := env.cmd_pool }
              (r1.calls ++ [Call.vkCreateCommandPool env.cmd_pool_res]))
            rw [ei, ev]
            exact e1

theorem createDescriptors_chainState (s : VulkanApp) (env : InitEnv) :
    chainState (createDescriptors s env).1 = chainState s := by
  unfold createDescriptors
  dsimp only
  split
  · rfl
  · split <;> rfl

theorem initializeAssets_chainState (s : VulkanApp) (env : InitEnv) :
    chainState (initializeAssets s env).1 = chainState s := by
  unfold initializeAssets
  split
  · rfl
  · split
    · rfl
    · split
      · rfl
      · split
        · rfl
        · dsimp only
          split
          · rfl
          · rw [createDescriptors_chainState]; rfl

theorem createGraphicsPipeline_chainState {s : VulkanApp} {env : InitEnv} {r : Run Bool}
    (h : createGraphicsPipeline s env = some r) (hret : r.ret = true) :
    r.app._vk_swapchain_imgs = s._vk_swapchain_imgs ∧
      r.app._vk_swapchain_imgs_view = s._vk_swapchain_imgs_view ∧
      r.app._vk_frame_buffers.length = s._vk_swapchain_imgs_view.length := by
  unfold createGraphicsPipeline at h
  split at h
  · simp only [Option.some.injEq] at h; subst h; cases hret
  · dsimp only at h
    split at h
    · simp at h
    · rename_i r1 h1
      simp only [Option.some.injEq] at h; subst h
      have h2 := createFrameBuffers_chainState h1
      exact h2

/-- A successful `initialize` of an application without swapchain images and views ends
with as many image views and framebuffers as swapchain images. -/
theorem initializeApp_chainState {s : VulkanApp} {mode : DemoMode} {env : InitEnv}
    {r : Run Bool} (h : initializeApp s mode env = some r) (hret : r.ret = true)
    (hv : s._vk_swapchain_imgs_view = []) (hi : s._vk_swapchain_imgs = []) :
    r.app._vk_swapchain_imgs.length = r.app._vk_swapchain_imgs_view.length ∧
      r.app._vk_swapchain_imgs_view.length = r.app._vk_frame_buffers.length := by
  unfold initializeApp at h
  dsimp only at h
  split at h
  · simp at h
  · rename_i r1 h1
    split at h
    · simp only [Option.some.injEq] at h; subst h; cases hret
    · rename_i hr1
      have e1 := initializeVulkanCore_chainState h1 (by simpa using hr1) hv hi
      obtain ⟨e2i, e2v, -⟩ := chainState_eq (createColorImage_chainState r1.app env.color)
      obtain ⟨e3i, e3v, -⟩ := chainState_eq (createDepthImage_chainState
        (createColorImage r1.app env.color).app env.depth_fmt env.depth)
      split at h
      · simp only [Option.some.injEq] at h; subst h; cases hret
      · split at h
        · simp only [Option.some.injEq] at h; subst h; cases hret
        · split at h
          · simp at h
          · rename_i r4 h4
            split at h
            · simp only [Option.some.injEq] at h; subst h; cases hret
            · rename_i hr4
              simp only [Option.some.injEq] at h; subst h
              obtain ⟨e4i, e4v, e4f⟩ := createGraphicsPipeline_chainState h4 (by simpa using hr4)
              obtain ⟨e5i, e5v, e5f⟩ := chainState_eq
                (initializeAssets_chainState (createCommandBuffers r4.app) env)
              have e6i : (createCommandBuffers r4.app)._vk_swapchain_imgs =
                r4.app._vk_swapchain_imgs := rfl
              have e6v : (createCommandBuffers r4.app)._vk_swapchain_imgs_view =
                r4.app._vk_swapchain_imgs_view := rfl
              have e6f : (createCommandBuffers r4.app)._vk_frame_buffers =
                r4.app._vk_frame_buffers := rfl
              dsimp only
              rw [e5i, e5v, e5f, e6i, e6v, e6f, e4i, e4v, e4f, e3i, e3v, e2i, e2v]
              exact ⟨e1, rfl⟩

/-- The demo state is reachable, and so is the state after the frame whose rebuild fails
to create the second swapchain image view. -/
theorem demoFailedViewRun_reachable (ok : RebuildEnv → Prop)
    (hok : ok demoFailedViewFrame.acquire_rebuild ∧ ok demoFailedViewFrame.present_rebuild) :
    ReachableWith ok demoFailedViewRun.app :=
  ReachableWith.render demoApp demoFailedViewFrame demoFailedViewRun
    (ReachableWith.init DemoMode.MODEL demoInit demoStart (by decide) (by decide))
    hok.1 hok.2 (by decide)

/-! ### The tracked target extent and the swapchain extent -/

theorem createColorImage_extentState (s : VulkanApp) (env : ImageEnv) :
    extentState (createColorImage s env).app = extentState s := by
  unfold createColorImage
  dsimp only
  split_ifs <;> rfl

theorem createDepthImage_extentState (s : VulkanApp) (fmt : Nat) (env : ImageEnv) :
    extentState (createDepthImage s fmt env).app = extentState s := by
  unfold createDepthImage
  dsimp only
  split_ifs <;> rfl

theorem createFrameBuffers_extentState {s : VulkanApp} {fb_res : Nat → VkResult}
    {fb : Nat → Handle} {r : Run Bool} (h : createFrameBuffers s fb_res fb = some r) :
    extentState r.app = extentState s := by
  unfold createFrameBuffers at h
  dsimp only at h
  split at h
  · simp at h
  · simp only [Option.some.injEq] at h; subst h; rfl

/-- The list of calls of a frame up to and including the submit holds no
swapchain-management call when the rebuild calls `mgmt` of the acquire are left out. -/
theorem frame_calls_not_manage {fence available sc inuse av cmd fin : Handle}
    {ares sres : VkResult} {mvp : VkBufferMem} {rec : List Call}
    (hrec : AllKind CallKind.record rec) :
    ∀ c ∈ [Call.vkWaitForFences fence, Call.vkAcquireNextImageKHR sc available ares] ++
        ((if inuse ≠ VK_NULL_HANDLE then [Call.vkWaitForFences inuse] else []) ++
          [Call.vkMapMemory mvp.memory, Call.memcpy mvp.memory, Call.vkUnmapMemory mvp.memory] ++
          rec ++ [Call.vkResetFences fence, Call.vkQueueSubmit av cmd fin fence sres]),
      c.kind ≠ CallKind.manage := by
  intro c hc
  rcases List.mem_append.mp hc with hc | hc
  · simp only [List.mem_cons, List.mem_singleton, List.not_mem_nil, or_false] at hc
    rcases hc with rfl | rfl <;> (intro hk; cases hk)
  · rcases List.mem_append.mp hc with hc | hc
    · rcases List.mem_append.mp hc with hc | hc
      · rcases List.mem_append.mp hc with hc | hc
        · split_ifs at hc
          · simp only [List.mem_singleton] at hc
            subst hc
            intro hk; cases hk
          · cases hc
        · simp only [List.mem_cons, List.mem_singleton, List.not_mem_nil, or_false] at hc
          rcases hc with rfl | rfl | rfl <;> (intro hk; cases hk)
      · exact kind_ne_of_eq (hrec c hc) (by decide)
    · simp only [List.mem_cons, List.mem_singleton, List.not_mem_nil, or_false] at hc
      rcases hc with rfl | rfl <;> (intro hk; cases hk)

/-- A `render` call whose acquire does not report out-of-date, entered with the tracked
target extent equal to the swapchain extent, and whose present result is neither
out-of-date nor suboptimal issues no swapchain-management call: it does not rebuild. -/
theorem render_without_rebuild {s : VulkanApp} {env : FrameEnv} {r : Run Bool}
    (h : render s env = some r)
    (hacq : env.acquire_res ≠ VkResult.VK_ERROR_OUT_OF_DATE_KHR)
    (hext : s._target_frame_buffer_ext = s._vk_swapchain_ext)
    (h2 : env.present_res ≠ VkResult.VK_ERROR_OUT_OF_DATE_KHR)
    (h3 : env.present_res ≠ VkResult.VK_SUBOPTIMAL_KHR) :
    ∀ c ∈ r.calls, c.kind ≠ CallKind.manage := by
  obtain ⟨-, rfl⟩ | ⟨fence, available, -, -, h1 | h1⟩ := render_shape h
  · intro c hc; cases hc
  · obtain ⟨-, -, -, rfl⟩ := h1
    intro c hc
    simp only [List.mem_cons, List.mem_singleton, List.not_mem_nil, or_false] at hc
    rcases hc with rfl | rfl <;> (intro hk; cases hk)
  · obtain ⟨base, mgmt, r0, -, -, hbase, h0, rfl⟩ := h1
    rcases hbase with ⟨-, rfl, rfl⟩ | ⟨hood, -⟩
    · obtain ⟨inuse, fe, mvp, cb, pre, av, fin, -, -, -, hpre, h4 | h4 | h4⟩ :=
        renderFrame_shape h0
      · subst h4
        intro c hc
        have hsub : c ∈ [Call.vkWaitForFences fence,
            Call.vkAcquireNextImageKHR base._vk_swapchain available env.acquire_res] ++
            ((if inuse ≠ VK_NULL_HANDLE then [Call.vkWaitForFences inuse] else []) ++
              [Call.vkMapMemory mvp.memory, Call.memcpy mvp.memory,
                Call.vkUnmapMemory mvp.memory] ++
              pre ++ [Call.vkResetFences fence, Call.vkQueueSubmit 0 0 0 fence
                VkResult.VK_SUCCESS]) := by
          simp only [List.append_nil, List.append_assoc, List.mem_append] at hc ⊢
          tauto
        exact frame_calls_not_manage hpre c hsub
      · obtain ⟨-, rfl⟩ := h4
        intro c hc
        have hsub : c ∈ [Call.vkWaitForFences fence,
            Call.vkAcquireNextImageKHR base._vk_swapchain available env.acquire_res] ++
            ((if inuse ≠ VK_NULL_HANDLE then [Call.vkWaitForFences inuse] else []) ++
              [Call.vkMapMemory mvp.memory, Call.memcpy mvp.memory,
                Call.vkUnmapMemory mvp.memory] ++
              pre ++ [Call.vkResetFences fe, Call.vkQueueSubmit av env.alloc_cmd fin fe
                env.submit_res]) := by
          simp only [List.append_nil, List.append_assoc, List.mem_append] at hc ⊢
          tauto
        intro hk
        rcases List.mem_append.mp hsub with hm | hm
        · simp only [List.mem_cons, List.mem_singleton, List.not_mem_nil, or_false] at hm
          rcases hm with rfl | rfl <;> cases hk
        · exact @frame_calls_not_manage fe available base._vk_swapchain _ _ _ _
            env.acquire_res _ _ _ hpre c (List.mem_append_right _ hm) hk
      · obtain ⟨-, rp, hrp, rfl⟩ := h4
        have hns : ¬ presentStale { base with
            _vk_inuse_fences := base._vk_inuse_fences.set (env.acquire_img.getD 0) fe,
            _vk_cmd_buffers := cb } env := by
          intro hst
          rcases hst with e | e | e | e
          · exact h2 e
          · exact h3 e
          · exact e (by rw [hext])
          · exact e (by rw [hext])
        have hpc : ∀ c ∈ rp.calls, c.kind ≠ CallKind.manage := by
          obtain ⟨finished, -, h5 | h5 | h5⟩ := renderPresent_inv hrp
          · exact absurd h5.1 hns
          · obtain ⟨-, -, rfl⟩ := h5
            intro c hc
            simp only [List.mem_singleton] at hc
            subst hc
            intro hk; cases hk
          · obtain ⟨-, -, rfl⟩ := h5
            intro c hc
            simp only [List.mem_singleton] at hc
            subst hc
            intro hk; cases hk
        intro c hc hk
        simp only [List.append_nil, List.append_assoc, List.mem_append] at hc
        rcases hc with hc | hc | hc | hc | hc | hc
        · simp only [List.mem_cons, List.mem_singleton, List.not_mem_nil, or_false] at hc
          rcases hc with rfl | rfl <;> cases hk
        · split_ifs at hc
          · simp only [List.mem_singleton] at hc
            subst hc; cases hk
          · cases hc
        · simp only [List.mem_cons, List.mem_singleton, List.not_mem_nil, or_false] at hc
          rcases hc with rfl | rfl | rfl <;> cases hk
        · rw [hpre c hc] at hk; cases hk
        · simp only [List.mem_cons, List.mem_singleton, List.not_mem_nil, or_false] at hc
          rcases hc with rfl | rfl <;> cases hk
        · exact hpc c hc hk
    · exact absurd hood hacq

/-! ### The synchronisation ring built at start-up -/

/-- A successful run of the two iterations of the ring loop: every creation succeeded, each
slot got its two semaphores and its fence, and the six creation calls were issued in slot
order, the fences signaled. -/
theorem createSyncObjects_two (env : InitEnv) (s : VulkanApp) (calls : List Call)
    (hret : (createSyncObjects env 2 0 s calls).ret = true) :
    (env.available_res 0 = VkResult.VK_SUCCESS ∧ env.finished_res 0 = VkResult.VK_SUCCESS ∧
      env.fence_res 0 = VkResult.VK_SUCCESS ∧ env.available_res 1 = VkResult.VK_SUCCESS ∧
      env.finished_res 1 = VkResult.VK_SUCCESS ∧ env.fence_res 1 = VkResult.VK_SUCCESS) ∧
    createSyncObjects env 2 0 s calls =
      ⟨{ s with
          _vk_image_available_sems :=
            (s._vk_image_available_sems.set 0 (env.available 0)).set 1 (env.available 1)
          _vk_render_finished_sems :=
            (s._vk_render_finished_sems.set 0 (env.finished 0)).set 1 (env.finished 1)
          _vk_inflight_fences :=
            (s._vk_inflight_fences.set 0 (env.fence 0)).set 1 (env.fence 1) },
        calls ++ [Call.vkCreateSemaphore VkResult.VK_SUCCESS,
          Call.vkCreateSemaphore VkResult.VK_SUCCESS,
          Call.vkCreateFence true VkResult.VK_SUCCESS,
          Call.vkCreateSemaphore VkResult.VK_SUCCESS,
          Call.vkCreateSemaphore VkResult.VK_SUCCESS,
          Call.vkCreateFence true VkResult.VK_SUCCESS], true⟩ := by
  simp only [createSyncObjects] at hret ⊢
  by_cases h1 : VkResult.VK_SUCCESS ≠ env.available_res 0
  · rw [if_pos h1] at hret; cases hret
  rw [if_neg h1] at hret ⊢
  by_cases h2 : VkResult.VK_SUCCESS ≠ env.finished_res 0
  · rw [if_pos h2] at hret; cases hret
  rw [if_neg h2] at hret ⊢
  by_cases h3 : VkResult.VK_SUCCESS ≠ env.fence_res 0
  · rw [if_pos h3] at hret; cases hret
  rw [if_neg h3] at hret ⊢
  by_cases h4 : VkResult.VK_SUCCESS ≠ env.available_res (0 + 1)
  · rw [if_pos h4] at hret; cases hret
  rw [if_neg h4] at hret ⊢
  by_cases h5 : VkResult.VK_SUCCESS ≠ env.finished_res (0 + 1)
  · rw [if_pos h5] at hret; cases hret
  rw [if_neg h5] at hret ⊢
  by_cases h6 : VkResult.VK_SUCCESS ≠ env.fence_res (0 + 1)
  · rw [if_pos h6] at hret; cases hret
  rw [if_neg h6] at hret ⊢
  have e1 := (not_not.mp h1).symm
  have e2 := (not_not.mp h2).symm
  have e3 := (not_not.mp h3).symm
  have e4 := (not_not.mp h4).symm
  have e5 := (not_not.mp h5).symm
  have e6 := (not_not.mp h6).symm
  refine ⟨⟨e1, e2, e3, e4, e5, e6⟩, ?_⟩
  rw [e1, e2, e3, e4, e5, e6]
  simp

/-! ### Lengths of the per-slot arrays -/

theorem ringLengths_of_slotState {s t : VulkanApp} (h : slotState s = slotState t) :
    ringLengths s = ringLengths t := by
  unfold slotState at h
  simp only [Prod.mk.injEq] at h
  obtain ⟨-, h1, -, h2, h3, -⟩ := h
  unfold ringLengths
  rw [h1, h2, h3]

theorem slotLengths_of_slotState {s t : VulkanApp} (h : slotState s = slotState t) :
    slotLengths s = slotLengths t := by
  unfold slotState at h
  simp only [Prod.mk.injEq] at h
  obtain ⟨-, -, -, -, -, h1, h2, h3⟩ := h
  unfold slotLengths
  rw [h1, h2, h3]

theorem createSyncObjects_ringLengths (env : InitEnv) (n : Nat) :
    ∀ (k : Nat) (s : VulkanApp) (calls : List Call),
      ringLengths (createSyncObjects env n k s calls).app = ringLengths s := by
  induction n with
  | zero => intro k s calls; rfl
  | succ n ih =>
    intro k s calls
    unfold createSyncObjects
    dsimp only
    split
    · rfl
    · split
      · simp [ringLengths]
      · split
        · simp [ringLengths]
        · rw [ih]
          simp [ringLengths]

theorem initializeVulkanCore_ringLengths {s : VulkanApp} {env : InitEnv} {r : Run Bool}
    (h : initializeVulkanCore s env = some r) : ringLengths r.app = ringLengths s := by
  unfold initializeVulkanCore at h
  split at h
  · simp only [Option.some.injEq] at h; subst h; rfl
  · dsimp only at h
    split at h
    · simp at h
    · rename_i r1 h1
      have e0 := createSwapChain_slotState h1
      have e1 : ringLengths r1.app = ringLengths s := ringLengths_of_slotState e0
      split at h
      · simp only [Option.some.injEq] at h; subst h; exact e1
      · split at h
        · simp only [Option.some.injEq] at h; subst h; exact e1
        · have e2 := createSyncObjects_ringLengths env MAX_INFLIGHT_FRAMES 0
            { r1.app with _vk_graphics_cmd_pool := env.cmd_pool }
            (r1.calls ++ [Call.vkCreateCommandPool env.cmd_pool_res])
          split at h <;> simp only [Option.some.injEq] at h <;> subst h
          · exact e2.trans e1
          · exact e2.trans e1

theorem createUniformBuffersLoop_length (env : InitEnv) (todo : List VkBufferMem) :
    ∀ (k : Nat) (done : List VkBufferMem),
      (createUniformBuffersLoop env todo k done).1.length = done.length + todo.length := by
  induction todo with
  | nil => intro k done; rfl
  | cons x todo ih =>
    intro k done
    unfold createUniformBuffersLoop
    dsimp only
    split
    · simp
    · rw [ih]
      simp only [List.length_append, List.length_singleton, List.length_cons,
        List.length_nil]
      omega

theorem createUniformBuffers_lengths (s : VulkanApp) (env : InitEnv) :
    ringLengths (createUniformBuffers s env).1 = ringLengths s ∧
      (createUniformBuffers s env).1._vk_cmd_buffers = s._vk_cmd_buffers ∧
      (createUniformBuffers s env).1._vk_mvp_buffers.length = MAX_INFLIGHT_FRAMES := by
  unfold createUniformBuffers
  dsimp only
  refine ⟨rfl, rfl, ?_⟩
  rw [createUniformBuffersLoop_length]
  simp only [List.length_nil, List.length_append, List.length_take, List.length_replicate]
  omega

theorem createDescriptors_lengths (s : VulkanApp) (env : InitEnv) :
    ringLengths (createDescriptors s env).1 = ringLengths s ∧
      (createDescriptors s env).1._vk_cmd_buffers = s._vk_cmd_buffers ∧
      (createDescriptors s env).1._vk_mvp_buffers = s._vk_mvp_buffers ∧
      ((createDescriptors s env).2 = true →
        (createDescriptors s env).1._vk_desc_sets.length = MAX_INFLIGHT_FRAMES) := by
  unfold createDescriptors
  dsimp only
  split
  · exact ⟨rfl, rfl, rfl, fun h => by cases h⟩
  · split
    · exact ⟨rfl, rfl, rfl, fun h => by cases h⟩
    · exact ⟨rfl, rfl, rfl, fun _ => by simp⟩

theorem initializeAssets_lengths (s : VulkanApp) (env : InitEnv) :
    ringLengths (initializeAssets s env).1 = ringLengths s ∧
      (initializeAssets s env).1._vk_cmd_buffers = s._vk_cmd_buffers ∧
      ((initializeAssets s env).2 = true →
        (initializeAssets s env).1._vk_mvp_buffers.length = MAX_INFLIGHT_FRAMES ∧
        (initializeAssets s env).1._vk_desc_sets.length = MAX_INFLIGHT_FRAMES) := by
  unfold initializeAssets
  split
  · exact ⟨rfl, rfl, fun h => by cases h⟩
  · split
    · exact ⟨rfl, rfl, fun h => by cases h⟩
    · split
      · exact ⟨rfl, rfl, fun h => by cases h⟩
      · split
        · exact ⟨rfl, rfl, fun h => by cases h⟩
        · dsimp only
          split
          · refine ⟨?_, ?_, fun h => by cases h⟩
            · exact (createUniformBuffers_lengths _ env).1
            · exact (createUniformBuffers_lengths _ env).2.1
          · have u := createUniformBuffers_lengths
            have d := createDescriptors_lengths
            exact ⟨(d _ _).1.trans (u _ _).1, (d _ _).2.1.trans (u _ _).2.1,
              fun h => ⟨(congrArg List.length (d _ _).2.2.1).trans (u _ _).2.2,
                (d _ _).2.2.2 h⟩⟩

/-! ### Frame command buffers -/

theorem cmdNeutral_step {c : Call} (h : CmdNeutral c) (live : Nat) :
    cmdBufferStep live c = live := by
  cases c <;> first
    | rfl
    | exact absurd rfl (h.1 _)
    | exact absurd rfl (h.2 _)

theorem cmdNeutral_of_kind {c : Call} (h : c.kind ≠ CallKind.record) : CmdNeutral c := by
  constructor <;> intro x hx <;> subst hx <;> exact h rfl

theorem cmdNeutral_of_allKind {k : CallKind} {l : List Call} (h : AllKind k l)
    (hk : k ≠ CallKind.record) : ∀ c ∈ l, CmdNeutral c :=
  fun c hc => cmdNeutral_of_kind (by rw [h c hc]; exact hk)

theorem recordDraw_neutral (s : VulkanApp) (cmd : Handle) :
    ∀ c ∈ recordDraw s cmd, CmdNeutral c := by
  unfold recordDraw
  intro c hc
  split at hc <;>
    · simp only [List.mem_cons, List.mem_singleton, List.not_mem_nil, or_false] at hc
      rcases hc with rfl | rfl | rfl <;> (constructor <;> intro _ hx <;> cases hx)

/-- PRESENT and what follows it neither allocate nor free a command buffer and leave the
per-slot arrays alone. -/
theorem renderPresent_tail {s : VulkanApp} {env : FrameEnv} {i : Nat} {r : Run Bool}
    (h : renderPresent s env i = some r) :
    (∀ c ∈ r.calls, CmdNeutral c) ∧ r.app._vk_cmd_buffers = s._vk_cmd_buffers ∧
      r.app._vk_mvp_buffers = s._vk_mvp_buffers ∧ r.app._vk_desc_sets = s._vk_desc_sets ∧
      ringLengths r.app = ringLengths s := by
  have hn : ∀ c ∈ r.calls, CmdNeutral c := by
    intro c hc
    rcases (renderPresent_effect h).2.2 c hc with hk | hk <;>
      exact cmdNeutral_of_kind (by rw [hk]; decide)
  have key : ∀ t : VulkanApp, slotState t = slotState s →
      (advance t)._vk_cmd_buffers = s._vk_cmd_buffers ∧
      (advance t)._vk_mvp_buffers = s._vk_mvp_buffers ∧
      (advance t)._vk_desc_sets = s._vk_desc_sets ∧
      ringLengths (advance t) = ringLengths s := by
    intro t ht
    have hr := ringLengths_of_slotState ht
    unfold slotState at ht
    simp only [Prod.mk.injEq] at ht
    obtain ⟨-, -, -, -, -, h1, h2, h3⟩ := ht
    exact ⟨h2, h1, h3, hr⟩
  obtain ⟨finished, -, h1 | h1 | h1⟩ := renderPresent_inv h
  · obtain ⟨-, rb, hrb, rfl⟩ := h1
    exact ⟨hn, key rb.app (recreateSwapChainRelatedData_slotState hrb)⟩
  · obtain ⟨-, -, rfl⟩ := h1
    exact ⟨hn, rfl, rfl, rfl, rfl⟩
  · obtain ⟨-, -, rfl⟩ := h1
    exact ⟨hn, key s rfl⟩

/-- SUBMIT and what follows it neither allocate nor free a command buffer and leave the
per-slot arrays alone. -/
theorem renderSubmit_tail {s : VulkanApp} {env : FrameEnv} {i : Nat} {cmd : Handle}
    {r : Run Bool} (h : renderSubmit s env i cmd = some r) :
    (∀ c ∈ r.calls, CmdNeutral c) ∧ r.app._vk_cmd_buffers = s._vk_cmd_buffers ∧
      r.app._vk_mvp_buffers = s._vk_mvp_buffers ∧ r.app._vk_desc_sets = s._vk_desc_sets ∧
      ringLengths r.app = ringLengths s := by
  have hsub : ∀ (a b c f : Handle) (res : VkResult),
      ∀ x ∈ [Call.vkResetFences f, Call.vkQueueSubmit a b c f res], CmdNeutral x := by
    intro a b c f res x hx
    simp only [List.mem_cons, List.mem_singleton, List.not_mem_nil, or_false] at hx
    rcases hx with rfl | rfl <;> (constructor <;> intro _ hx <;> cases hx)
  obtain ⟨available, finished, fence, -, -, -, h1 | h1⟩ := renderSubmit_inv h
  · obtain ⟨-, rfl⟩ := h1
    exact ⟨hsub _ _ _ _ _, rfl, rfl, rfl, rfl⟩
  · obtain ⟨-, r0, h0, rfl⟩ := h1
    obtain ⟨t1, t2, t3, t4, t5⟩ := renderPresent_tail h0
    refine ⟨?_, t2, t3, t4, t5⟩
    intro c hc
    rcases List.mem_append.mp hc with hc | hc
    · exact hsub _ _ _ _ _ c hc
    · exact t1 c hc

theorem list_set_self {l : List Handle} {i : Nat} {a : Handle} (h : l[i]? = some a) :
    l.set i a = l := by
  induction l generalizing i with
  | nil => rfl
  | cons x xs ih =>
    cases i with
    | zero =>
      simp only [List.getElem?_cons_zero, Option.some.injEq] at h
      subst h; rfl
    | succ j =>
      simp only [List.getElem?_cons_succ] at h
      simp only [List.set_cons_succ, ih h]

theorem record_tail_neutral (s : VulkanApp) (cmd fb ds pipeline : Handle) (bres : VkResult)
    (ext : VkExtent2D) (rest : List Call) (hrest : ∀ c ∈ rest, CmdNeutral c) :
    ∀ c ∈ [Call.vkBeginCommandBuffer cmd bres] ++
        [Call.vkCmdBeginRenderPass cmd fb ext, Call.vkCmdBindPipeline cmd pipeline,
          Call.vkCmdSetViewport cmd ext, Call.vkCmdSetScissor cmd ext,
          Call.vkCmdBindDescriptorSets cmd ds] ++
        recordDraw s cmd ++ [Call.vkCmdEndRenderPass cmd, Call.vkEndCommandBuffer cmd] ++ rest,
      CmdNeutral c := by
  intro c hc
  rcases List.mem_append.mp hc with hc | hc
  · rcases List.mem_append.mp hc with hc | hc
    · rcases List.mem_append.mp hc with hc | hc
      · rcases List.mem_append.mp hc with hc | hc
        · simp only [List.mem_singleton] at hc
          subst hc
          constructor <;> intro _ hx <;> cases hx
        · simp only [List.mem_cons, List.mem_singleton, List.not_mem_nil, or_false] at hc
          rcases hc with rfl | rfl | rfl | rfl | rfl <;> (constructor <;> intro _ hx <;> cases hx)
      · exact recordDraw_neutral _ _ c hc
    · simp only [List.mem_cons, List.mem_singleton, List.not_mem_nil, or_false] at hc
      rcases hc with rfl | rfl <;> (constructor <;> intro _ hx <;> cases hx)
  · exact hrest c hc

/-- RECORD and what follows it: the command buffer `c0` found in the slot is freed if it is
not null, then a new one is allocated; the calls after the allocation neither allocate nor
free a command buffer; the slot holds null after a failed allocation that followed a free,
and the new command buffer after a successful one; the other per-slot arrays are left
alone. -/
theorem renderRecord_shape {s : VulkanApp} {env : FrameEnv} {i : Nat} {r : Run Bool}
    (h : renderRecord s env i = some r) :
    ∃ (c0 : Handle) (tail : List Call),
      s._vk_cmd_buffers[s._current_frame]? = some c0 ∧
      (∀ c ∈ tail, CmdNeutral c) ∧
      r.calls = (if c0 ≠ VK_NULL_HANDLE then [Call.vkFreeCommandBuffers c0] else []) ++
        [Call.vkAllocateCommandBuffers env.alloc_res] ++ tail ∧
      ((env.alloc_res ≠ VkResult.VK_SUCCESS ∧
          r.app._vk_cmd_buffers = s._vk_cmd_buffers.set s._current_frame VK_NULL_HANDLE) ∨
        (env.alloc_res = VkResult.VK_SUCCESS ∧
          r.app._vk_cmd_buffers = s._vk_cmd_buffers.set s._current_frame env.alloc_cmd)) ∧
      r.app._vk_mvp_buffers = s._vk_mvp_buffers ∧ r.app._vk_desc_sets = s._vk_desc_sets ∧
      ringLengths r.app = ringLengths s := by
  unfold renderRecord at h
  split at h
  · simp at h
  · rename_i c0 hc0
    have hself : s._vk_cmd_buffers.set s._current_frame c0 = s._vk_cmd_buffers :=
      list_set_self hc0
    have hbegin : ∀ res, CmdNeutral (Call.vkBeginCommandBuffer env.alloc_cmd res) :=
      fun _ => ⟨(fun _ hx => by cases hx), (fun _ hx => by cases hx)⟩
    refine ⟨c0, ?_⟩
    dsimp only at h
    by_cases hnull : c0 ≠ VK_NULL_HANDLE
    · simp only [if_pos hnull] at h ⊢
      split_ifs at h with ha hb
      · simp only [Option.some.injEq] at h
        subst h
        exact ⟨[], hc0, (fun c hc => by cases hc), by simp,
          Or.inl ⟨fun e => ha e.symm, rfl⟩, rfl, rfl, rfl⟩
      · simp only [Option.some.injEq] at h
        subst h
        refine ⟨[Call.vkBeginCommandBuffer env.alloc_cmd env.begin_res], hc0, ?_, by simp,
          Or.inr ⟨(not_not.mp ha).symm, by simp [List.set_set]⟩, rfl, rfl, rfl⟩
        intro c hc
        simp only [List.mem_singleton] at hc
        subst hc
        exact hbegin _
      · split at h
        · rename_i frame_buffer desc_set _ _
          obtain ⟨r0, h0, hr⟩ := after_eq_some h
          obtain ⟨t1, t2, t3, t4, t5⟩ := renderSubmit_tail h0
          subst hr
          refine ⟨[Call.vkBeginCommandBuffer env.alloc_cmd env.begin_res] ++
              [Call.vkCmdBeginRenderPass env.alloc_cmd frame_buffer s._vk_swapchain_ext,
                Call.vkCmdBindPipeline env.alloc_cmd s._vk_graphics_pipeline,
                Call.vkCmdSetViewport env.alloc_cmd s._vk_swapchain_ext,
                Call.vkCmdSetScissor env.alloc_cmd s._vk_swapchain_ext,
                Call.vkCmdBindDescriptorSets env.alloc_cmd desc_set] ++
              recordDraw s env.alloc_cmd ++
              [Call.vkCmdEndRenderPass env.alloc_cmd, Call.vkEndCommandBuffer env.alloc_cmd] ++
              r0.calls, hc0, record_tail_neutral _ _ _ _ _ _ _ _ t1, ?_,
            Or.inr ⟨(not_not.mp ha).symm, ?_⟩, t3, t4, t5⟩
          · simp only [List.append_assoc]
            rfl
          · rw [t2]
            simp [List.set_set]
        · simp at h
    · have hz : c0 = VK_NULL_HANDLE := not_not.mp hnull
      simp only [if_neg hnull] at h ⊢
      split_ifs at h with ha hb
      · simp only [Option.some.injEq] at h
        subst h
        refine ⟨[], hc0, (fun c hc => by cases hc), by simp,
          Or.inl ⟨fun e => ha e.symm, ?_⟩, rfl, rfl, rfl⟩
        rw [← hz, hself]
      · simp only [Option.some.injEq] at h
        subst h
        refine ⟨[Call.vkBeginCommandBuffer env.alloc_cmd env.begin_res], hc0, ?_, by simp,
          Or.inr ⟨(not_not.mp ha).symm, rfl⟩, rfl, rfl, rfl⟩
        intro c hc
        simp only [List.mem_singleton] at hc
        subst hc
        exact hbegin _
      · split at h
        · rename_i frame_buffer desc_set _ _
          obtain ⟨r0, h0, hr⟩ := after_eq_some h
          obtain ⟨t1, t2, t3, t4, t5⟩ := renderSubmit_tail h0
          subst hr
          refine ⟨[Call.vkBeginCommandBuffer env.alloc_cmd env.begin_res] ++
              [Call.vkCmdBeginRenderPass env.alloc_cmd frame_buffer s._vk_swapchain_ext,
                Call.vkCmdBindPipeline env.alloc_cmd s._vk_graphics_pipeline,
                Call.vkCmdSetViewport env.alloc_cmd s._vk_swapchain_ext,
                Call.vkCmdSetScissor env.alloc_cmd s._vk_swapchain_ext,
                Call.vkCmdBindDescriptorSets env.alloc_cmd desc_set] ++
              recordDraw s env.alloc_cmd ++
              [Call.vkCmdEndRenderPass env.alloc_cmd, Call.vkEndCommandBuffer env.alloc_cmd] ++
              r0.calls, hc0, record_tail_neutral _ _ _ _ _ _ _ _ t1, ?_,
            Or.inr ⟨(not_not.mp ha).symm, ?_⟩, t3, t4, t5⟩
          · simp only [List.append_assoc]
            rfl
          · rw [t2]
        · simp at h

/-- Command buffers in a whole `render` call: the call leaves the uniform buffers, the
descriptor sets and the sizes of the semaphore and fence arrays alone; either it never
reaches RECORD, and neither allocates nor frees a command buffer, or its calls are neutral
calls `pre`, the free of the command buffer `c0` found in the slot if it is not null, the
allocation, and neutral calls `tail`. -/
theorem render_cmd_shape {s : VulkanApp} {env : FrameEnv} {r : Run Bool}
    (h : render s env = some r) :
    r.app._vk_mvp_buffers = s._vk_mvp_buffers ∧ r.app._vk_desc_sets = s._vk_desc_sets ∧
    ringLengths r.app = ringLengths s ∧
    (((∀ c ∈ r.calls, CmdNeutral c) ∧ r.app._vk_cmd_buffers = s._vk_cmd_buffers) ∨
      ∃ (c0 : Handle) (pre tail : List Call),
        s._vk_cmd_buffers[s._current_frame]? = some c0 ∧
        (∀ c ∈ pre, CmdNeutral c) ∧ (∀ c ∈ tail, CmdNeutral c) ∧
        r.calls = pre ++
          ((if c0 ≠ VK_NULL_HANDLE then [Call.vkFreeCommandBuffers c0] else []) ++
            [Call.vkAllocateCommandBuffers env.alloc_res] ++ tail) ∧
        ((env.alloc_res ≠ VkResult.VK_SUCCESS ∧
            r.app._vk_cmd_buffers = s._vk_cmd_buffers.set s._current_frame VK_NULL_HANDLE) ∨
          (env.alloc_res = VkResult.VK_SUCCESS ∧
            r.app._vk_cmd_buffers = s._vk_cmd_buffers.set s._current_frame env.alloc_cmd))) := by
  obtain ⟨-, rfl⟩ | ⟨fence, available, -, -, h1 | h1⟩ := render_shape h
  · exact ⟨rfl, rfl, rfl, Or.inl ⟨(fun c hc => by cases hc), rfl⟩⟩
  · obtain ⟨-, -, -, rfl⟩ := h1
    refine ⟨rfl, rfl, rfl, Or.inl ⟨?_, rfl⟩⟩
    intro c hc
    simp only [List.mem_cons, List.mem_singleton, List.not_mem_nil, or_false] at hc
    rcases hc with rfl | rfl <;> (constructor <;> intro _ hx <;> cases hx)
  · obtain ⟨base, mgmt, r0, hmg, hbs, -, h0, rfl⟩ := h1
    obtain ⟨inuse, fe, mvp, r1, -, -, -, hrec, rfl⟩ := renderFrame_inv h0
    obtain ⟨c0, tail, hc0, htail, hcalls, hcmd, hm, hd, hr⟩ := renderRecord_shape hrec
    have hbr := ringLengths_of_slotState hbs
    unfold slotState at hbs
    simp only [Prod.mk.injEq] at hbs
    obtain ⟨b1, -, -, -, -, b6, b7, b8⟩ := hbs
    dsimp only at hc0 hcmd hm hd hr ⊢
    rw [b7, b1] at hc0 hcmd
    refine ⟨hm.trans b6, hd.trans b8, hr.trans hbr, Or.inr ⟨c0,
      [Call.vkWaitForFences fence,
        Call.vkAcquireNextImageKHR s._vk_swapchain available env.acquire_res] ++ mgmt ++
        ((if inuse ≠ VK_NULL_HANDLE then [Call.vkWaitForFences inuse] else []) ++
          [Call.vkMapMemory mvp.memory, Call.memcpy mvp.memory, Call.vkUnmapMemory mvp.memory]),
      tail, hc0, ?_, htail, ?_, hcmd⟩⟩
    · intro c hc
      rcases List.mem_append.mp hc with hc | hc
      · rcases List.mem_append.mp hc with hc | hc
        · simp only [List.mem_cons, List.mem_singleton, List.not_mem_nil, or_false] at hc
          rcases hc with rfl | rfl <;> (constructor <;> intro _ hx <;> cases hx)
        · exact cmdNeutral_of_allKind hmg (by decide) c hc
      · rcases List.mem_append.mp hc with hc | hc
        · split_ifs at hc
          · simp only [List.mem_singleton] at hc
            subst hc
            constructor <;> intro _ hx <;> cases hx
          · cases hc
        · simp only [List.mem_cons, List.mem_singleton, List.not_mem_nil, or_false] at hc
          rcases hc with rfl | rfl | rfl <;> (constructor <;> intro _ hx <;> cases hx)
    · rw [hcalls]
      simp only [List.append_assoc]

theorem createGraphicsPipeline_slotState {s : VulkanApp} {env : InitEnv} {r : Run Bool}
    (h : createGraphicsPipeline s env = some r) : slotState r.app = slotState s := by
  unfold createGraphicsPipeline at h
  split at h
  · simp only [Option.some.injEq] at h; subst h; rfl
  · dsimp only at h
    split at h
    · simp at h
    · rename_i r1 h1
      simp only [Option.some.injEq] at h; subst h
      have e1 := createFrameBuffers_slotState h1
      exact e1

/-- Start-up keeps the sizes of the semaphore and fence arrays; when it succeeds, the
uniform buffers, the descriptor sets and the command buffers have `MAX_INFLIGHT_FRAMES`
elements each. -/
theorem initializeApp_lengths {s : VulkanApp} {mode : DemoMode} {env : InitEnv}
    {r : Run Bool} (h : initializeApp s mode env = some r) :
    ringLengths r.app = ringLengths s ∧
      (r.ret = true → slotLengths r.app =
        (MAX_INFLIGHT_FRAMES, MAX_INFLIGHT_FRAMES, MAX_INFLIGHT_FRAMES)) := by
  unfold initializeApp at h
  dsimp only at h
  split at h
  · simp at h
  · rename_i r1 h1
    have e0 := initializeVulkanCore_ringLengths h1
    have e1 : ringLengths r1.app = ringLengths s := e0
    have e2 := ringLengths_of_slotState (createColorImage_slotState r1.app env.color)
    have e3 := ringLengths_of_slotState
      (createDepthImage_slotState (createColorImage r1.app env.color).app env.depth_fmt env.depth)
    split at h
    · simp only [Option.some.injEq] at h; subst h
      exact ⟨e1, fun hr => by cases hr⟩
    · split at h
      · simp only [Option.some.injEq] at h; subst h
        exact ⟨e2.trans e1, fun hr => by cases hr⟩
      · split at h
        · simp only [Option.some.injEq] at h; subst h
          exact ⟨e3.trans (e2.trans e1), fun hr => by cases hr⟩
        · split at h
          · simp at h
          · rename_i r4 h4
            have e4 := ringLengths_of_slotState (createGraphicsPipeline_slotState h4)
            split at h <;> simp only [Option.some.injEq] at h <;> subst h
            · exact ⟨e4.trans (e3.trans (e2.trans e1)), fun hr => by cases hr⟩
            · obtain ⟨a1, a2, a3⟩ := initializeAssets_lengths (createCommandBuffers r4.app) env
              have e5 : ringLengths (createCommandBuffers r4.app) = ringLengths r4.app := rfl
              refine ⟨a1.trans (e5.trans (e4.trans (e3.trans (e2.trans e1)))), fun hr => ?_⟩
              obtain ⟨m1, m2⟩ := a3 hr
              unfold slotLengths
              dsimp only
              rw [m1, m2, a2]
              simp only [createCommandBuffers, resizeHandles_length]

/-- The demo state after its first rendered frame is reached from a successful
`initialize`. -/
theorem demoRenderedApp_started : Started true demoRenderedApp := by
  have h0 : Started demoStart.ret demoStart.app :=
    Started.init DemoMode.MODEL demoInit demoStart (by decide)
  have h1 : demoStart.ret = true := by decide
  rw [h1] at h0
  exact Started.render true demoApp (demoFrame 0 500)
    ((render demoApp (demoFrame 0 500)).getD ⟨demoApp, [], false⟩) h0 (by decide)

/-! ### Counting the frame command buffers -/

theorem peakCmdBuffers_nil (n : Nat) : peakCmdBuffers n [] = n := rfl

theorem peakCmdBuffers_cons (n : Nat) (c : Call) (cs : List Call) :
    peakCmdBuffers n (c :: cs) = max n (peakCmdBuffers (cmdBufferStep n c) cs) := rfl

theorem le_peakCmdBuffers (l : List Call) (n : Nat) : n ≤ peakCmdBuffers n l := by
  cases l with
  | nil => exact Nat.le_refl _
  | cons c cs => exact Nat.le_max_left _ _

theorem peakCmdBuffers_append (l1 l2 : List Call) :
    ∀ n : Nat, peakCmdBuffers n (l1 ++ l2) =
      max (peakCmdBuffers n l1) (peakCmdBuffers (l1.foldl cmdBufferStep n) l2) := by
  induction l1 with
  | nil =>
    intro n
    simp only [List.nil_append, List.foldl_nil, peakCmdBuffers_nil]
    exact (Nat.max_eq_right (le_peakCmdBuffers l2 n)).symm
  | cons c cs ih =>
    intro n
    simp only [List.cons_append, peakCmdBuffers_cons, List.foldl_cons, ih, Nat.max_assoc]

theorem foldl_le_peakCmdBuffers (l : List Call) :
    ∀ (n : Nat) (p : List Call), p <+: l → p.foldl cmdBufferStep n ≤ peakCmdBuffers n l := by
  induction l with
  | nil =>
    intro n p hp
    rw [List.prefix_nil] at hp
    subst hp
    exact Nat.le_refl _
  | cons c cs ih =>
    intro n p hp
    rcases List.prefix_cons_iff.mp hp with rfl | ⟨t, rfl, ht⟩
    · exact le_peakCmdBuffers _ _
    · rw [List.foldl_cons]
      exact (ih _ _ ht).trans (Nat.le_max_right _ _)

theorem neutral_calls (l : List Call) (h : ∀ c ∈ l, CmdNeutral c) :
    ∀ n : Nat, l.foldl cmdBufferStep n = n ∧ peakCmdBuffers n l = n := by
  induction l with
  | nil => intro n; exact ⟨rfl, rfl⟩
  | cons c cs ih =>
    intro n
    have hc := cmdNeutral_step (h c (List.mem_cons_self _ _)) n
    obtain ⟨i1, i2⟩ := ih (fun x hx => h x (List.mem_cons_of_mem _ hx)) n
    rw [List.foldl_cons, peakCmdBuffers_cons, hc, i1, i2]
    exact ⟨rfl, Nat.max_self n⟩

theorem nonNullCount_le_length (l : List Handle) : nonNullCount l ≤ l.length :=
  List.countP_le_length _

theorem nonNullCount_set {l : List Handle} {i : Nat} {a : Handle} (h : l[i]? = some a)
    (b : Handle) :
    nonNullCount (l.set i b) + (if a ≠ VK_NULL_HANDLE then 1 else 0) =
      nonNullCount l + (if b ≠ VK_NULL_HANDLE then 1 else 0) := by
  induction l generalizing i with
  | nil => simp at h
  | cons x xs ih =>
    cases i with
    | zero =>
      simp only [List.getElem?_cons_zero, Option.some.injEq] at h
      subst h
      simp only [List.set_cons_zero, nonNullCount, List.countP_cons, bne_iff_ne, ne_eq]
      omega
    | succ j =>
      simp only [List.getElem?_cons_succ] at h
      have := ih h
      simp only [List.set_cons_succ, nonNullCount, List.countP_cons] at this ⊢
      omega

theorem cmdBufferStep_failed_alloc {res : VkResult} (h : res ≠ VkResult.VK_SUCCESS) (n : Nat) :
    cmdBufferStep n (Call.vkAllocateCommandBuffers res) = n := by
  cases res <;> first
    | rfl
    | exact absurd rfl h

theorem nonNullCount_set_null {l : List Handle} {i : Nat} {a : Handle} (h : l[i]? = some a) :
    nonNullCount (l.set i VK_NULL_HANDLE) + (if a ≠ VK_NULL_HANDLE then 1 else 0) =
      nonNullCount l := by
  have := nonNullCount_set h VK_NULL_HANDLE
  have e : (if VK_NULL_HANDLE ≠ VK_NULL_HANDLE then 1 else 0) = 0 :=
    if_neg (fun hne => hne rfl)
  rw [e, Nat.add_zero] at this
  exact this

theorem nonNullCount_set_handle {l : List Handle} {i : Nat} {a b : Handle}
    (h : l[i]? = some a) (hb : b ≠ VK_NULL_HANDLE) :
    nonNullCount (l.set i b) + (if a ≠ VK_NULL_HANDLE then 1 else 0) = nonNullCount l + 1 := by
  have := nonNullCount_set h b
  have e : (if b ≠ VK_NULL_HANDLE then 1 else 0) = 1 := if_pos hb
  rw [e] at this
  exact this

/-- Command-buffer accounting of one `render` call, the driver returning a non-null handle
from a successful allocation: a count `n` of live command buffers that is at most the
number of non-null elements of the command-buffer array stays so, and it never exceeds the
size of the array during the call. -/
theorem render_cmd_account {s : VulkanApp} {env : FrameEnv} {r : Run Bool}
    (h : render s env = some r)
    (hdrv : env.alloc_res = VkResult.VK_SUCCESS → env.alloc_cmd ≠ VK_NULL_HANDLE)
    (n : Nat) (hn : n ≤ nonNullCount s._vk_cmd_buffers) :
    r.calls.foldl cmdBufferStep n ≤ nonNullCount r.app._vk_cmd_buffers ∧
      peakCmdBuffers n r.calls ≤ s._vk_cmd_buffers.length ∧
      r.app._vk_cmd_buffers.length = s._vk_cmd_buffers.length := by
  have hN := nonNullCount_le_length s._vk_cmd_buffers
  obtain ⟨-, -, -, ⟨hneu, e⟩ | ⟨c0, pre, tail, hc0, hpre, htail, hcalls, hcmd⟩⟩ :=
    render_cmd_shape h
  · obtain ⟨f1, f2⟩ := neutral_calls r.calls hneu n
    rw [f1, f2, e]
    exact ⟨hn, hn.trans hN, rfl⟩
  · have hp1 : ∀ m, pre.foldl cmdBufferStep m = m := fun m => (neutral_calls pre hpre m).1
    have hp2 : ∀ m, peakCmdBuffers m pre = m := fun m => (neutral_calls pre hpre m).2
    have ht1 : ∀ m, tail.foldl cmdBufferStep m = m := fun m => (neutral_calls tail htail m).1
    have ht2 : ∀ m, peakCmdBuffers m tail = m := fun m => (neutral_calls tail htail m).2
    have hfree : ∀ m x, cmdBufferStep m (Call.vkFreeCommandBuffers x) = m - 1 := fun _ _ => rfl
    have hset0 := nonNullCount_set_null hc0
    have hL0 := nonNullCount_le_length (s._vk_cmd_buffers.set s._current_frame VK_NULL_HANDLE)
    have hLc := nonNullCount_le_length (s._vk_cmd_buffers.set s._current_frame env.alloc_cmd)
    rw [List.length_set] at hL0 hLc
    rw [hcalls]
    rcases hcmd with ⟨hfail, e⟩ | ⟨hsucc, e⟩
    · have ha := cmdBufferStep_failed_alloc hfail
      rw [e, List.length_set]
      by_cases hnull : c0 ≠ VK_NULL_HANDLE
      · rw [if_pos hnull] at hset0
        simp only [if_pos hnull, List.foldl_append, peakCmdBuffers_append, hp1, hp2, ht1, ht2,
          List.foldl_cons, List.foldl_nil, peakCmdBuffers_cons, peakCmdBuffers_nil, hfree, ha]
        simp only [max_le_iff]
        repeat' constructor
        all_goals omega
      · rw [if_neg hnull] at hset0
        simp only [if_neg hnull, List.foldl_append, peakCmdBuffers_append, hp1, hp2, ht1, ht2,
          List.foldl_cons, List.foldl_nil, peakCmdBuffers_cons, peakCmdBuffers_nil, ha,
          List.nil_append]
        simp only [max_le_iff]
        repeat' constructor
        all_goals omega
    · have hsetc := nonNullCount_set_handle hc0 (hdrv hsucc)
      have ha : ∀ m, cmdBufferStep m (Call.vkAllocateCommandBuffers env.alloc_res) = m + 1 := by
        intro m
        rw [hsucc]
        rfl
      rw [e, List.length_set]
      by_cases hnull : c0 ≠ VK_NULL_HANDLE
      · rw [if_pos hnull] at hset0 hsetc
        simp only [if_pos hnull, List.foldl_append, peakCmdBuffers_append, hp1, hp2, ht1, ht2,
          List.foldl_cons, List.foldl_nil, peakCmdBuffers_cons, peakCmdBuffers_nil, hfree, ha]
        simp only [max_le_iff]
        repeat' constructor
        all_goals omega
      · rw [if_neg hnull] at hset0 hsetc
        simp only [if_neg hnull, List.foldl_append, peakCmdBuffers_append, hp1, hp2, ht1, ht2,
          List.foldl_cons, List.foldl_nil, peakCmdBuffers_cons, peakCmdBuffers_nil, ha,
          List.nil_append]
        simp only [max_le_iff]
        repeat' constructor
        all_goals omega

theorem pollEvents_cmd_buffers (s : VulkanApp) (e : Option VkExtent2D) :
    (pollEvents s e)._vk_cmd_buffers = s._vk_cmd_buffers := by
  cases e <;> rfl

/-- Command-buffer accounting along the main loop. -/
theorem mainLoop_cmd_account (inputs : List LoopInput) :
    ∀ (s final : VulkanApp) (runs : List (Run Bool)) (n : Nat),
      mainLoop s inputs = some (final, runs) →
      (∀ input ∈ inputs, input.frame.alloc_res = VkResult.VK_SUCCESS →
        input.frame.alloc_cmd ≠ VK_NULL_HANDLE) →
      n ≤ nonNullCount s._vk_cmd_buffers →
      peakCmdBuffers n (runs.map (fun r => r.calls)).flatten ≤ s._vk_cmd_buffers.length := by
  induction inputs with
  | nil =>
    intro s final runs n h _ hn
    simp only [mainLoop, Option.some.injEq, Prod.mk.injEq] at h
    rw [← h.2]
    exact hn.trans (nonNullCount_le_length _)
  | cons input inputs ih =>
    intro s final runs n h hdrv hn
    unfold mainLoop at h
    split at h
    · simp at h
    · rename_i r hr
      split at h
      · simp at h
      · rename_i final1 runs1 hloop
        simp only [Option.some.injEq, Prod.mk.injEq] at h
        obtain ⟨-, rfl⟩ := h
        obtain ⟨b1, b2, b3⟩ := render_cmd_account hr (hdrv input (List.mem_cons_self _ _)) n hn
        have b4 := ih (pollEvents r.app input.resized) final1 runs1
          (r.calls.foldl cmdBufferStep n) hloop
          (fun x hx => hdrv x (List.mem_cons_of_mem _ hx))
          (by rw [pollEvents_cmd_buffers]; exact b1)
        rw [pollEvents_cmd_buffers, b3] at b4
        simp only [List.map_cons, List.flatten_cons, peakCmdBuffers_append]
        exact Nat.max_le.mpr ⟨b2, b4⟩

/-- Every outcome the main loop collects is the outcome of a `render` call. -/
theorem mainLoop_runs_render (inputs : List LoopInput) :
    ∀ (s final : VulkanApp) (runs : List (Run Bool)),
      mainLoop s inputs = some (final, runs) →
      ∀ r ∈ runs, ∃ s1, ∃ input ∈ inputs, render s1 input.frame = some r := by
  induction inputs with
  | nil =>
    intro s final runs h r hr
    simp only [mainLoop, Option.some.injEq, Prod.mk.injEq] at h
    rw [← h.2] at hr
    cases hr
  | cons input inputs ih =>
    intro s final runs h r hr
    unfold mainLoop at h
    split at h
    · simp at h
    · rename_i r0 hr0
      split at h
      · simp at h
      · rename_i final1 runs1 hloop1
        simp only [Option.some.injEq, Prod.mk.injEq] at h
        obtain ⟨-, rfl⟩ := h
        rcases List.mem_cons.mp hr with rfl | hr
        · exact ⟨s, input, List.mem_cons_self _ _, hr0⟩
        · obtain ⟨s1, x, hx, h1⟩ := ih _ _ _ hloop1 r hr
          exact ⟨s1, x, List.mem_cons_of_mem _ hx, h1⟩

end VulkanApp

/-! ### Memory type selection -/

theorem shifted_bit_test (idx possible_types : Nat) :
    (1 <<< idx) &&& possible_types ≠ 0 ↔ possible_types.testBit idx = true := by
  rw [Nat.one_shiftLeft]
  constructor
  · intro h
    obtain ⟨i, hi⟩ := Nat.ne_zero_implies_bit_true h
    rw [Nat.testBit_and, Nat.testBit_two_pow, Bool.and_eq_true, decide_eq_true_eq] at hi
    obtain ⟨rfl, hb⟩ := hi
    exact hb
  · intro h h0
    have h1 : ((2 ^ idx) &&& possible_types).testBit idx = true := by
      rw [Nat.testBit_and, Nat.testBit_two_pow_self, h]
      rfl
    rw [h0, Nat.zero_testBit] at h1
    cases h1

theorem flags_included (flags required : Nat) :
    flags &&& required = required ↔
      ∀ bit, required.testBit bit = true → flags.testBit bit = true := by
  constructor
  · intro h bit hb
    have h1 : (flags &&& required).testBit bit = true := by rw [h]; exact hb
    rw [Nat.testBit_and, Bool.and_eq_true] at h1
    exact h1.1
  · intro h
    apply Nat.eq_of_testBit_eq
    intro i
    rw [Nat.testBit_and]
    cases hr : required.testBit i
    · simp
    · simp [h i hr]

/-- The loop from index `idx` with `n` iterations remaining, all within the array: it
returns either `UINT32_MAX`, no index from `idx` up to `idx + n` suiting, or the least
suiting index in that range. -/
theorem findVkDeviceMemoryTypeIndexLoop_spec (mem_props : VkPhysicalDeviceMemoryProperties)
    (possible_types property_flags : Nat)
    (hlen : mem_props.memoryTypes.length ≤ VK_MAX_MEMORY_TYPES) (n : Nat) :
    ∀ idx, idx + n ≤ mem_props.memoryTypes.length →
      ∃ res, findVkDeviceMemoryTypeIndexLoop mem_props possible_types property_flags n idx =
          some res ∧
        ((res = UINT32_MAX ∧ ∀ j, idx ≤ j → j < idx + n →
            ¬ MemoryTypeSuits mem_props possible_types property_flags j) ∨
          (idx ≤ res ∧ res < idx + n ∧
            MemoryTypeSuits mem_props possible_types property_flags res ∧
            ∀ j, idx ≤ j → j < res →
              ¬ MemoryTypeSuits mem_props possible_types property_flags j)) := by
  induction n with
  | zero =>
    intro idx _
    exact ⟨UINT32_MAX, rfl, Or.inl ⟨rfl, fun j h1 h2 => absurd h2 (by omega)⟩⟩
  | succ n ih =>
    intro idx hin
    have hlt : idx < mem_props.memoryTypes.length := by omega
    have h32 : ¬ 32 ≤ idx := by
      unfold VK_MAX_MEMORY_TYPES at hlen
      omega
    obtain ⟨res, hres, hcase⟩ := ih (idx + 1) (by omega)
    have hskip : ¬ MemoryTypeSuits mem_props possible_types property_flags idx →
        ∃ res2, some res = some res2 ∧
          ((res2 = UINT32_MAX ∧ ∀ j, idx ≤ j → j < idx + (n + 1) →
              ¬ MemoryTypeSuits mem_props possible_types property_flags j) ∨
            (idx ≤ res2 ∧ res2 < idx + (n + 1) ∧
              MemoryTypeSuits mem_props possible_types property_flags res2 ∧
              ∀ j, idx ≤ j → j < res2 →
                ¬ MemoryTypeSuits mem_props possible_types property_flags j)) := by
      intro hno
      refine ⟨res, rfl, ?_⟩
      rcases hcase with ⟨hmax, hnone⟩ | ⟨h1, h2, h3, h4⟩
      · refine Or.inl ⟨hmax, fun j hj1 hj2 => ?_⟩
        by_cases hj : j = idx
        · rw [hj]; exact hno
        · exact hnone j (by omega) (by omega)
      · refine Or.inr ⟨by omega, by omega, h3, fun j hj1 hj2 => ?_⟩
        by_cases hj : j = idx
        · rw [hj]; exact hno
        · exact h4 j (by omega) hj2
    unfold findVkDeviceMemoryTypeIndexLoop
    rw [if_neg h32]
    by_cases hbit : (1 <<< idx) &&& possible_types ≠ 0
    · rw [if_pos hbit]
      have hget : mem_props.memoryTypes[idx]? = some (mem_props.memoryTypes[idx]) :=
        List.getElem?_eq_getElem hlt
      rw [hget]
      dsimp only
      by_cases hflags : mem_props.memoryTypes[idx].propertyFlags &&& property_flags =
          property_flags
      · rw [if_pos hflags]
        exact ⟨idx, rfl, Or.inr ⟨le_refl _, by omega,
          ⟨(shifted_bit_test _ _).mp hbit, _, hget, (flags_included _ _).mp hflags⟩,
          fun j h1 h2 => absurd h1 (by omega)⟩⟩
      · rw [if_neg hflags, hres]
        apply hskip
        rintro ⟨-, t, ht, hall⟩
        rw [hget] at ht
        have := Option.some.inj ht
        subst this
        exact hflags ((flags_included _ _).mpr hall)
    · rw [if_neg hbit, hres]
      apply hskip
      rintro ⟨hb, -⟩
      exact hbit ((shifted_bit_test _ _).mpr hb)

/-! ### Mip levels -/

theorem generateMipmapsLoop_length (n : Nat) :
    ∀ curr, (generateMipmapsLoop n curr).length = n := by
  induction n with
  | zero => intro curr; rfl
  | succ n ih => intro curr; simp [generateMipmapsLoop, ih]

theorem nextMipExtent_pos (curr : Nat × Nat) :
    1 ≤ (nextMipExtent curr).1 ∧ 1 ≤ (nextMipExtent curr).2 := by
  unfold nextMipExtent
  dsimp only
  constructor <;> split <;> omega

theorem generateMipmapsLoop_pos (n : Nat) :
    ∀ curr, ∀ e ∈ generateMipmapsLoop n curr, 1 ≤ e.1 ∧ 1 ≤ e.2 := by
  induction n with
  | zero => intro curr e he; cases he
  | succ n ih =>
    intro curr e he
    unfold generateMipmapsLoop at he
    rcases List.mem_cons.mp he with rfl | he
    · exact nextMipExtent_pos curr
    · exact ih _ e he

theorem generateMipmapsLoop_getLast (n : Nat) :
    ∀ curr, (curr :: generateMipmapsLoop n curr).getLast? = some (nextMipExtent^[n] curr) := by
  induction n with
  | zero => intro curr; rfl
  | succ n ih =>
    intro curr
    unfold generateMipmapsLoop
    rw [List.getLast?_cons_cons, ih, Function.iterate_succ_apply]

/-- Halving a dimension `k` times, never below 1. -/
theorem nextMipExtent_iterate (width height : Nat) (hw : 1 ≤ width) (hh : 1 ≤ height)
    (k : Nat) :
    nextMipExtent^[k] (width, height) =
      (if width / 2 ^ k = 0 then 1 else width / 2 ^ k,
        if height / 2 ^ k = 0 then 1 else height / 2 ^ k) := by
  induction k with
  | zero =>
    simp only [Function.iterate_zero, id_eq, pow_zero, Nat.div_one]
    rw [if_neg (by omega), if_neg (by omega)]
  | succ k ih =>
    rw [Function.iterate_succ_apply', ih]
    have hdiv : ∀ d : Nat, d / 2 ^ (k + 1) = d / 2 ^ k / 2 := by
      intro d
      rw [pow_succ, Nat.div_div_eq_div_mul]
    unfold nextMipExtent
    dsimp only
    rw [hdiv width, hdiv height]
    generalize width / 2 ^ k = a
    generalize height / 2 ^ k = b
    congr 1 <;> split_ifs <;> omega

namespace VulkanApp
/-- C1 (counterexample): with tracked target extent (0, 600) the per-frame entry point
does not return success: `render` returns `false`. -/
theorem render_zero_extent_not_success :
    ¬ ((render (notifyTargetFrameBufferResized demoApp ⟨0, 600⟩) (demoFrame 0 500)).map
      (fun r => r.ret) = some true) := by
  decide

/-- C1 (amended): whenever the tracked target extent has width 0 or height 0, `render`
returns `false`. -/
theorem render_zero_extent_returns_false (s : VulkanApp) (env : FrameEnv)
    (h : s._target_frame_buffer_ext.width = 0 ∨ s._target_frame_buffer_ext.height = 0) :
    (render s env).map (fun r => r.ret) = some false := by
  simp [render, h]

/-- Witness for `render_zero_extent_returns_false` at the demo state with extent (0, 600). -/
theorem render_zero_extent_returns_false_witness :
    (render (notifyTargetFrameBufferResized demoApp ⟨0, 600⟩) (demoFrame 0 500)).map
      (fun r => r.ret) = some false :=
  render_zero_extent_returns_false _ _ (Or.inl rfl)

/-- C2: whenever the tracked target extent has width 0 or height 0, `render` issues no
driver call at all (no fence wait, acquire, submit, present or rebuild) and leaves the
whole application state, hence the ring index, the swapchain state and the in-flight
image map, unchanged. -/
theorem render_zero_extent_no_effect (s : VulkanApp) (env : FrameEnv)
    (h : s._target_frame_buffer_ext.width = 0 ∨ s._target_frame_buffer_ext.height = 0) :
    ∃ r, render s env = some r ∧ r.calls = [] ∧ r.app = s := by
  refine ⟨⟨s, [], false⟩, ?_, rfl, rfl⟩
  simp [render, h]

/-- Witness for `render_zero_extent_no_effect` at the demo state with extent (800, 0). -/
theorem render_zero_extent_no_effect_witness :
    ∃ r, render (notifyTargetFrameBufferResized demoApp ⟨800, 0⟩) (demoFrame 1 500) = some r ∧
      r.calls = [] ∧ r.app = notifyTargetFrameBufferResized demoApp ⟨800, 0⟩ :=
  render_zero_extent_no_effect _ _ (Or.inr rfl)

/-- C3: starting from a successful `initialize`, after M consecutive `render` calls of the
main loop that each return success without running the rebuild branch (no device-idle
wait among their calls), the ring index equals M mod MAX_INFLIGHT_FRAMES. -/
theorem ring_index_after_successful_frames (s0 : VulkanApp) (mode : DemoMode) (ienv : InitEnv)
    (start : Run Bool) (inputs : List LoopInput) (final : VulkanApp) (runs : List (Run Bool))
    (hinit : initializeApp s0 mode ienv = some start) (_hok : start.ret = true)
    (hloop : mainLoop start.app inputs = some (final, runs))
    (hsucc : ∀ r ∈ runs, r.ret = true ∧ Call.vkDeviceWaitIdle ∉ r.calls) :
    final._current_frame = inputs.length % MAX_INFLIGHT_FRAMES := by
  have h0 : start.app._current_frame = 0 := initializeApp_current_frame hinit
  have hlt : start.app._current_frame < MAX_INFLIGHT_FRAMES := by
    rw [h0]; decide
  have := mainLoop_current_frame inputs start.app final runs hlt hloop (fun r hr => (hsucc r hr).1)
  rw [this, h0, Nat.zero_add]

/-- Witness for `ring_index_after_successful_frames`: three successful frames on the demo
platform leave the ring index at 3 mod 2. -/
theorem ring_index_after_successful_frames_witness :
    demoLoop.1._current_frame = 3 % MAX_INFLIGHT_FRAMES :=
  ring_index_after_successful_frames construct DemoMode.MODEL demoInit demoStart demoInputs
    demoLoop.1 demoLoop.2 (by decide) (by decide) (by decide) (by decide)

/-- C4 (counterexample): it is not the case that every `render` call in which the rebuild
branch runs leaves the ring index unchanged; on the demo platform a frame whose present
reports a suboptimal surface rebuilds and moves the ring index from 0 to 1. -/
theorem rebuild_call_ring_index_changes :
    ¬ ∀ (s : VulkanApp) (env : FrameEnv) (r : Run Bool), render s env = some r →
      Call.vkDeviceWaitIdle ∈ r.calls →
      r.app._current_frame = s._current_frame ∧ r.ret = true := by
  intro h
  have h1 := h demoApp demoSuboptimalFrame
    ((render demoApp demoSuboptimalFrame).getD ⟨demoApp, [], false⟩) (by decide) (by decide)
  revert h1
  decide

/-- C4 (amended): for every `render` call in which the rebuild branch runs at PRESENT (the
acquire did not report out-of-date and a device-idle wait is among the calls issued), the
call returns success and the ring index after the call is the successor
`(f + 1) % MAX_INFLIGHT_FRAMES` (in `u32` arithmetic) of its value before the call. -/
theorem present_rebuild_advances_ring (s : VulkanApp) (env : FrameEnv) (r : Run Bool)
    (h : render s env = some r)
    (hacq : env.acquire_res ≠ VkResult.VK_ERROR_OUT_OF_DATE_KHR)
    (hreb : Call.vkDeviceWaitIdle ∈ r.calls) :
    r.ret = true ∧
      r.app._current_frame = ((s._current_frame + 1) % 2 ^ 32) % MAX_INFLIGHT_FRAMES := by
  have hret : r.ret = true := by
    obtain ⟨-, rfl⟩ | ⟨-, fence, available, -, -, h1 | h1 | h1⟩ := render_inv h
    · simp at hreb
    · exact absurd h1.1 hacq
    · obtain ⟨-, -, -, rfl⟩ := h1
      simp at hreb
    · obtain ⟨-, r0, h0, rfl⟩ := h1
      simp at hreb
      have h2 := renderFrame_idle_ret h0 hreb
      exact h2
  have hf := render_current_frame h
  rw [hret, if_pos rfl] at hf
  exact ⟨hret, hf⟩

/-- Witness for `present_rebuild_advances_ring`: the demo frame whose present reports a
suboptimal surface. -/
theorem present_rebuild_advances_ring_witness :
    ((render demoApp demoSuboptimalFrame).getD ⟨demoApp, [], false⟩).ret = true ∧
      ((render demoApp demoSuboptimalFrame).getD ⟨demoApp, [], false⟩).app._current_frame =
        ((demoApp._current_frame + 1) % 2 ^ 32) % MAX_INFLIGHT_FRAMES :=
  present_rebuild_advances_ring demoApp demoSuboptimalFrame _ (by decide) (by decide)
    (by decide)

/-- C5 (the code at the failing input): on the demo platform with the tracked target extent
at 1024 x 768 and the swapchain at 800 x 600, a `render` call whose acquire reports
out-of-date rebuilds with the old swapchain extent 800 x 600 and then does not return:
the same call updates the in-flight image map at index 0, writes the uniform buffer,
records a command buffer, submits it and presents image 0, and returns `true`. -/
theorem acquire_out_of_date_falls_through :
    demoResizedApp._target_frame_buffer_ext = ⟨1024, 768⟩ ∧
    ∃ r, render demoResizedApp demoOutOfDateFrame = some r ∧
      Call.vkCreateSwapchainKHR ⟨800, 600⟩ 3 ⟨50, 0⟩ VK_PRESENT_MODE_FIFO_KHR
        VkResult.VK_SUCCESS ∈ r.calls ∧
      demoResizedApp._vk_inuse_fences = [0, 0, 0] ∧
      r.app._vk_inuse_fences = [30, 0, 0] ∧
      Call.memcpy 60 ∈ r.calls ∧
      Call.vkEndCommandBuffer 500 ∈ r.calls ∧
      Call.vkQueueSubmit 10 500 20 30 VkResult.VK_SUCCESS ∈ r.calls ∧
      Call.vkQueuePresentKHR 200 0 20 VkResult.VK_SUCCESS ∈ r.calls ∧
      r.ret = true :=
  ⟨by decide, (render demoResizedApp demoOutOfDateFrame).getD ⟨demoApp, [], false⟩,
    by decide, by decide, by decide, by decide, by decide, by decide, by decide, by decide,
    by decide⟩

/-- C6: every `render` call that reaches PRESENT (a present call is among its calls) runs
the PRESENT step in a state that is the base state of the frame (the entry state, or the
rebuilt state when the acquire reported out-of-date) with only the in-flight image map and
the command-buffer array updated; if in that state the tracked target extent differs from
the swapchain extent in width or in height, the rebuild branch is run with the tracked
target extent and the call returns success, whatever the present call returned. -/
theorem present_extent_mismatch_rebuilds (s : VulkanApp) (env : FrameEnv) (r : Run Bool)
    (h : render s env = some r) (sc : Handle) (idx : Nat) (sem : Handle) (res : VkResult)
    (hp : Call.vkQueuePresentKHR sc idx sem res ∈ r.calls) :
    ∃ (base : VulkanApp) (m cb : List Handle) (pre : List Call) (rp : Run Bool),
      ((env.acquire_res ≠ VkResult.VK_ERROR_OUT_OF_DATE_KHR ∧ base = s) ∨
        (env.acquire_res = VkResult.VK_ERROR_OUT_OF_DATE_KHR ∧ ∃ rb1,
          recreateSwapChainRelatedData s s._vk_swapchain_ext env.acquire_rebuild = some rb1 ∧
          base = rb1.app)) ∧
      renderPresent { base with _vk_inuse_fences := m, _vk_cmd_buffers := cb } env
        (env.acquire_img.getD 0) = some rp ∧
      r = ⟨rp.app, pre ++ rp.calls, rp.ret⟩ ∧
      ((base._target_frame_buffer_ext.width ≠ base._vk_swapchain_ext.width ∨
          base._target_frame_buffer_ext.height ≠ base._vk_swapchain_ext.height) →
        ∃ rb finished,
          recreateSwapChainRelatedData { base with _vk_inuse_fences := m, _vk_cmd_buffers := cb }
            base._target_frame_buffer_ext env.present_rebuild = some rb ∧
          rp.calls = Call.vkQueuePresentKHR base._vk_swapchain (env.acquire_img.getD 0) finished
            env.present_res :: rb.calls ∧
          rp.ret = true) := by
  obtain ⟨fence, available, base, mgmt, inuse, mvp, cb, rec, av, fin, rp, -, -, hbase, -,
    hrp, rfl⟩ := render_reaches_present h hp
  refine ⟨base, base._vk_inuse_fences.set (env.acquire_img.getD 0) fence, cb, _, rp, ?_, hrp,
    rfl, ?_⟩
  · rcases hbase with ⟨hok, rfl, -⟩ | ⟨hood, rb, hrb, rfl, -⟩
    · left
      refine ⟨?_, rfl⟩
      rcases hok with hok | hok <;> rw [hok] <;> decide
    · exact Or.inr ⟨hood, rb, hrb, rfl⟩
  · intro hmis
    obtain ⟨finished, -, h3 | h3 | h3⟩ := renderPresent_inv hrp
    · obtain ⟨-, rb, hrb, rfl⟩ := h3
      exact ⟨rb, finished, hrb, rfl, rfl⟩
    · exact absurd (Or.inr (Or.inr hmis)) h3.1
    · exact absurd (Or.inr (Or.inr hmis)) h3.1

/-- Witness for `present_extent_mismatch_rebuilds`: on the demo platform, after a resize to
1024 x 768, a frame whose present call succeeds reaches PRESENT. -/
theorem present_extent_mismatch_rebuilds_witness :
    ∃ (base : VulkanApp) (m cb : List Handle) (pre : List Call) (rp : Run Bool),
      (((demoFrame 0 500).acquire_res ≠ VkResult.VK_ERROR_OUT_OF_DATE_KHR ∧
          base = demoResizedApp) ∨
        ((demoFrame 0 500).acquire_res = VkResult.VK_ERROR_OUT_OF_DATE_KHR ∧ ∃ rb1,
          recreateSwapChainRelatedData demoResizedApp demoResizedApp._vk_swapchain_ext
            (demoFrame 0 500).acquire_rebuild = some rb1 ∧
          base = rb1.app)) ∧
      renderPresent { base with _vk_inuse_fences := m, _vk_cmd_buffers := cb } (demoFrame 0 500)
        ((demoFrame 0 500).acquire_img.getD 0) = some rp ∧
      (render demoResizedApp (demoFrame 0 500)).getD ⟨demoApp, [], false⟩ =
        ⟨rp.app, pre ++ rp.calls, rp.ret⟩ ∧
      ((base._target_frame_buffer_ext.width ≠ base._vk_swapchain_ext.width ∨
          base._target_frame_buffer_ext.height ≠ base._vk_swapchain_ext.height) →
        ∃ rb finished,
          recreateSwapChainRelatedData { base with _vk_inuse_fences := m, _vk_cmd_buffers := cb }
            base._target_frame_buffer_ext (demoFrame 0 500).present_rebuild = some rb ∧
          rp.calls = Call.vkQueuePresentKHR base._vk_swapchain
            ((demoFrame 0 500).acquire_img.getD 0) finished (demoFrame 0 500).present_res ::
              rb.calls ∧
          rp.ret = true) :=
  present_extent_mismatch_rebuilds demoResizedApp (demoFrame 0 500)
    ((render demoResizedApp (demoFrame 0 500)).getD ⟨demoApp, [], false⟩) (by decide)
    100 0 20 VkResult.VK_SUCCESS (by decide)

/-- C7 (the code at the failing input): on the demo platform a `render` call whose acquire
reports out-of-date, whose submit succeeds and whose present reports out-of-date runs the
rebuild branch twice (two device-idle waits) before returning `true`. -/
theorem stale_acquire_and_present_rebuild_twice :
    ∃ r, render demoApp demoStaleTwiceFrame = some r ∧
      Call.vkQueueSubmit 10 500 20 30 VkResult.VK_SUCCESS ∈ r.calls ∧
      Call.vkQueuePresentKHR 200 0 20 VkResult.VK_ERROR_OUT_OF_DATE_KHR ∈ r.calls ∧
      r.calls.count Call.vkDeviceWaitIdle = 2 ∧
      r.ret = true :=
  ⟨(render demoApp demoStaleTwiceFrame).getD ⟨demoApp, [], false⟩,
    by decide, by decide, by decide, by decide, by decide⟩

/-- C8 (image reuse safety): take any `render` call that performs its uniform write, using
image index `i`; `pre` are the calls it issued before the `memcpy`. The write goes to the
uniform buffer of the current slot. If the in-flight image map holds a fence for `i` at
the start of the call, the call waits on that fence after the acquire and before the write.
Consequently, for any earlier `render` call of the same run of the main loop that used
image index `i` and submitted successfully with fence `fence`: a wait on `fence` is issued
after that earlier call and before the write; and when no call in between used image index
`i`, it is the wait this call issues after its acquire and before its write. -/
theorem image_reuse_waits_on_recorded_fence (s2 : VulkanApp) (env2 : FrameEnv) (r2 : Run Bool)
    (i : Nat) (pre post : List Call) (mem : Handle)
    (h2 : render s2 env2 = some r2) (hi2 : env2.acquire_img.getD 0 = i)
    (hw : r2.calls = pre ++ Call.memcpy mem :: post) :
    (∃ buf, s2._vk_mvp_buffers[s2._current_frame]? = some buf ∧ buf.memory = mem) ∧
    (∀ held, s2._vk_inuse_fences[i]? = some held → held ≠ VK_NULL_HANDLE →
      ∃ a b, pre = a ++ Call.vkWaitForFences held :: b ∧ ∃ c ∈ a, c.kind = CallKind.acquire) ∧
    (∀ (s1 : VulkanApp) (in1 : LoopInput) (r1 : Run Bool) (mid : List LoopInput)
        (rm : List (Run Bool)) (fence : Handle),
      render s1 in1.frame = some r1 → in1.frame.acquire_img.getD 0 = i →
      (∃ a b c, Call.vkQueueSubmit a b c fence VkResult.VK_SUCCESS ∈ r1.calls) →
      fence ≠ VK_NULL_HANDLE →
      mainLoop (pollEvents r1.app in1.resized) mid = some (s2, rm) →
      Call.vkWaitForFences fence ∈ (rm.map (fun r => r.calls)).flatten ++ pre ∧
        ((∀ x ∈ mid, x.frame.acquire_img.getD 0 ≠ i) →
          ∃ a b, pre = a ++ Call.vkWaitForFences fence :: b ∧
            ∃ c ∈ a, c.kind = CallKind.acquire)) := by
  obtain ⟨slot, available, mgmt, inuse, buf, -, -, hi, hm, hmem, hpre⟩ :=
    render_write_split h2 hw
  rw [hi2] at hi
  have part1 : ∀ held, s2._vk_inuse_fences[i]? = some held → held ≠ VK_NULL_HANDLE →
      ∃ a b, pre = a ++ Call.vkWaitForFences held :: b ∧
        ∃ c ∈ a, c.kind = CallKind.acquire := by
    intro held hheld hne
    rw [hi] at hheld
    have e : inuse = held := Option.some.inj hheld
    subst e
    refine ⟨[Call.vkWaitForFences slot,
        Call.vkAcquireNextImageKHR s2._vk_swapchain available env2.acquire_res] ++ mgmt,
      [Call.vkMapMemory buf.memory], ?_,
      Call.vkAcquireNextImageKHR s2._vk_swapchain available env2.acquire_res, ?_, rfl⟩
    · rw [hpre, if_pos hne]
      simp only [List.cons_append, List.nil_append, List.append_assoc]
    · simp
  refine ⟨⟨buf, hm, hmem⟩, part1, ?_⟩
  intro s1 in1 r1 mid rm fence h1 hi1 hsub hne hmid
  obtain ⟨a, b, c, hsub⟩ := hsub
  have hrec := render_submit_records h1 hsub
  rw [hi1] at hrec
  have hrec1 : (pollEvents r1.app in1.resized)._vk_inuse_fences[i]? = some fence := by
    rw [pollEvents_inuse_fences]; exact hrec
  obtain ⟨d1, d2⟩ := mainLoop_inuse_entry mid _ _ _ i fence hmid hrec1 hne
  constructor
  · rcases d1 with d1 | d1
    · obtain ⟨x, y, hxy, -⟩ := part1 fence d1 hne
      rw [hxy]
      simp
    · exact List.mem_append.mpr (Or.inl d1)
  · intro hall
    exact part1 fence (d2 hall) hne

/-- Witness for `image_reuse_waits_on_recorded_fence`: with three swapchain images and two
slots, frames on images 0, 1, 2, 0: the fourth call (slot 1, fence 31) finds fence 30 of
the first call recorded for image 0 and waits on it before writing its uniform buffer. -/
theorem image_reuse_waits_on_recorded_fence_witness :
    ∃ a b, demoFourthRun.calls.take 4 = a ++ Call.vkWaitForFences 30 :: b ∧
      ∃ c ∈ a, c.kind = CallKind.acquire :=
  ((image_reuse_waits_on_recorded_fence demoMidLoop.1 (demoFrame 0 503) demoFourthRun 0
    (demoFourthRun.calls.take 4) (demoFourthRun.calls.drop 5) 61 (by decide) (by decide)
    (by decide)).2.2 demoApp demoFirstInput demoFirstRun demoMidInputs demoMidLoop.2 30
    (by decide) (by decide) ⟨10, 500, 20, by decide⟩ (by decide) (by decide)).2 (by decide)

/-- C9 (ring bound invariant): after a successful `initialize` of a freshly constructed
application, along any run of the main loop and at every point of the sequence of driver
calls its `render` calls issue, the number of submissions in flight (successfully submitted
and not yet confirmed complete by a later wait on the fence they carry) is at most
MAX_INFLIGHT_FRAMES; and in every `render` call a submit carries the fence of the current
slot, on which the call has waited as its very first driver call. -/
theorem in_flight_never_exceeds_ring (mode : DemoMode) (ienv : InitEnv) (start : Run Bool)
    (inputs : List LoopInput) (final : VulkanApp) (runs : List (Run Bool))
    (hinit : initializeApp construct mode ienv = some start) (_hok : start.ret = true)
    (hloop : mainLoop start.app inputs = some (final, runs)) :
    (∀ p : List Call, p <+: (runs.map (fun r => r.calls)).flatten →
        (inFlight p).length ≤ MAX_INFLIGHT_FRAMES) ∧
      (∀ r ∈ runs, ∀ (a b c fence : Handle) (res : VkResult),
        Call.vkQueueSubmit a b c fence res ∈ r.calls →
        r.calls.head? = some (Call.vkWaitForFences fence)) := by
  have hlen : start.app._vk_inflight_fences.length = MAX_INFLIGHT_FRAMES := by
    rw [initializeApp_fences_length hinit]
    rfl
  constructor
  · intro p hp
    have h1 := length_foldl_le_peakInFlight _ [] p hp
    have h2 := mainLoop_in_flight inputs start.app final runs [] hloop List.nodup_nil
      (List.nil_subset _)
    rw [hlen] at h2
    exact h1.trans h2
  · have key : ∀ (inputs : List LoopInput) (s final : VulkanApp) (runs : List (Run Bool)),
        mainLoop s inputs = some (final, runs) → ∀ r ∈ runs, ∃ s1 env, render s1 env = some r := by
      intro inputs
      induction inputs with
      | nil =>
        intro s final runs h r hr
        simp only [mainLoop, Option.some.injEq, Prod.mk.injEq] at h
        rw [← h.2] at hr
        cases hr
      | cons input inputs ih =>
        intro s final runs h r hr
        unfold mainLoop at h
        split at h
        · simp at h
        · rename_i r0 hr0
          split at h
          · simp at h
          · rename_i final1 runs1 hloop1
            simp only [Option.some.injEq, Prod.mk.injEq] at h
            obtain ⟨-, rfl⟩ := h
            rcases List.mem_cons.mp hr with rfl | hr
            · exact ⟨s, input.frame, hr0⟩
            · exact ih _ _ _ hloop1 r hr
    intro r hr a b c fence res hsub
    obtain ⟨s1, env, h1⟩ := key inputs start.app final runs hloop r hr
    exact (render_submit_after_wait h1 a b c fence res hsub).1

/-- Witness for `in_flight_never_exceeds_ring`: the three demo frames. -/
theorem in_flight_never_exceeds_ring_witness :
    (∀ p : List Call, p <+: (demoLoop.2.map (fun r => r.calls)).flatten →
        (inFlight p).length ≤ MAX_INFLIGHT_FRAMES) ∧
      (∀ r ∈ demoLoop.2, ∀ (a b c fence : Handle) (res : VkResult),
        Call.vkQueueSubmit a b c fence res ∈ r.calls →
        r.calls.head? = some (Call.vkWaitForFences fence)) :=
  in_flight_never_exceeds_ring DemoMode.MODEL demoInit demoStart demoInputs demoLoop.1
    demoLoop.2 (by decide) (by decide) (by decide)

/-- C10 (the code at the failing input): after one rendered frame on image 0 the in-flight
image map of the demo state is `[30, 0, 0]`. A rebuild on the unchanged surface (three
images again) leaves the stale fence 30 recorded for image 0, and so does a second rebuild
in a row; a rebuild on a surface that yields four images leaves the map at length three. -/
theorem rebuild_keeps_stale_image_map :
    demoRenderedApp._vk_inuse_fences = [30, 0, 0] ∧
    (recreateSwapChainRelatedData demoRenderedApp ⟨800, 600⟩ (demoRebuild 200 3)).map
      (fun r => (r.app._vk_swapchain_imgs.length, r.app._vk_inuse_fences)) =
        some (3, [30, 0, 0]) ∧
    (recreateSwapChainRelatedData demoRebuiltOnce ⟨800, 600⟩ (demoRebuild 300 3)).map
      (fun r => (r.app._vk_swapchain_imgs.length, r.app._vk_inuse_fences)) =
        some (3, [30, 0, 0]) ∧
    (recreateSwapChainRelatedData demoRenderedApp ⟨800, 600⟩ (demoLargerRebuild 200)).map
      (fun r => (r.app._vk_swapchain_imgs.length, r.app._vk_inuse_fences)) =
        some (4, [30, 0, 0]) := by
  decide


/-- C11 (counterexample): the state left by a `render` call of the demo state whose
present-time rebuild fails to create the second swapchain image view is reachable after
`initialize`, and it holds three swapchain images, one image view and one framebuffer. -/
theorem failed_view_creation_breaks_equal_lengths :
    Reachable demoFailedViewRun.app ∧
    demoFailedViewRun.app._vk_swapchain_imgs.length = 3 ∧
    demoFailedViewRun.app._vk_swapchain_imgs_view.length = 1 ∧
    demoFailedViewRun.app._vk_frame_buffers.length = 1 :=
  ⟨demoFailedViewRun_reachable _ ⟨trivial, trivial⟩, by decide, by decide, by decide⟩

/-- C11 (amended): in every state reachable after a successful `initialize` through any
sequence of `render` calls, resize notifications, rebuilds and `terminate`, whichever
creation steps fail, the image-view sequence and the framebuffer sequence have equal
length, and that length is at most the length of the swapchain image sequence; the three
lengths are equal when the driver created every swapchain image view in every rebuild run
on the way (`ok` is any condition met by the driver answers of those rebuilds). -/
theorem reachable_sequence_lengths (ok : RebuildEnv → Prop) (s : VulkanApp)
    (h : ReachableWith ok s) :
    s._vk_swapchain_imgs_view.length = s._vk_frame_buffers.length ∧
    s._vk_swapchain_imgs_view.length ≤ s._vk_swapchain_imgs.length ∧
    ((∀ env, ok env → ViewsCreated env) →
      s._vk_swapchain_imgs.length = s._vk_swapchain_imgs_view.length) := by
  induction h with
  | init mode env r hinit hret =>
    obtain ⟨e1, e2⟩ := initializeApp_chainState hinit hret rfl rfl
    exact ⟨e2, by rw [e1], fun _ => e1⟩
  | render s env r _ hacq hpres hr ih =>
    rcases render_chainState hr with hc | ⟨s2, e, renv, rb, hrenv, hrb, hc⟩
    · obtain ⟨ei, ev, ef⟩ := chainState_eq hc
      rw [ei, ev, ef]
      exact ih
    · obtain ⟨ei, ev, ef⟩ := chainState_eq hc
      obtain ⟨b1, b2, b3⟩ := recreateSwapChainRelatedData_chainState hrb
      rw [ei, ev, ef]
      refine ⟨b1, b2, fun hall => b3 (hall renv ?_)⟩
      rcases hrenv with rfl | rfl
      · exact hacq
      · exact hpres
  | notify s e _ ih => exact ih
  | rebuild s e env r _ hok hr _ =>
    obtain ⟨b1, b2, b3⟩ := recreateSwapChainRelatedData_chainState hr
    exact ⟨b1, b2, fun hall => b3 (hall env hok)⟩
  | terminate s _ _ =>
    have hc := terminate_chainState s
    unfold chainState at hc
    simp only [Prod.mk.injEq] at hc
    obtain ⟨ei, ev, ef⟩ := hc
    rw [ei, ev, ef]
    exact ⟨rfl, le_refl _, fun _ => rfl⟩

/-- Witness for `reachable_sequence_lengths`: the state of the counterexample, reached
through a rebuild whose second image-view creation fails, has one image view, one
framebuffer and three images. -/
theorem reachable_sequence_lengths_witness :
    ReachableWith (fun _ => True) demoFailedViewRun.app ∧
    demoFailedViewRun.app._vk_swapchain_imgs_view.length =
      demoFailedViewRun.app._vk_frame_buffers.length ∧
    demoFailedViewRun.app._vk_swapchain_imgs_view.length ≤
      demoFailedViewRun.app._vk_swapchain_imgs.length :=
  ⟨demoFailedViewRun_reachable _ ⟨trivial, trivial⟩,
    (reachable_sequence_lengths (fun _ => True) demoFailedViewRun.app
      (demoFailedViewRun_reachable _ ⟨trivial, trivial⟩)).1,
    (reachable_sequence_lengths (fun _ => True) demoFailedViewRun.app
      (demoFailedViewRun_reachable _ ⟨trivial, trivial⟩)).2.1⟩
/-- C12: for every surface capability set with minimum image count `min` and maximum image
count `max`, `min` being a count a surface reports (at least 1, and below `UINT32_MAX`, so
that `min + 1` is a 32-bit value), the image count `createSwapChain` selects is `min + 1`
clamped into `[min + 1, max]`: it equals `min + 1` when `min + 1 <= max` and `max`
otherwise, it is never below `min + 1` unless `max < min + 1`, and it is the image count
carried by every `vkCreateSwapchainKHR` call that `createSwapChain` issues. -/
theorem image_count_clamped_to_surface_range (s : VulkanApp) (frame_buffer_ext : VkExtent2D)
    (env : SwapChainEnv) (hmin : 1 ≤ env.props.caps.minImageCount)
    (hmax : env.props.caps.minImageCount < UINT32_MAX) :
    selectImageCount env.props.caps = clampedImageCount env.props.caps ∧
    (env.props.caps.minImageCount + 1 ≤ env.props.caps.maxImageCount →
      selectImageCount env.props.caps = env.props.caps.minImageCount + 1) ∧
    (¬ env.props.caps.minImageCount + 1 ≤ env.props.caps.maxImageCount →
      selectImageCount env.props.caps = env.props.caps.maxImageCount) ∧
    (selectImageCount env.props.caps < env.props.caps.minImageCount + 1 →
      env.props.caps.maxImageCount < env.props.caps.minImageCount + 1) ∧
    (∀ r : Run Bool, createSwapChain s frame_buffer_ext env = some r →
      ∀ (ext : VkExtent2D) (cnt : Nat) (fmt : VkSurfaceFormatKHR) (mode : Nat) (res : VkResult),
        Call.vkCreateSwapchainKHR ext cnt fmt mode res ∈ r.calls →
        cnt = clampedImageCount env.props.caps) := by
  simp only [UINT32_MAX] at hmax
  have hmod : (env.props.caps.minImageCount + 1) % 2 ^ 32 = env.props.caps.minImageCount + 1 :=
    Nat.mod_eq_of_lt (by omega)
  have hsel : selectImageCount env.props.caps = clampedImageCount env.props.caps := by
    simp only [selectImageCount, clampedImageCount, hmod]
    split_ifs <;> omega
  refine ⟨hsel, ?_, ?_, ?_, ?_⟩
  · intro h
    rw [hsel, clampedImageCount, if_pos h]
  · intro h
    rw [hsel, clampedImageCount, if_neg h]
  · intro h
    rw [hsel, clampedImageCount] at h
    split_ifs at h <;> omega
  · intro r hr ext cnt fmt mode res hc
    rw [← hsel]
    obtain ⟨f, -, hcase⟩ := createSwapChain_inv hr
    rcases hcase with ⟨-, rfl⟩ | ⟨-, -, rfl⟩ | ⟨-, -, nv, vc, -, hcalls, -, -, hvc, -⟩
    · cases hc
    · simp only [List.mem_singleton, Call.vkCreateSwapchainKHR.injEq] at hc
      exact hc.2.1
    · rw [hcalls] at hc
      rcases List.mem_append.mp hc with hc | hc
      · simp only [List.mem_cons, List.mem_singleton, List.not_mem_nil, or_false,
          Call.vkCreateSwapchainKHR.injEq, reduceCtorEq] at hc
        exact hc.2.1
      · obtain ⟨img, vres, hv⟩ := hvc _ hc
        cases hv

/-- Witness for `image_count_clamped_to_surface_range`: on a surface with a minimum and a
maximum of two images the minimum plus one exceeds the maximum, and the swapchain is
requested with the maximum, two images. -/
theorem image_count_clamped_to_surface_range_witness :
    1 ≤ demoTwoImageSwapChain.props.caps.minImageCount ∧
    demoTwoImageSwapChain.props.caps.minImageCount < UINT32_MAX ∧
    selectImageCount demoTwoImageSwapChain.props.caps = 2 ∧
    (∀ r : Run Bool, createSwapChain demoApp ⟨800, 600⟩ demoTwoImageSwapChain = some r →
      ∀ (ext : VkExtent2D) (cnt : Nat) (fmt : VkSurfaceFormatKHR) (mode : Nat) (res : VkResult),
        Call.vkCreateSwapchainKHR ext cnt fmt mode res ∈ r.calls → cnt = 2) ∧
    (∃ r : Run Bool, createSwapChain demoApp ⟨800, 600⟩ demoTwoImageSwapChain = some r ∧
      Call.vkCreateSwapchainKHR ⟨800, 600⟩ 2 ⟨50, 0⟩ VK_PRESENT_MODE_FIFO_KHR
        VkResult.VK_SUCCESS ∈ r.calls) :=
  ⟨by decide, by decide,
    (image_count_clamped_to_surface_range demoApp ⟨800, 600⟩ demoTwoImageSwapChain (by decide)
      (by decide)).2.2.1 (by decide),
    (image_count_clamped_to_surface_range demoApp ⟨800, 600⟩ demoTwoImageSwapChain (by decide)
      (by decide)).2.2.2.2,
    ⟨_, rfl, by decide⟩⟩

/-- C13: whenever the image count selected for the surface is less than 2
(`MAX_INFLIGHT_FRAMES`), `createSwapChain` returns failure, issues no driver call (so no
swapchain object is created) and leaves the application state, hence the stored swapchain
handle, extent, format, images and image views, unmodified. The format list is taken
non-empty, as the format selection reads its first entry. -/
theorem create_swapchain_rejects_small_image_count (s : VulkanApp)
    (frame_buffer_ext : VkExtent2D) (env : SwapChainEnv) (hf : env.props.formats ≠ [])
    (hc : selectImageCount env.props.caps < 2) :
    ∃ r, createSwapChain s frame_buffer_ext env = some r ∧ r.ret = false ∧ r.calls = [] ∧
      r.app = s ∧
      r.app._vk_swapchain = s._vk_swapchain ∧
      r.app._vk_swapchain_ext = s._vk_swapchain_ext ∧
      r.app._vk_swapchain_fmt = s._vk_swapchain_fmt ∧
      r.app._vk_swapchain_imgs = s._vk_swapchain_imgs ∧
      r.app._vk_swapchain_imgs_view = s._vk_swapchain_imgs_view := by
  obtain ⟨fmt, hfmt⟩ := selectSurfaceFormat_isSome hf
  refine ⟨⟨s, [], false⟩, ?_, rfl, rfl, rfl, rfl, rfl, rfl, rfl, rfl⟩
  have hc2 : selectImageCount env.props.caps < MAX_INFLIGHT_FRAMES := hc
  simp only [createSwapChain, hfmt, if_pos hc2]

/-- Witness for `create_swapchain_rejects_small_image_count` on a surface that supports
exactly one image. -/
theorem create_swapchain_rejects_small_image_count_witness :
    ∃ r, createSwapChain demoApp ⟨800, 600⟩ demoSingleImageSwapChain = some r ∧
      r.ret = false ∧ r.calls = [] ∧ r.app = demoApp ∧
      r.app._vk_swapchain = demoApp._vk_swapchain ∧
      r.app._vk_swapchain_ext = demoApp._vk_swapchain_ext ∧
      r.app._vk_swapchain_fmt = demoApp._vk_swapchain_fmt ∧
      r.app._vk_swapchain_imgs = demoApp._vk_swapchain_imgs ∧
      r.app._vk_swapchain_imgs_view = demoApp._vk_swapchain_imgs_view :=
  create_swapchain_rejects_small_image_count demoApp ⟨800, 600⟩ demoSingleImageSwapChain
    (by decide) (by decide)

/-- C14: for every non-empty list of advertised surface formats the selection returns an
entry: the first one whose format is `VK_FORMAT_B8G8R8_SRGB` with the sRGB non-linear
colour space (no earlier entry being such) if the list holds one, and the first advertised
entry otherwise. -/
theorem surface_format_first_preferred_else_first (formats : List VkSurfaceFormatKHR)
    (hf : formats ≠ []) :
    ∃ chosen, selectSurfaceFormat formats = some chosen ∧
      ((∃ before rest, formats = before ++ chosen :: rest ∧
          chosen.format = VK_FORMAT_B8G8R8_SRGB ∧
          chosen.colorSpace = VK_COLOR_SPACE_SRGB_NONLINEAR_KHR ∧
          ∀ g ∈ before, ¬ (g.format = VK_FORMAT_B8G8R8_SRGB ∧
            g.colorSpace = VK_COLOR_SPACE_SRGB_NONLINEAR_KHR)) ∨
        ((∀ g ∈ formats, ¬ (g.format = VK_FORMAT_B8G8R8_SRGB ∧
            g.colorSpace = VK_COLOR_SPACE_SRGB_NONLINEAR_KHR)) ∧
          formats.head? = some chosen)) := by
  unfold selectSurfaceFormat
  cases hfind : formats.find? (fun fmt => fmt.format == VK_FORMAT_B8G8R8_SRGB &&
      fmt.colorSpace == VK_COLOR_SPACE_SRGB_NONLINEAR_KHR) with
  | none =>
    have hnone := List.find?_eq_none.mp hfind
    cases formats with
    | nil => exact absurd rfl hf
    | cons a l =>
      refine ⟨a, by simp [VK_FORMAT_UNDEFINED], Or.inr ⟨?_, rfl⟩⟩
      intro g hg hp
      exact hnone g hg (by simp [hp.1, hp.2])
  | some f =>
    have hp := find_preferred_format hfind
    obtain ⟨_, before, rest, hsplit, hbefore⟩ := List.find?_eq_some.mp hfind
    refine ⟨f, by simp [hp.1, VK_FORMAT_B8G8R8_SRGB, VK_FORMAT_UNDEFINED],
      Or.inl ⟨before, rest, hsplit, hp.1, hp.2, ?_⟩⟩
    intro g hg hq
    have := hbefore g hg
    simp [hq.1, hq.2] at this

/-- Witness for `surface_format_first_preferred_else_first` on a list whose third entry is
the first preferred one: that entry is selected. -/
theorem surface_format_first_preferred_else_first_witness :
    demoFormats ≠ [] ∧
    ∃ chosen, selectSurfaceFormat demoFormats = some chosen ∧
      ((∃ before rest, demoFormats = before ++ chosen :: rest ∧
          chosen.format = VK_FORMAT_B8G8R8_SRGB ∧
          chosen.colorSpace = VK_COLOR_SPACE_SRGB_NONLINEAR_KHR ∧
          ∀ g ∈ before, ¬ (g.format = VK_FORMAT_B8G8R8_SRGB ∧
            g.colorSpace = VK_COLOR_SPACE_SRGB_NONLINEAR_KHR)) ∨
        ((∀ g ∈ demoFormats, ¬ (g.format = VK_FORMAT_B8G8R8_SRGB ∧
            g.colorSpace = VK_COLOR_SPACE_SRGB_NONLINEAR_KHR)) ∧
          demoFormats.head? = some chosen)) :=
  ⟨by decide, surface_format_first_preferred_else_first demoFormats (by decide)⟩

/-- C15: for every capability set and requested extent, the extent `createSwapChain`
derives is the surface current extent when the width of that extent is not `UINT32_MAX`;
otherwise each of its dimensions is max(minImageExtent, min(requested, maxImageExtent)),
which lies between the minimum and the maximum image extent whenever the minimum does not
exceed the maximum. Every swapchain creation call of the run carries this extent, and a
successful creation stores it. -/
theorem swapchain_extent_derivation (s : VulkanApp) (requested : VkExtent2D)
    (env : SwapChainEnv) (r : Run Bool) (h : createSwapChain s requested env = some r) :
    (env.props.caps.currentExtent.width ≠ UINT32_MAX →
      selectExtent env.props.caps requested = env.props.caps.currentExtent) ∧
    (env.props.caps.currentExtent.width = UINT32_MAX →
      (selectExtent env.props.caps requested).width =
        max env.props.caps.minImageExtent.width
          (min requested.width env.props.caps.maxImageExtent.width) ∧
      (selectExtent env.props.caps requested).height =
        max env.props.caps.minImageExtent.height
          (min requested.height env.props.caps.maxImageExtent.height) ∧
      (env.props.caps.minImageExtent.width ≤ env.props.caps.maxImageExtent.width →
        env.props.caps.minImageExtent.width ≤ (selectExtent env.props.caps requested).width ∧
        (selectExtent env.props.caps requested).width ≤
          env.props.caps.maxImageExtent.width) ∧
      (env.props.caps.minImageExtent.height ≤ env.props.caps.maxImageExtent.height →
        env.props.caps.minImageExtent.height ≤
          (selectExtent env.props.caps requested).height ∧
        (selectExtent env.props.caps requested).height ≤
          env.props.caps.maxImageExtent.height)) ∧
    (∀ ext cnt fmt mode res, Call.vkCreateSwapchainKHR ext cnt fmt mode res ∈ r.calls →
      ext = selectExtent env.props.caps requested ∧
      (res = VkResult.VK_SUCCESS →
        r.app._vk_swapchain_ext = selectExtent env.props.caps requested)) := by
  refine ⟨fun hw => by simp [selectExtent, hw], fun hw => ?_, ?_⟩
  · have hsel : selectExtent env.props.caps requested =
        ⟨max env.props.caps.minImageExtent.width
            (min requested.width env.props.caps.maxImageExtent.width),
          max env.props.caps.minImageExtent.height
            (min requested.height env.props.caps.maxImageExtent.height)⟩ := by
      simp [selectExtent, hw]
    rw [hsel]
    refine ⟨rfl, rfl, fun hle => ?_, fun hle => ?_⟩ <;> dsimp only <;> omega
  · intro ext cnt fmt mode res hc
    obtain ⟨f, _, hcase⟩ := createSwapChain_inv h
    rcases hcase with ⟨_, hr⟩ | ⟨_, hres, hr⟩ | ⟨_, hres, nv, vc, happ, hcalls, _, _, hvc, _⟩
    · subst hr
      simp at hc
    · subst hr
      simp only [List.mem_singleton, Call.vkCreateSwapchainKHR.injEq] at hc
      obtain ⟨he, _, _, _, hr⟩ := hc
      exact ⟨he, fun hs => absurd (hr ▸ hs) hres⟩
    · rw [hcalls] at hc
      rcases List.mem_append.mp hc with hc | hc
      · simp only [List.mem_cons, Call.vkCreateSwapchainKHR.injEq, List.mem_singleton,
          reduceCtorEq, or_false, List.not_mem_nil] at hc
        refine ⟨hc.1, fun _ => ?_⟩
        rw [happ]
      · obtain ⟨img, res2, hv⟩ := hvc _ hc
        cases hv

/-- Witness for `swapchain_extent_derivation`: on a surface that leaves the extent to the
application within 1 x 1 and 4096 x 4096, a request of 5000 x 0 creates the swapchain at
4096 x 1 and stores that extent. -/
theorem swapchain_extent_derivation_witness :
    createSwapChain demoApp ⟨5000, 0⟩ (demoFreeExtentRebuild 200 3).swapchain =
      some demoFreeExtentRun ∧
    selectExtent (demoFreeExtentRebuild 200 3).swapchain.props.caps ⟨5000, 0⟩ = ⟨4096, 1⟩ ∧
    Call.vkCreateSwapchainKHR ⟨4096, 1⟩ 3 ⟨50, 0⟩ VK_PRESENT_MODE_FIFO_KHR VkResult.VK_SUCCESS
      ∈ demoFreeExtentRun.calls ∧
    demoFreeExtentRun.app._vk_swapchain_ext =
      selectExtent (demoFreeExtentRebuild 200 3).swapchain.props.caps ⟨5000, 0⟩ :=
  ⟨by decide, by decide, by decide,
    ((swapchain_extent_derivation demoApp ⟨5000, 0⟩ (demoFreeExtentRebuild 200 3).swapchain
      demoFreeExtentRun (by decide)).2.2 ⟨4096, 1⟩ 3 ⟨50, 0⟩ VK_PRESENT_MODE_FIFO_KHR
      VkResult.VK_SUCCESS (by decide)).2 rfl⟩

/-- C16: in every `render` call whose queue submit fails, the submit carries the in-flight
fence of the current slot, the reset of that fence is the call issued immediately before
the submit, the submit is the last call of the frame, no present call is made, the ring
index is not advanced and `render` returns failure. -/
theorem failed_submit_resets_fence_and_fails (s : VulkanApp) (env : FrameEnv) (r : Run Bool)
    (h : render s env = some r) (a b c fence : Handle) (res : VkResult)
    (hsub : Call.vkQueueSubmit a b c fence res ∈ r.calls)
    (hfail : res ≠ VkResult.VK_SUCCESS) :
    s._vk_inflight_fences[s._current_frame]? = some fence ∧
    (∃ before, r.calls = before ++ [Call.vkResetFences fence,
      Call.vkQueueSubmit a b c fence res]) ∧
    (∀ x ∈ r.calls, x.kind ≠ CallKind.present) ∧
    r.app._current_frame = s._current_frame ∧
    r.ret = false := by
  obtain ⟨-, hslot, hres⟩ := render_submit_after_wait h a b c fence res hsub
  subst hres
  have hcur := render_current_frame h
  obtain ⟨-, rfl⟩ | ⟨fe, available, hf, -, h1 | h1⟩ := render_shape h
  · simp at hsub
  · obtain ⟨-, -, -, rfl⟩ := h1
    simp at hsub
  · obtain ⟨base, mgmt, r0, hmg, hbs, -, h0, rfl⟩ := h1
    obtain ⟨inuse, fe2, mvp, cb, pre, av, fin, -, hfe2, -, hpre, h2 | h2 | h2⟩ :=
      renderFrame_shape h0
    · subst h2
      exfalso
      simp only [List.mem_append, List.mem_cons, List.mem_singleton, List.not_mem_nil,
        or_false] at hsub
      rcases hsub with (hx | hx) | (hx | hx) | hx
      · rcases hx with hx | hx <;> cases hx
      · exact not_mem_of_allKind hmg (by simp [Call.kind]) hx
      · split_ifs at hx <;> simp at hx
      · rcases hx with hx | hx | hx <;> cases hx
      · exact not_mem_of_allKind hpre (by simp [Call.kind]) hx
    · obtain ⟨-, rfl⟩ := h2
      have hsame : fe2 = fence := by
        rw [slotState_inflight_fences hbs, slotState_current_frame hbs, hslot] at hfe2
        exact (Option.some.inj hfe2).symm
      subst hsame
      have hkinds : ∀ x ∈ [Call.vkWaitForFences fe,
          Call.vkAcquireNextImageKHR s._vk_swapchain available env.acquire_res] ++ mgmt ++
          ((if inuse ≠ VK_NULL_HANDLE then [Call.vkWaitForFences inuse] else []) ++
            [Call.vkMapMemory mvp.memory, Call.memcpy mvp.memory,
              Call.vkUnmapMemory mvp.memory] ++ pre),
          x.kind ≠ CallKind.present ∧ x.kind ≠ CallKind.submit := by
        intro x hx
        simp only [List.mem_append, List.mem_cons, List.mem_singleton, List.not_mem_nil,
          or_false] at hx
        rcases hx with (hx | hx) | (hx | hx) | hx
        · rcases hx with hx | hx <;> subst hx <;> simp [Call.kind]
        · rw [hmg x hx]; simp
        · split_ifs at hx
          · simp only [List.mem_singleton] at hx
            subst hx; simp [Call.kind]
          · simp at hx
        · rcases hx with hx | hx | hx <;> subst hx <;> simp [Call.kind]
        · rw [hpre x hx]; simp
      dsimp only at hsub hcur ⊢
      have hsplit : [Call.vkWaitForFences fe,
          Call.vkAcquireNextImageKHR s._vk_swapchain available env.acquire_res] ++ mgmt ++
          ((if inuse ≠ VK_NULL_HANDLE then [Call.vkWaitForFences inuse] else []) ++
            [Call.vkMapMemory mvp.memory, Call.memcpy mvp.memory,
              Call.vkUnmapMemory mvp.memory] ++ pre ++
            [Call.vkResetFences fe2,
              Call.vkQueueSubmit av env.alloc_cmd fin fe2 env.submit_res]) =
          ([Call.vkWaitForFences fe,
            Call.vkAcquireNextImageKHR s._vk_swapchain available env.acquire_res] ++ mgmt ++
          ((if inuse ≠ VK_NULL_HANDLE then [Call.vkWaitForFences inuse] else []) ++
            [Call.vkMapMemory mvp.memory, Call.memcpy mvp.memory,
              Call.vkUnmapMemory mvp.memory] ++ pre)) ++
            [Call.vkResetFences fe2,
              Call.vkQueueSubmit av env.alloc_cmd fin fe2 env.submit_res] := by
        simp only [List.append_assoc]
      rw [hsplit] at hsub ⊢
      rcases List.mem_append.mp hsub with hx | hx
      · exact absurd rfl (hkinds _ hx).2
      · simp only [List.mem_cons, List.mem_singleton, List.not_mem_nil, or_false,
          reduceCtorEq, false_or, Call.vkQueueSubmit.injEq] at hx
        obtain ⟨rfl, rfl, rfl, -, -⟩ := hx
        refine ⟨hslot, ⟨_, rfl⟩, ?_, by simpa using hcur, rfl⟩
        intro x hx
        rcases List.mem_append.mp hx with hx | hx
        · exact (hkinds x hx).1
        · simp only [List.mem_cons, List.mem_singleton, List.not_mem_nil, or_false] at hx
          rcases hx with hx | hx <;> subst hx <;> simp [Call.kind]
    · exact absurd h2.1 hfail

/-- Witness for `failed_submit_resets_fence_and_fails`: the first frame of the demo state
with a submit that reports a lost device. -/
theorem failed_submit_resets_fence_and_fails_witness :
    render demoApp demoFailedSubmitFrame = some demoFailedSubmitRun ∧
    Call.vkQueueSubmit 10 500 20 30 VkResult.VK_ERROR_DEVICE_LOST ∈
      demoFailedSubmitRun.calls ∧
    demoApp._vk_inflight_fences[demoApp._current_frame]? = some 30 ∧
    (∃ before, demoFailedSubmitRun.calls = before ++ [Call.vkResetFences 30,
      Call.vkQueueSubmit 10 500 20 30 VkResult.VK_ERROR_DEVICE_LOST]) ∧
    (∀ x ∈ demoFailedSubmitRun.calls, x.kind ≠ CallKind.present) ∧
    demoFailedSubmitRun.app._current_frame = demoApp._current_frame ∧
    demoFailedSubmitRun.ret = false :=
  ⟨by decide, by decide,
    failed_submit_resets_fence_and_fails demoApp demoFailedSubmitFrame demoFailedSubmitRun
      (by decide) 10 500 20 30 VkResult.VK_ERROR_DEVICE_LOST (by decide) (by decide)⟩

/-- C17 (the code at the failing input): on the demo platform a `render` call whose acquire
reports out-of-date, whose submit succeeds and whose present reports a lost device reaches
PRESENT with the tracked target extent equal to the swapchain extent (both set by the
rebuild run after the acquire), returns failure and keeps the ring index, but it has run
the rebuild branch: one device-idle wait and one swapchain creation are among its calls,
before the present call, which is the last call. -/
theorem fatal_present_after_stale_acquire_has_rebuilt :
    render demoApp demoStaleAcquireLostPresentFrame = some demoStaleAcquireLostPresentRun ∧
    demoStaleAcquireLostPresentRun.app._target_frame_buffer_ext =
      demoStaleAcquireLostPresentRun.app._vk_swapchain_ext ∧
    demoStaleAcquireLostPresentRun.calls.getLast? =
      some (Call.vkQueuePresentKHR 200 0 20 VkResult.VK_ERROR_DEVICE_LOST) ∧
    demoStaleAcquireLostPresentRun.ret = false ∧
    demoStaleAcquireLostPresentRun.app._current_frame = demoApp._current_frame ∧
    demoStaleAcquireLostPresentRun.calls.count Call.vkDeviceWaitIdle = 1 ∧
    Call.vkCreateSwapchainKHR ⟨800, 600⟩ 3 ⟨50, 0⟩ VK_PRESENT_MODE_FIFO_KHR VkResult.VK_SUCCESS
      ∈ demoStaleAcquireLostPresentRun.calls := by
  decide

/-- C18 (counterexample): on the demo platform, in a rebuild whose `createSwapChain` fails
(the driver refuses `vkCreateSwapchainKHR`), the remaining creation steps are executed all
the same (the colour and depth attachment images and their views are created after the
failed call), and the `render` call whose present-time rebuild fails in this way returns
success. -/
theorem rebuild_goes_on_after_failed_creation :
    (createSwapChain (cleanupSwapChainRelatedData demoApp).app ⟨800, 600⟩
      demoFailedCreateRebuild.swapchain).map (fun r => r.ret) = some false ∧
    (recreateSwapChainRelatedData demoApp ⟨800, 600⟩ demoFailedCreateRebuild).map
      (fun r => r.calls.drop 14) = some
        [Call.vkCreateSwapchainKHR ⟨800, 600⟩ 3 ⟨50, 0⟩ VK_PRESENT_MODE_FIFO_KHR
          VkResult.VK_ERROR_OUT_OF_DEVICE_MEMORY,
        Call.vkCreateImage ⟨800, 600⟩ 50 VkResult.VK_SUCCESS,
        Call.vkAllocateMemory VkResult.VK_SUCCESS, Call.vkBindImageMemory 240 241,
        Call.vkCreateImageView 240 VkResult.VK_SUCCESS,
        Call.vkCreateImage ⟨800, 600⟩ 126 VkResult.VK_SUCCESS,
        Call.vkAllocateMemory VkResult.VK_SUCCESS, Call.vkBindImageMemory 250 251,
        Call.vkCreateImageView 250 VkResult.VK_SUCCESS] ∧
    render demoApp demoFailedRebuildFrame = some demoFailedRebuildRun ∧
    Call.vkCreateSwapchainKHR ⟨800, 600⟩ 3 ⟨50, 0⟩ VK_PRESENT_MODE_FIFO_KHR
      VkResult.VK_ERROR_OUT_OF_DEVICE_MEMORY ∈ demoFailedRebuildRun.calls ∧
    demoFailedRebuildRun.ret = true := by
  decide

/-- C18 (amended): the rebuild branch does not check the results of `createSwapChain`,
`createColorImage`, `createDepthImage` and `createFrameBuffers`. In every `render` call
whose acquire did not report out-of-date and whose present reports an out-of-date or
suboptimal surface, the calls after the present are the device-idle wait, the cleanup, and
the calls of all four creation helpers in this order, each helper run from the state the
previous one left whatever the previous one returned; the colour attachment image creation
is always attempted; and the call returns success. -/
theorem rebuild_discards_creation_results (s : VulkanApp) (env : FrameEnv) (r : Run Bool)
    (h : render s env = some r)
    (hacq : env.acquire_res ≠ VkResult.VK_ERROR_OUT_OF_DATE_KHR)
    (sc : Handle) (idx : Nat) (sem : Handle) (res : VkResult)
    (hp : Call.vkQueuePresentKHR sc idx sem res ∈ r.calls)
    (hstale : env.present_res = VkResult.VK_ERROR_OUT_OF_DATE_KHR ∨
      env.present_res = VkResult.VK_SUBOPTIMAL_KHR) :
    ∃ (before : List Call) (finished : Handle) (base : VulkanApp) (r1 r4 : Run Bool),
      createSwapChain (cleanupSwapChainRelatedData base).app s._target_frame_buffer_ext
        env.present_rebuild.swapchain = some r1 ∧
      createFrameBuffers
        (createDepthImage (createColorImage r1.app env.present_rebuild.color).app
          env.present_rebuild.depth_fmt env.present_rebuild.depth).app
        env.present_rebuild.fb_res env.present_rebuild.fb = some r4 ∧
      r.calls = before ++
        Call.vkQueuePresentKHR s._vk_swapchain (env.acquire_img.getD 0) finished
          env.present_res ::
        ([Call.vkDeviceWaitIdle] ++ (cleanupSwapChainRelatedData base).calls ++ r1.calls ++
          (createColorImage r1.app env.present_rebuild.color).calls ++
          (createDepthImage (createColorImage r1.app env.present_rebuild.color).app
            env.present_rebuild.depth_fmt env.present_rebuild.depth).calls ++ r4.calls) ∧
      (∃ ext fmt ires, Call.vkCreateImage ext fmt ires ∈
        (createColorImage r1.app env.present_rebuild.color).calls) ∧
      r.ret = true := by
  obtain ⟨m, cb, pre, rb, finished, -, hrb, hcalls, hret⟩ :=
    stale_present_rebuilds_once h hacq hp hstale
  obtain ⟨r1, r4, h1, h4, -, hrbc⟩ := recreateSwapChainRelatedData_inv hrb
  refine ⟨pre, finished, _, r1, r4, h1, h4, by rw [hcalls, hrbc], ?_, hret⟩
  refine ⟨r1.app._vk_swapchain_ext, r1.app._vk_swapchain_fmt,
    env.present_rebuild.color.image_res, ?_⟩
  unfold createColorImage createVkImage
  dsimp only
  split_ifs <;> simp

/-- Witness for `rebuild_discards_creation_results`: the frame of the counterexample, whose
present reports a suboptimal surface and whose rebuild fails to create the swapchain,
returns success. -/
theorem rebuild_discards_creation_results_witness :
    render demoApp demoFailedRebuildFrame = some demoFailedRebuildRun ∧
    demoFailedRebuildFrame.acquire_res ≠ VkResult.VK_ERROR_OUT_OF_DATE_KHR ∧
    Call.vkQueuePresentKHR 100 0 20 VkResult.VK_SUBOPTIMAL_KHR ∈ demoFailedRebuildRun.calls ∧
    demoFailedRebuildRun.ret = true :=
  ⟨by decide, by decide, by decide,
    let ⟨_, _, _, _, _, _, _, _, _, hret⟩ :=
      rebuild_discards_creation_results demoApp demoFailedRebuildFrame demoFailedRebuildRun
        (by decide) (by decide) 100 0 20 VkResult.VK_SUBOPTIMAL_KHR (by decide) (Or.inr rfl)
    hret⟩

/-- C19 (counterexample): in the cleanup of the demo state the swapchain object (handle
100) is destroyed before the colour and depth attachment views (142, 152) and images (140,
150), not last, and the colour attachment image is destroyed before the depth attachment
view. -/
theorem cleanup_destroys_swapchain_before_attachments :
    (cleanupSwapChainRelatedData demoApp).calls =
      [Call.vkDestroyFramebuffer 160, Call.vkDestroyFramebuffer 161,
        Call.vkDestroyFramebuffer 162, Call.vkDestroyImageView 120,
        Call.vkDestroyImageView 121, Call.vkDestroyImageView 122,
        Call.vkDestroySwapchainKHR 100, Call.vkDestroyImageView 142, Call.vkFreeMemory 141,
        Call.vkDestroyImage 140, Call.vkDestroyImageView 152, Call.vkFreeMemory 151,
        Call.vkDestroyImage 150] ∧
    (cleanupSwapChainRelatedData demoApp).calls.getLast? ≠
      some (Call.vkDestroySwapchainKHR 100) ∧
    (cleanupSwapChainRelatedData demoApp).calls.indexOf (Call.vkDestroySwapchainKHR 100) <
      (cleanupSwapChainRelatedData demoApp).calls.indexOf (Call.vkDestroyImageView 142) ∧
    (cleanupSwapChainRelatedData demoApp).calls.indexOf (Call.vkDestroyImage 140) <
      (cleanupSwapChainRelatedData demoApp).calls.indexOf (Call.vkDestroyImageView 152) := by
  decide

/-- C19 (amended): in every execution of `cleanupSwapChainRelatedData` the release calls
occur in this order: all framebuffers, then all swapchain image views, then the swapchain
object, then the colour attachment (its view, its memory, its image, each if non-null),
then the depth attachment (its view, its memory, its image, each if non-null); and the
only handles passed to an image-destroy call are those of the colour and depth attachment
images, never an element of the swapchain image sequence as such. -/
theorem cleanup_release_order (s : VulkanApp) :
    (cleanupSwapChainRelatedData s).calls =
      s._vk_frame_buffers.map Call.vkDestroyFramebuffer ++
      s._vk_swapchain_imgs_view.map Call.vkDestroyImageView ++
      [Call.vkDestroySwapchainKHR s._vk_swapchain] ++
      ((if s._vk_color_image_view ≠ VK_NULL_HANDLE then
          [Call.vkDestroyImageView s._vk_color_image_view] else []) ++
        (if VK_NULL_HANDLE ≠ s._vk_color_image.memory then
          [Call.vkFreeMemory s._vk_color_image.memory] else []) ++
        (if VK_NULL_HANDLE ≠ s._vk_color_image.image then
          [Call.vkDestroyImage s._vk_color_image.image] else [])) ++
      ((if s._vk_depth_image_view ≠ VK_NULL_HANDLE then
          [Call.vkDestroyImageView s._vk_depth_image_view] else []) ++
        (if VK_NULL_HANDLE ≠ s._vk_depth_image.memory then
          [Call.vkFreeMemory s._vk_depth_image.memory] else []) ++
        (if VK_NULL_HANDLE ≠ s._vk_depth_image.image then
          [Call.vkDestroyImage s._vk_depth_image.image] else [])) ∧
    ∀ image, Call.vkDestroyImage image ∈ (cleanupSwapChainRelatedData s).calls →
      image = s._vk_color_image.image ∨ image = s._vk_depth_image.image := by
  have hcalls : (cleanupSwapChainRelatedData s).calls =
      s._vk_frame_buffers.map Call.vkDestroyFramebuffer ++
      s._vk_swapchain_imgs_view.map Call.vkDestroyImageView ++
      [Call.vkDestroySwapchainKHR s._vk_swapchain] ++
      ((if s._vk_color_image_view ≠ VK_NULL_HANDLE then
          [Call.vkDestroyImageView s._vk_color_image_view] else []) ++
        (if VK_NULL_HANDLE ≠ s._vk_color_image.memory then
          [Call.vkFreeMemory s._vk_color_image.memory] else []) ++
        (if VK_NULL_HANDLE ≠ s._vk_color_image.image then
          [Call.vkDestroyImage s._vk_color_image.image] else [])) ++
      ((if s._vk_depth_image_view ≠ VK_NULL_HANDLE then
          [Call.vkDestroyImageView s._vk_depth_image_view] else []) ++
        (if VK_NULL_HANDLE ≠ s._vk_depth_image.memory then
          [Call.vkFreeMemory s._vk_depth_image.memory] else []) ++
        (if VK_NULL_HANDLE ≠ s._vk_depth_image.image then
          [Call.vkDestroyImage s._vk_depth_image.image] else [])) := by
    unfold cleanupSwapChainRelatedData destroyDepthImage destroyColorImage destroyVkImage
    dsimp only
    split_ifs <;> simp
  refine ⟨hcalls, ?_⟩
  intro image hm
  rw [hcalls] at hm
  have hnil : ∀ (p : Prop) [Decidable p] (c : Call), c ≠ Call.vkDestroyImage image →
      Call.vkDestroyImage image ∉ (if p then [c] else []) := by
    intro p _ c hc hx
    split_ifs at hx
    · exact hc (List.mem_singleton.mp hx).symm
    · cases hx
  have hone : ∀ (p : Prop) [Decidable p] (x : Handle),
      Call.vkDestroyImage image ∈ (if p then [Call.vkDestroyImage x] else []) → image = x := by
    intro p _ x hx
    split_ifs at hx
    · simpa using hx
    · cases hx
  rcases List.mem_append.mp hm with hm | hm
  · rcases List.mem_append.mp hm with hm | hm
    · rcases List.mem_append.mp hm with hm | hm
      · rcases List.mem_append.mp hm with hm | hm
        · simp at hm
        · simp at hm
      · simp at hm
    · rcases List.mem_append.mp hm with hm | hm
      · rcases List.mem_append.mp hm with hm | hm
        · exact absurd hm (hnil _ _ (by simp))
        · exact absurd hm (hnil _ _ (by simp))
      · exact Or.inl (hone _ _ hm)
  · rcases List.mem_append.mp hm with hm | hm
    · rcases List.mem_append.mp hm with hm | hm
      · exact absurd hm (hnil _ _ (by simp))
      · exact absurd hm (hnil _ _ (by simp))
    · exact Or.inr (hone _ _ hm)

/-- C20: in every execution of the rebuild branch the device-idle wait is the first call
issued; the calls after it are the destroy calls of the cleanup followed by the create
calls of the new state, so that every destroy call precedes every create call; and the
create calls begin with those of `createSwapChain` invoked, on the cleaned-up state, with
exactly the extent the rebuild was given (the driver-level `vkCreateSwapchainKHR` call then
carries the extent derived from it and the surface capabilities). -/
theorem rebuild_waits_destroys_then_creates (s : VulkanApp) (frame_buffer_ext : VkExtent2D)
    (env : RebuildEnv) (r : Run Unit)
    (h : recreateSwapChainRelatedData s frame_buffer_ext env = some r) :
    ∃ (destroys creates rest : List Call) (r1 : Run Bool),
      r.calls = Call.vkDeviceWaitIdle :: (destroys ++ creates) ∧
      destroys = (cleanupSwapChainRelatedData s).calls ∧
      (∀ c ∈ destroys, isDestroyCall c = true ∧ isCreateCall c = false) ∧
      (∀ c ∈ creates, isCreateCall c = true ∧ isDestroyCall c = false) ∧
      createSwapChain (cleanupSwapChainRelatedData s).app frame_buffer_ext env.swapchain =
        some r1 ∧
      creates = r1.calls ++ rest ∧
      (∀ ext cnt fmt mode res, Call.vkCreateSwapchainKHR ext cnt fmt mode res ∈ r1.calls →
        ext = selectExtent env.swapchain.props.caps frame_buffer_ext) := by
  obtain ⟨r1, r4, h1, h4, -, hcalls⟩ := recreateSwapChainRelatedData_inv h
  refine ⟨(cleanupSwapChainRelatedData s).calls,
    r1.calls ++ ((createColorImage r1.app env.color).calls ++
      (createDepthImage (createColorImage r1.app env.color).app env.depth_fmt
        env.depth).calls ++ r4.calls),
    (createColorImage r1.app env.color).calls ++
      (createDepthImage (createColorImage r1.app env.color).app env.depth_fmt
        env.depth).calls ++ r4.calls,
    r1, ?_, rfl, ?_, ?_, h1, rfl, ?_⟩
  · rw [hcalls]
    simp only [List.singleton_append, List.cons_append, List.append_assoc, List.nil_append]
  · intro c hc
    have hd := cleanupSwapChainRelatedData_destroy s c hc
    exact ⟨hd, isDestroyCall_not_create c hd⟩
  · intro c hc
    have hcr : isCreateCall c = true := by
      rcases List.mem_append.mp hc with hc | hc
      · exact createSwapChain_create h1 c hc
      · rcases List.mem_append.mp hc with hc | hc
        · rcases List.mem_append.mp hc with hc | hc
          · exact createColorImage_create _ _ c hc
          · exact createDepthImage_create _ _ _ c hc
        · exact createFrameBuffers_create h4 c hc
    exact ⟨hcr, isCreateCall_not_destroy c hcr⟩
  · intro ext cnt fmt mode res hc
    obtain ⟨f, _, hcase⟩ := createSwapChain_inv h1
    rcases hcase with ⟨_, hr⟩ | ⟨_, _, hr⟩ | ⟨_, _, nv, vc, _, hrc, _, _, hvc, _⟩
    · subst hr
      cases hc
    · subst hr
      simp only [List.mem_singleton, Call.vkCreateSwapchainKHR.injEq] at hc
      exact hc.1
    · rw [hrc] at hc
      rcases List.mem_append.mp hc with hc | hc
      · simp only [List.mem_cons, Call.vkCreateSwapchainKHR.injEq, List.mem_singleton,
          reduceCtorEq, or_false, List.not_mem_nil] at hc
        exact hc.1
      · obtain ⟨img, res2, hv⟩ := hvc _ hc
        cases hv

/-- Witness for `rebuild_waits_destroys_then_creates`: the rebuild of the resized demo
state for 1024 x 768 begins with the device-idle wait. -/
theorem rebuild_waits_destroys_then_creates_witness :
    recreateSwapChainRelatedData demoResizedApp ⟨1024, 768⟩ (demoRebuild 200 3) =
      some demoRebuildRun ∧
    demoRebuildRun.calls.head? = some Call.vkDeviceWaitIdle :=
  ⟨by decide,
    let ⟨_, _, _, _, hcalls, _⟩ :=
      rebuild_waits_destroys_then_creates demoResizedApp ⟨1024, 768⟩ (demoRebuild 200 3)
        demoRebuildRun (by decide)
    by rw [hcalls]; rfl⟩

/-- C21: when `initializeVulkanCore` succeeds on an application whose in-flight image map
is still empty (as default-constructed) and whose semaphore and fence arrays have
`MAX_INFLIGHT_FRAMES` elements, then after the calls of the successful `createSwapChain`
and the command-pool creation it has issued exactly six creation calls, all successful:
for each of the 2 slots one image-available semaphore, one render-finished semaphore and
one fence created signaled; the three arrays hold the created handles; and the in-flight
image map has as many entries as there are swapchain images, every entry null. -/
theorem core_builds_ring_and_empty_image_map (s : VulkanApp) (env : InitEnv) (r : Run Bool)
    (h : initializeVulkanCore s env = some r) (hret : r.ret = true)
    (hmap : s._vk_inuse_fences = [])
    (ha : s._vk_image_available_sems.length = MAX_INFLIGHT_FRAMES)
    (hf : s._vk_render_finished_sems.length = MAX_INFLIGHT_FRAMES)
    (hfe : s._vk_inflight_fences.length = MAX_INFLIGHT_FRAMES) :
    (∃ rc : Run Bool, rc.ret = true ∧ AllKind CallKind.manage rc.calls ∧
      r.calls = rc.calls ++ [Call.vkCreateCommandPool VkResult.VK_SUCCESS,
        Call.vkCreateSemaphore VkResult.VK_SUCCESS, Call.vkCreateSemaphore VkResult.VK_SUCCESS,
        Call.vkCreateFence true VkResult.VK_SUCCESS,
        Call.vkCreateSemaphore VkResult.VK_SUCCESS, Call.vkCreateSemaphore VkResult.VK_SUCCESS,
        Call.vkCreateFence true VkResult.VK_SUCCESS]) ∧
    r.app._vk_image_available_sems = [env.available 0, env.available 1] ∧
    r.app._vk_render_finished_sems = [env.finished 0, env.finished 1] ∧
    r.app._vk_inflight_fences = [env.fence 0, env.fence 1] ∧
    r.app._vk_inuse_fences.length = r.app._vk_swapchain_imgs.length ∧
    (∀ fence ∈ r.app._vk_inuse_fences, fence = VK_NULL_HANDLE) := by
  have two : ∀ (l : List Handle) (x y : Handle), l.length = MAX_INFLIGHT_FRAMES →
      (l.set 0 x).set 1 y = [x, y] := by
    intro l x y hl
    match l, hl with
    | [_, _], _ => rfl
  unfold initializeVulkanCore at h
  split at h
  · simp only [Option.some.injEq] at h; subst h; cases hret
  · dsimp only at h
    split at h
    · simp at h
    · rename_i r1 h1
      split at h
      · simp only [Option.some.injEq] at h; subst h; cases hret
      · rename_i hr1
        split at h
        · simp only [Option.some.injEq] at h; subst h; cases hret
        · rename_i hpool
          split at h
          · simp only [Option.some.injEq] at h; subst h; cases hret
          · rename_i hr3
            simp only [Option.some.injEq] at h
            have hpool2 : env.cmd_pool_res = VkResult.VK_SUCCESS := (not_not.mp hpool).symm
            have hr3t : (createSyncObjects env 2 0
                { r1.app with _vk_graphics_cmd_pool := env.cmd_pool }
                (r1.calls ++ [Call.vkCreateCommandPool env.cmd_pool_res])).ret = true := by
              simpa using hr3
            obtain ⟨-, hsync⟩ := createSyncObjects_two env _ _ hr3t
            have hsync2 : createSyncObjects env MAX_INFLIGHT_FRAMES 0
                { r1.app with _vk_graphics_cmd_pool := env.cmd_pool }
                (r1.calls ++ [Call.vkCreateCommandPool env.cmd_pool_res]) = _ := hsync
            rw [hsync2] at h
            subst h
            have hs1 := createSwapChain_slotState h1
            have ea : r1.app._vk_image_available_sems = s._vk_image_available_sems := by
              unfold slotState at hs1
              simp only [Prod.mk.injEq] at hs1
              exact hs1.2.2.2.1
            have ef : r1.app._vk_render_finished_sems = s._vk_render_finished_sems := by
              unfold slotState at hs1
              simp only [Prod.mk.injEq] at hs1
              exact hs1.2.2.2.2.1
            have efe : r1.app._vk_inflight_fences = s._vk_inflight_fences :=
              slotState_inflight_fences hs1
            have ei : r1.app._vk_inuse_fences = s._vk_inuse_fences :=
              slotState_inuse_fences hs1
            dsimp only
            rw [ea, ef, efe, ei, hmap, two _ _ _ ha, two _ _ _ hf, two _ _ _ hfe, hpool2]
            refine ⟨⟨r1, by simpa using hr1, createSwapChain_kind h1, by simp⟩, rfl, rfl, rfl,
              ?_, ?_⟩
            · rw [resizeHandles_length]
            · intro fence hfence
              unfold resizeHandles at hfence
              simp only [List.take_nil, List.nil_append, List.length_nil, Nat.sub_zero] at hfence
              exact List.eq_of_mem_replicate hfence

/-- Witness for `core_builds_ring_and_empty_image_map`: the core start-up of the demo
platform from the default-constructed application creates the semaphores 10, 11, 20, 21,
the fences 30, 31, and an in-flight image map of three null entries. -/
theorem core_builds_ring_and_empty_image_map_witness :
    initializeVulkanCore construct demoInit = some demoCoreRun ∧
    demoCoreRun.ret = true ∧
    demoCoreRun.app._vk_image_available_sems = [10, 11] ∧
    demoCoreRun.app._vk_render_finished_sems = [20, 21] ∧
    demoCoreRun.app._vk_inflight_fences = [30, 31] ∧
    demoCoreRun.app._vk_inuse_fences = [0, 0, 0] ∧
    demoCoreRun.app._vk_inuse_fences.length = demoCoreRun.app._vk_swapchain_imgs.length :=
  ⟨by decide, by decide, by decide, by decide, by decide, by decide,
    (core_builds_ring_and_empty_image_map construct demoInit demoCoreRun (by decide)
      (by decide) rfl rfl rfl rfl).2.2.2.2.1⟩

/-- C22: after a successful `initialize` of a freshly constructed application, along any
run of the main loop in which the driver returns a non-null handle from every successful
command-buffer allocation: each `render` call either issues no command-buffer free or
allocation at all, or frees the command buffer `c0` found in the slot of the current ring
index (if that is not null) immediately before it allocates the new one, with no other
free or allocation in the call; and at every point of the sequence of driver calls the
number of command buffers allocated by `render` and not yet freed is at most
MAX_INFLIGHT_FRAMES. -/
theorem frame_command_buffers_bounded (mode : DemoMode) (ienv : InitEnv) (start : Run Bool)
    (inputs : List LoopInput) (final : VulkanApp) (runs : List (Run Bool))
    (hinit : initializeApp construct mode ienv = some start) (hok : start.ret = true)
    (hloop : mainLoop start.app inputs = some (final, runs))
    (hdrv : ∀ input ∈ inputs, input.frame.alloc_res = VkResult.VK_SUCCESS →
      input.frame.alloc_cmd ≠ VK_NULL_HANDLE) :
    (∀ r ∈ runs, ∃ (s1 : VulkanApp) (env : FrameEnv), render s1 env = some r ∧
      ((∀ c ∈ r.calls, CmdNeutral c) ∨
        ∃ (c0 : Handle) (pre tail : List Call),
          s1._vk_cmd_buffers[s1._current_frame]? = some c0 ∧
          (∀ c ∈ pre, CmdNeutral c) ∧ (∀ c ∈ tail, CmdNeutral c) ∧
          r.calls = pre ++
            ((if c0 ≠ VK_NULL_HANDLE then [Call.vkFreeCommandBuffers c0] else []) ++
              [Call.vkAllocateCommandBuffers env.alloc_res] ++ tail))) ∧
    (∀ p : List Call, p <+: (runs.map (fun r => r.calls)).flatten →
      liveCmdBuffers p ≤ MAX_INFLIGHT_FRAMES) := by
  constructor
  · intro r hr
    obtain ⟨s1, input, -, h1⟩ := mainLoop_runs_render inputs start.app final runs hloop r hr
    refine ⟨s1, input.frame, h1, ?_⟩
    obtain ⟨-, -, -, ⟨hneu, -⟩ | ⟨c0, pre, tail, hc0, hpre, htail, hcalls, -⟩⟩ :=
      render_cmd_shape h1
    · exact Or.inl hneu
    · exact Or.inr ⟨c0, pre, tail, hc0, hpre, htail, hcalls⟩
  · intro p hp
    have hlen : start.app._vk_cmd_buffers.length = MAX_INFLIGHT_FRAMES := by
      have := (initializeApp_lengths hinit).2 hok
      unfold slotLengths at this
      simp only [Prod.mk.injEq] at this
      exact this.2.2
    have h1 := foldl_le_peakCmdBuffers _ 0 p hp
    have h2 := mainLoop_cmd_account inputs start.app final runs 0 hloop hdrv (Nat.zero_le _)
    rw [hlen] at h2
    exact h1.trans h2

/-- Witness for `frame_command_buffers_bounded`: the three demo frames. -/
theorem frame_command_buffers_bounded_witness :
    (∀ input ∈ demoInputs, input.frame.alloc_res = VkResult.VK_SUCCESS →
      input.frame.alloc_cmd ≠ VK_NULL_HANDLE) ∧
    liveCmdBuffers (demoLoop.2.map (fun r => r.calls)).flatten = 2 ∧
    (∀ p : List Call, p <+: (demoLoop.2.map (fun r => r.calls)).flatten →
      liveCmdBuffers p ≤ MAX_INFLIGHT_FRAMES) :=
  ⟨by decide, by decide,
    (frame_command_buffers_bounded DemoMode.MODEL demoInit demoStart demoInputs demoLoop.1
      demoLoop.2 (by decide) (by decide) (by decide) (by decide)).2⟩

/-- C23: in every state reached from `initialize` of a default-constructed application
through any sequence of `render` calls, resize notifications and rebuilds (calls that fail
included, `ok` telling whether `initialize` itself succeeded), the ring index
`_current_frame` is strictly less than `MAX_INFLIGHT_FRAMES`; it is therefore within the
bounds of the fence and semaphore arrays, which have `MAX_INFLIGHT_FRAMES` elements, and,
once `initialize` has succeeded, within the bounds of the uniform-buffer, descriptor-set
and command-buffer arrays, which then have `MAX_INFLIGHT_FRAMES` elements as well. -/
theorem ring_index_within_slot_arrays (ok : Bool) (s : VulkanApp) (h : Started ok s) :
    s._current_frame < MAX_INFLIGHT_FRAMES ∧
    s._current_frame < s._vk_inflight_fences.length ∧
    s._current_frame < s._vk_image_available_sems.length ∧
    s._current_frame < s._vk_render_finished_sems.length ∧
    (ok = true →
      s._current_frame < s._vk_mvp_buffers.length ∧
      s._current_frame < s._vk_desc_sets.length ∧
      s._current_frame < s._vk_cmd_buffers.length) := by
  have key : s._current_frame < MAX_INFLIGHT_FRAMES ∧
      ringLengths s = (MAX_INFLIGHT_FRAMES, MAX_INFLIGHT_FRAMES, MAX_INFLIGHT_FRAMES) ∧
      (ok = true → slotLengths s =
        (MAX_INFLIGHT_FRAMES, MAX_INFLIGHT_FRAMES, MAX_INFLIGHT_FRAMES)) := by
    induction h with
    | init mode env r hinit =>
      obtain ⟨e1, e2⟩ := initializeApp_lengths hinit
      refine ⟨?_, e1, e2⟩
      rw [initializeApp_current_frame hinit]
      decide
    | render ok s env r _ hr ih =>
      obtain ⟨i1, i2, i3⟩ := ih
      obtain ⟨c1, c2, c3, c4⟩ := render_cmd_shape hr
      refine ⟨?_, c3.trans i2, fun hok => ?_⟩
      · rw [render_current_frame hr]
        split
        · exact nextFrame_lt _
        · exact i1
      · have i4 := i3 hok
        unfold slotLengths at i4 ⊢
        simp only [Prod.mk.injEq] at i4 ⊢
        refine ⟨by rw [c1]; exact i4.1, by rw [c2]; exact i4.2.1, ?_⟩
        rcases c4 with ⟨-, e⟩ | ⟨c0, pre, tail, -, -, -, -, ⟨-, e⟩ | ⟨-, e⟩⟩
        · rw [e]; exact i4.2.2
        · rw [e, List.length_set]; exact i4.2.2
        · rw [e, List.length_set]; exact i4.2.2
    | notify ok s e _ ih => exact ih
    | rebuild ok s e env r _ hr ih =>
      obtain ⟨i1, i2, i3⟩ := ih
      have hs := recreateSwapChainRelatedData_slotState hr
      refine ⟨by rw [slotState_current_frame hs]; exact i1,
        (ringLengths_of_slotState hs).trans i2,
        fun hok => (slotLengths_of_slotState hs).trans (i3 hok)⟩
  obtain ⟨k1, k2, k3⟩ := key
  unfold ringLengths at k2
  simp only [Prod.mk.injEq] at k2
  refine ⟨k1, by rw [k2.2.2]; exact k1, by rw [k2.1]; exact k1, by rw [k2.2.1]; exact k1,
    fun hok => ?_⟩
  have k4 := k3 hok
  unfold slotLengths at k4
  simp only [Prod.mk.injEq] at k4
  exact ⟨by rw [k4.1]; exact k1, by rw [k4.2.1]; exact k1, by rw [k4.2.2]; exact k1⟩

/-- Witness for `ring_index_within_slot_arrays`: the demo state after its first rendered
frame has ring index 1, within the two elements of each per-slot array. -/
theorem ring_index_within_slot_arrays_witness :
    Started true demoRenderedApp ∧
    demoRenderedApp._current_frame = 1 ∧
    demoRenderedApp._current_frame < MAX_INFLIGHT_FRAMES ∧
    demoRenderedApp._current_frame < demoRenderedApp._vk_cmd_buffers.length :=
  ⟨demoRenderedApp_started, by decide,
    (ring_index_within_slot_arrays true demoRenderedApp demoRenderedApp_started).1,
    ((ring_index_within_slot_arrays true demoRenderedApp demoRenderedApp_started).2.2.2.2
      rfl).2.2⟩

/-- C24 (the code at the failing input): the demo state, after a frame whose present-time
rebuild creates four swapchain images where there were three, is reachable from a
successful `initialize`; it holds four images and four framebuffers, but its in-flight
image map still has three entries. An acquire that returns the index 3, below the image
count, makes `render` subscript the map out of its bounds: the next `render` call has no
defined outcome. -/
theorem grown_swapchain_overruns_image_map :
    Reachable demoGrownApp ∧
    demoGrownApp._vk_swapchain_imgs.length = 4 ∧
    demoGrownApp._vk_frame_buffers.length = 4 ∧
    demoGrownApp._vk_inuse_fences.length = 3 ∧
    (demoFrame 3 501).acquire_res = VkResult.VK_SUCCESS ∧
    (demoFrame 3 501).acquire_img = some 3 ∧
    demoGrownApp._vk_inuse_fences[3]? = none ∧
    render demoGrownApp (demoFrame 3 501) = none :=
  ⟨ReachableWith.render demoApp
      { demoSuboptimalFrame with present_rebuild := demoLargerRebuild 200 }
      ((render demoApp
        { demoSuboptimalFrame with present_rebuild := demoLargerRebuild 200 }).getD
        ⟨demoApp, [], false⟩)
      (ReachableWith.init DemoMode.MODEL demoInit demoStart (by decide) (by decide))
      trivial trivial (by decide),
    by decide, by decide, by decide, by decide, by decide, by decide, by decide⟩

/-- C25: for every `render` call that reaches PRESENT (a present call is among its calls)
while, in the state `base` the frame runs in (the entry state, or the rebuilt state when
the acquire reported out-of-date), the tracked target extent differs from the swapchain
extent, the present call is followed by one run of the rebuild branch with the tracked
target extent, the ring index is advanced and `render` returns success, whatever result
`env.present_res` the present call returned: a present error such as a lost device is not
reported to the caller. -/
theorem mismatched_extent_hides_present_error (s : VulkanApp) (env : FrameEnv) (r : Run Bool)
    (h : render s env = some r) (sc : Handle) (idx : Nat) (sem : Handle) (res : VkResult)
    (hp : Call.vkQueuePresentKHR sc idx sem res ∈ r.calls) (base : VulkanApp)
    (hbase : (env.acquire_res ≠ VkResult.VK_ERROR_OUT_OF_DATE_KHR ∧ base = s) ∨
      (env.acquire_res = VkResult.VK_ERROR_OUT_OF_DATE_KHR ∧ ∃ rb1,
        recreateSwapChainRelatedData s s._vk_swapchain_ext env.acquire_rebuild = some rb1 ∧
        base = rb1.app))
    (hmis : base._target_frame_buffer_ext.width ≠ base._vk_swapchain_ext.width ∨
      base._target_frame_buffer_ext.height ≠ base._vk_swapchain_ext.height) :
    res = env.present_res ∧
    r.ret = true ∧
    ∃ (m cb : List Handle) (before : List Call) (rb : Run Unit) (finished : Handle),
      recreateSwapChainRelatedData { base with _vk_inuse_fences := m, _vk_cmd_buffers := cb }
        base._target_frame_buffer_ext env.present_rebuild = some rb ∧
      r.calls = before ++
        Call.vkQueuePresentKHR base._vk_swapchain (env.acquire_img.getD 0) finished
          env.present_res :: rb.calls ∧
      (∀ c ∈ before, c.kind ≠ CallKind.present) ∧
      r.app = advance rb.app := by
  obtain ⟨fence, available, base2, mgmt, inuse, mvp, cb, rec, av, fin, rp, hmg, hrec, hb2, -,
    hrp, rfl⟩ := render_reaches_present h hp
  have hsame : base2 = base := by
    rcases hb2 with ⟨hok, rfl, -⟩ | ⟨hood, rb2, hrb2, rfl, -⟩
    · rcases hbase with ⟨-, rfl⟩ | ⟨hood, -⟩
      · rfl
      · rcases hok with hok | hok <;> rw [hok] at hood <;> cases hood
    · rcases hbase with ⟨hne, -⟩ | ⟨-, rb1, hrb1, rfl⟩
      · exact absurd hood hne
      · rw [hrb2] at hrb1
        rw [Option.some.inj hrb1]
  subst hsame
  have hbefore : ∀ c ∈ [Call.vkWaitForFences fence,
      Call.vkAcquireNextImageKHR s._vk_swapchain available env.acquire_res] ++ mgmt ++
      ((if inuse ≠ VK_NULL_HANDLE then [Call.vkWaitForFences inuse] else []) ++
        [Call.vkMapMemory mvp.memory, Call.memcpy mvp.memory, Call.vkUnmapMemory mvp.memory] ++
        rec ++ [Call.vkResetFences fence,
          Call.vkQueueSubmit av env.alloc_cmd fin fence env.submit_res]),
      c.kind ≠ CallKind.present := by
    intro c hc hk
    simp only [List.append_assoc, List.mem_append] at hc
    rcases hc with hc | hc | hc | hc | hc | hc
    · simp only [List.mem_cons, List.mem_singleton, List.not_mem_nil, or_false] at hc
      rcases hc with rfl | rfl <;> cases hk
    · rw [hmg c hc] at hk; cases hk
    · split_ifs at hc
      · simp only [List.mem_singleton] at hc
        subst hc; cases hk
      · cases hc
    · simp only [List.mem_cons, List.mem_singleton, List.not_mem_nil, or_false] at hc
      rcases hc with rfl | rfl | rfl <;> cases hk
    · rw [hrec c hc] at hk; cases hk
    · simp only [List.mem_cons, List.mem_singleton, List.not_mem_nil, or_false] at hc
      rcases hc with rfl | rfl <;> cases hk
  obtain ⟨finished, -, h3 | h3 | h3⟩ := renderPresent_inv hrp
  · obtain ⟨-, rb, hrb, rfl⟩ := h3
    refine ⟨?_, rfl, _, cb, _, rb, finished, hrb, rfl, hbefore, rfl⟩
    dsimp only at hp
    rcases List.mem_append.mp hp with hp | hp
    · exact absurd rfl (hbefore _ hp)
    · rcases List.mem_cons.mp hp with hp | hp
      · injection hp with _ _ _ e4
      · have := recreateSwapChainRelatedData_kind hrb _ hp
        cases this
  · exact absurd (Or.inr (Or.inr hmis)) h3.1
  · exact absurd (Or.inr (Or.inr hmis)) h3.1

/-- Witness for `mismatched_extent_hides_present_error`: the demo state after a resize
notification to 1024 x 768, in a frame whose present reports a lost device, rebuilds and
returns success. -/
theorem mismatched_extent_hides_present_error_witness :
    render demoResizedApp demoLostPresentFrame = some demoLostPresentRun ∧
    Call.vkQueuePresentKHR 100 0 20 VkResult.VK_ERROR_DEVICE_LOST ∈ demoLostPresentRun.calls ∧
    demoResizedApp._target_frame_buffer_ext.width ≠ demoResizedApp._vk_swapchain_ext.width ∧
    demoLostPresentFrame.present_res = VkResult.VK_ERROR_DEVICE_LOST ∧
    demoLostPresentRun.ret = true :=
  ⟨by decide, by decide, by decide, rfl,
    (mismatched_extent_hides_present_error demoResizedApp demoLostPresentFrame
      demoLostPresentRun (by decide) 100 0 20 VkResult.VK_ERROR_DEVICE_LOST (by decide)
      demoResizedApp (Or.inl ⟨by decide, rfl⟩) (Or.inl (by decide))).2.1⟩

/-- C26: after every `createSwapChain` call that gets past the creation of the swapchain
object, the tracked target extent and the swapchain extent both are the extent derived for
the new swapchain, whatever target extent had been notified before; the remaining steps of
a rebuild (colour image, depth image, framebuffers) keep both; and in any state `t` holding
these two extents the present-time extent-mismatch condition is false, so that a `render`
call entered in `t` whose acquire is not out-of-date and whose present result is neither
out-of-date nor suboptimal issues no swapchain-management call: no second rebuild runs
without a new notification or a stale-surface result. -/
theorem created_swapchain_resets_target_extent (s : VulkanApp) (frame_buffer_ext : VkExtent2D)
    (env : SwapChainEnv) (r : Run Bool) (h : createSwapChain s frame_buffer_ext env = some r)
    (ext : VkExtent2D) (cnt : Nat) (fmt : VkSurfaceFormatKHR) (mode : Nat)
    (hpast : Call.vkCreateSwapchainKHR ext cnt fmt mode VkResult.VK_SUCCESS ∈ r.calls) :
    r.app._target_frame_buffer_ext = selectExtent env.props.caps frame_buffer_ext ∧
    r.app._vk_swapchain_ext = selectExtent env.props.caps frame_buffer_ext ∧
    r.app._target_frame_buffer_ext = r.app._vk_swapchain_ext ∧
    (∀ (color : ImageEnv) (depth_fmt : Nat) (depth : ImageEnv) (fb_res : Nat → VkResult)
        (fb : Nat → Handle) (r4 : Run Bool),
      createFrameBuffers
        (createDepthImage (createColorImage r.app color).app depth_fmt depth).app fb_res fb =
          some r4 →
      r4.app._target_frame_buffer_ext = r.app._target_frame_buffer_ext ∧
      r4.app._vk_swapchain_ext = r.app._vk_swapchain_ext) ∧
    (∀ t : VulkanApp, t._target_frame_buffer_ext = r.app._target_frame_buffer_ext →
      t._vk_swapchain_ext = r.app._vk_swapchain_ext →
      ¬ (t._target_frame_buffer_ext.width ≠ t._vk_swapchain_ext.width ∨
        t._target_frame_buffer_ext.height ≠ t._vk_swapchain_ext.height) ∧
      ∀ (fenv : FrameEnv) (r2 : Run Bool), render t fenv = some r2 →
        fenv.acquire_res ≠ VkResult.VK_ERROR_OUT_OF_DATE_KHR →
        fenv.present_res ≠ VkResult.VK_ERROR_OUT_OF_DATE_KHR →
        fenv.present_res ≠ VkResult.VK_SUBOPTIMAL_KHR →
        ∀ c ∈ r2.calls, c.kind ≠ CallKind.manage) := by
  have hte : r.app._target_frame_buffer_ext = selectExtent env.props.caps frame_buffer_ext ∧
      r.app._vk_swapchain_ext = selectExtent env.props.caps frame_buffer_ext := by
    obtain ⟨f, _, hcase⟩ := createSwapChain_inv h
    rcases hcase with ⟨_, hr⟩ | ⟨_, hres, hr⟩ | ⟨_, _, nv, vc, happ, _, _, _, _, _⟩
    · subst hr
      cases hpast
    · subst hr
      simp only [List.mem_singleton, Call.vkCreateSwapchainKHR.injEq] at hpast
      exact absurd hpast.2.2.2.2.symm hres
    · rw [happ]
      exact ⟨rfl, rfl⟩
  refine ⟨hte.1, hte.2, hte.1.trans hte.2.symm, ?_, ?_⟩
  · intro color depth_fmt depth fb_res fb r4 h4
    have e4 := createFrameBuffers_extentState h4
    rw [createDepthImage_extentState, createColorImage_extentState] at e4
    unfold extentState at e4
    simp only [Prod.mk.injEq] at e4
    exact e4
  · intro t ht1 ht2
    have heq : t._target_frame_buffer_ext = t._vk_swapchain_ext := by
      rw [ht1, ht2, hte.1, hte.2]
    refine ⟨?_, ?_⟩
    · rw [heq]
      simp
    · intro fenv r2 hr2 ha hp1 hp2
      exact render_without_rebuild hr2 ha heq hp1 hp2

/-- Witness for `created_swapchain_resets_target_extent`: the demo state was notified of
a target of 1024 x 768; the swapchain created for that request on a surface whose current
extent is 800 x 600 sets both the swapchain extent and the tracked target to 800 x 600. -/
theorem created_swapchain_resets_target_extent_witness :
    (cleanupSwapChainRelatedData demoResizedApp).app._target_frame_buffer_ext = ⟨1024, 768⟩ ∧
    createSwapChain (cleanupSwapChainRelatedData demoResizedApp).app ⟨1024, 768⟩
      (demoSwapChain 200 3) = some demoRecreatedSwapChainRun ∧
    Call.vkCreateSwapchainKHR ⟨800, 600⟩ 3 ⟨50, 0⟩ VK_PRESENT_MODE_FIFO_KHR VkResult.VK_SUCCESS
      ∈ demoRecreatedSwapChainRun.calls ∧
    demoRecreatedSwapChainRun.app._target_frame_buffer_ext =
      demoRecreatedSwapChainRun.app._vk_swapchain_ext ∧
    demoRecreatedSwapChainRun.app._vk_swapchain_ext = ⟨800, 600⟩ :=
  ⟨by decide, by decide, by decide,
    (created_swapchain_resets_target_extent (cleanupSwapChainRelatedData demoResizedApp).app
      ⟨1024, 768⟩ (demoSwapChain 200 3) demoRecreatedSwapChainRun (by decide) ⟨800, 600⟩ 3
      ⟨50, 0⟩ VK_PRESENT_MODE_FIFO_KHR (by decide)).2.2.1,
    by decide⟩

/-- C27: for every surface capability set with `maxImageCount = 0` and
`minImageCount >= 1`, whatever the extents, formats (at least one being advertised) and
present modes are, `createSwapChain` selects an image count of 0 and returns failure
through the `swapchain_img_cnt < MAX_INFLIGHT_FRAMES` check: no creation call is issued
and the state is left unchanged. -/
theorem unlimited_image_count_is_rejected (s : VulkanApp) (frame_buffer_ext : VkExtent2D)
    (env : SwapChainEnv) (hf : env.props.formats ≠ [])
    (hmax : env.props.caps.maxImageCount = 0) (hmin : 1 ≤ env.props.caps.minImageCount) :
    selectImageCount env.props.caps = 0 ∧
    selectImageCount env.props.caps < MAX_INFLIGHT_FRAMES ∧
    createSwapChain s frame_buffer_ext env = some ⟨s, [], false⟩ := by
  have hcnt : selectImageCount env.props.caps = 0 := by
    unfold selectImageCount
    dsimp only
    rw [hmax]
    split_ifs with h
    · rfl
    · by_contra hne
      exact h ⟨hmin, Nat.pos_of_ne_zero hne⟩
  obtain ⟨fmt, hfmt⟩ := selectSurfaceFormat_isSome hf
  have hlt : selectImageCount env.props.caps < MAX_INFLIGHT_FRAMES := by
    rw [hcnt]; decide
  refine ⟨hcnt, hlt, ?_⟩
  simp only [createSwapChain, hfmt, if_pos hlt]

/-- Witness for `unlimited_image_count_is_rejected`: a surface asking for at least two
images with no upper limit. -/
theorem unlimited_image_count_is_rejected_witness :
    demoUnlimitedSwapChain.props.formats ≠ [] ∧
    demoUnlimitedSwapChain.props.caps.maxImageCount = 0 ∧
    1 ≤ demoUnlimitedSwapChain.props.caps.minImageCount ∧
    selectImageCount demoUnlimitedSwapChain.props.caps = 0 ∧
    createSwapChain demoApp ⟨800, 600⟩ demoUnlimitedSwapChain = some ⟨demoApp, [], false⟩ :=
  ⟨by decide, by decide, by decide,
    (unlimited_image_count_is_rejected demoApp ⟨800, 600⟩ demoUnlimitedSwapChain (by decide)
      (by decide) (by decide)).1,
    (unlimited_image_count_is_rejected demoApp ⟨800, 600⟩ demoUnlimitedSwapChain (by decide)
      (by decide) (by decide)).2.2⟩

/-- C28 (the code at the failing input): the first cleanup of the demo state releases,
among others, the swapchain 100, the depth attachment memory 151 and the depth attachment
image 150; after it the state still holds the swapchain handle 100 and the depth
attachment handles (150, 151), while the colour attachment handles are cleared; a second
cleanup run right after the first passes the three released handles again to
`vkDestroySwapchainKHR`, `vkFreeMemory` and `vkDestroyImage`. Two cleanups in a row
without a new swapchain in between do occur: the frame whose present-time rebuild fails to
create the swapchain has destroyed the swapchain 100 and keeps its handle, and the
`terminate` that follows destroys it again. -/
theorem second_cleanup_releases_stale_handles :
    Call.vkDestroySwapchainKHR 100 ∈ (cleanupSwapChainRelatedData demoApp).calls ∧
    Call.vkFreeMemory 151 ∈ (cleanupSwapChainRelatedData demoApp).calls ∧
    Call.vkDestroyImage 150 ∈ (cleanupSwapChainRelatedData demoApp).calls ∧
    (cleanupSwapChainRelatedData demoApp).app._vk_swapchain = 100 ∧
    (cleanupSwapChainRelatedData demoApp).app._vk_depth_image = ⟨150, 151⟩ ∧
    (cleanupSwapChainRelatedData demoApp).app._vk_color_image =
      ⟨VK_NULL_HANDLE, VK_NULL_HANDLE⟩ ∧
    (cleanupSwapChainRelatedData (cleanupSwapChainRelatedData demoApp).app).calls =
      [Call.vkDestroySwapchainKHR 100, Call.vkFreeMemory 151, Call.vkDestroyImage 150] ∧
    render demoApp demoFailedRebuildFrame = some demoFailedRebuildRun ∧
    Call.vkDestroySwapchainKHR 100 ∈ demoFailedRebuildRun.calls ∧
    Call.vkDestroySwapchainKHR 100 ∈ (terminate demoFailedRebuildRun.app).calls := by
  decide

end VulkanApp

/-- C29: for all integers `width, height >= 1`, `getMipLevelCount(width, height)` returns
the number `n = floor(log2(max(width, height))) + 1`, that is the `n >= 1` with
`2^(n-1) <= max(width, height) < 2^n`; the halving loop of `generateMipmaps` run with
`mip_count = n` visits `n` mip levels, every one with both dimensions at least 1, and the
last one of extent exactly 1 x 1. -/
theorem mip_chain_ends_at_one_by_one (width height : Nat) (hw : 1 ≤ width)
    (hh : 1 ≤ height) :
    ∃ n, getMipLevelCount width height = some n ∧
      n = Nat.log 2 (max width height) + 1 ∧
      2 ^ (n - 1) ≤ max width height ∧ max width height < 2 ^ n ∧
      (generateMipmaps width height n).length = n ∧
      (generateMipmaps width height n).getLast? = some (1, 1) ∧
      ∀ e ∈ generateMipmaps width height n, 1 ≤ e.1 ∧ 1 ≤ e.2 := by
  have hm : max width height ≠ 0 := by
    have : width ≤ max width height := le_max_left _ _
    omega
  have hlow : 2 ^ Nat.log 2 (max width height) ≤ max width height :=
    Nat.pow_log_le_self 2 hm
  have hhigh : max width height < 2 ^ (Nat.log 2 (max width height) + 1) :=
    Nat.lt_pow_succ_log_self (by decide) _
  refine ⟨Nat.log 2 (max width height) + 1, by simp [getMipLevelCount, hm], rfl, hlow, hhigh,
    ?_, ?_, ?_⟩
  · simp [generateMipmaps, generateMipmapsLoop_length]
  · unfold generateMipmaps
    rw [Nat.add_sub_cancel, generateMipmapsLoop_getLast,
      nextMipExtent_iterate width height hw hh]
    have hpos : 0 < 2 ^ Nat.log 2 (max width height) := Nat.pos_pow_of_pos _ (by decide)
    have hle : ∀ d, d ≤ max width height → d / 2 ^ Nat.log 2 (max width height) ≤ 1 := by
      intro d hd
      have h1 : d / 2 ^ Nat.log 2 (max width height) <
          2 := by
        rw [Nat.div_lt_iff_lt_mul hpos]
        calc d ≤ max width height := hd
          _ < 2 ^ (Nat.log 2 (max width height) + 1) := hhigh
          _ = 2 * 2 ^ Nat.log 2 (max width height) := by rw [pow_succ, Nat.mul_comm]
      omega
    have h1 := hle width (le_max_left _ _)
    have h2 := hle height (le_max_right _ _)
    generalize width / 2 ^ Nat.log 2 (max width height) = a at h1 ⊢
    generalize height / 2 ^ Nat.log 2 (max width height) = b at h2 ⊢
    congr 1
    ext
    · dsimp only
      split_ifs <;> omega
    · dsimp only
      split_ifs <;> omega
  · intro e he
    unfold generateMipmaps at he
    rcases List.mem_cons.mp he with rfl | he
    · exact ⟨hw, hh⟩
    · exact generateMipmapsLoop_pos _ _ e he

/-- Witness for `mip_chain_ends_at_one_by_one`: an image of 800 x 600 has 10 mip levels. -/
theorem mip_chain_ends_at_one_by_one_witness :
    (1 ≤ 800 ∧ 1 ≤ 600) ∧
    getMipLevelCount 800 600 = some 10 ∧
    generateMipmaps 800 600 10 =
      [(800, 600), (400, 300), (200, 150), (100, 75), (50, 37), (25, 18), (12, 9), (6, 4),
        (3, 2), (1, 1)] ∧
    ∃ n, getMipLevelCount 800 600 = some n ∧
      n = Nat.log 2 (max 800 600) + 1 ∧
      2 ^ (n - 1) ≤ max 800 600 ∧ max 800 600 < 2 ^ n ∧
      (generateMipmaps 800 600 n).length = n ∧
      (generateMipmaps 800 600 n).getLast? = some (1, 1) ∧
      ∀ e ∈ generateMipmaps 800 600 n, 1 ≤ e.1 ∧ 1 ≤ e.2 :=
  ⟨⟨by decide, by decide⟩,
    by
      have h : Nat.log 2 800 = 9 :=
        Nat.log_eq_of_pow_le_of_lt_pow (by norm_num) (by norm_num)
      simp [getMipLevelCount, h],
    by decide,
    mip_chain_ends_at_one_by_one 800 600 (by decide) (by decide)⟩

namespace VulkanApp

end VulkanApp

/-- C30: for every memory-property table whose `memoryTypeCount` lies within the
`memoryTypes` array of at most `VK_MAX_MEMORY_TYPES` entries, every type mask
`possible_types` and all required `property_flags`, `findVkDeviceMemoryTypeIndex` returns
a value: if some index below `memoryTypeCount` suits the request (its bit of
`possible_types` is set and the flags of the type include all of `property_flags`), the
value is the least such index; and the value is `UINT32_MAX` if and only if no such index
exists. -/
theorem find_memory_type_index_least (mem_props : VkPhysicalDeviceMemoryProperties)
    (possible_types property_flags : Nat)
    (hcount : mem_props.memoryTypeCount ≤ mem_props.memoryTypes.length)
    (hlen : mem_props.memoryTypes.length ≤ VK_MAX_MEMORY_TYPES) :
    ∃ res, findVkDeviceMemoryTypeIndex mem_props possible_types property_flags = some res ∧
      ((∃ idx, idx < mem_props.memoryTypeCount ∧
          MemoryTypeSuits mem_props possible_types property_flags idx) →
        res < mem_props.memoryTypeCount ∧
        MemoryTypeSuits mem_props possible_types property_flags res ∧
        ∀ j, j < res → ¬ MemoryTypeSuits mem_props possible_types property_flags j) ∧
      (res = UINT32_MAX ↔
        ¬ ∃ idx, idx < mem_props.memoryTypeCount ∧
          MemoryTypeSuits mem_props possible_types property_flags idx) := by
  obtain ⟨res, hres, hcase⟩ := findVkDeviceMemoryTypeIndexLoop_spec mem_props possible_types
    property_flags hlen mem_props.memoryTypeCount 0 (by omega)
  refine ⟨res, hres, ?_⟩
  have hsmall : mem_props.memoryTypeCount < UINT32_MAX := by
    unfold VK_MAX_MEMORY_TYPES at hlen
    unfold UINT32_MAX
    omega
  rcases hcase with ⟨hmax, hnone⟩ | ⟨-, h2, h3, h4⟩
  · have hno : ¬ ∃ idx, idx < mem_props.memoryTypeCount ∧
        MemoryTypeSuits mem_props possible_types property_flags idx := by
      rintro ⟨idx, hlt, hs⟩
      exact hnone idx (Nat.zero_le _) (by omega) hs
    exact ⟨fun h => absurd h hno, fun _ => hno, fun _ => hmax⟩
  · have hlt : res < mem_props.memoryTypeCount := by omega
    refine ⟨fun _ => ⟨hlt, h3, fun j hj => h4 j (Nat.zero_le _) hj⟩, fun hmax => ?_,
      fun hno => absurd ⟨res, hlt, h3⟩ hno⟩
    omega

/-- Witness for `find_memory_type_index_least`: among a device-local type (flags 1), a
host-visible coherent type (flags 6) and a host-visible coherent cached type (flags 14),
a request for the flags 6 among the types 1 and 2 gets the index 1. -/
theorem find_memory_type_index_least_witness :
    demoMemoryProperties.memoryTypeCount ≤ demoMemoryProperties.memoryTypes.length ∧
    demoMemoryProperties.memoryTypes.length ≤ VK_MAX_MEMORY_TYPES ∧
    findVkDeviceMemoryTypeIndex demoMemoryProperties 6 6 = some 1 ∧
    ∃ res, findVkDeviceMemoryTypeIndex demoMemoryProperties 6 6 = some res ∧
      ((∃ idx, idx < demoMemoryProperties.memoryTypeCount ∧
          MemoryTypeSuits demoMemoryProperties 6 6 idx) →
        res < demoMemoryProperties.memoryTypeCount ∧
        MemoryTypeSuits demoMemoryProperties 6 6 res ∧
        ∀ j, j < res → ¬ MemoryTypeSuits demoMemoryProperties 6 6 j) ∧
      (res = UINT32_MAX ↔
        ¬ ∃ idx, idx < demoMemoryProperties.memoryTypeCount ∧
          MemoryTypeSuits demoMemoryProperties 6 6 idx) :=
  ⟨by decide, by decide, by decide,
    find_memory_type_index_least demoMemoryProperties 6 6 (by decide) (by decide)⟩

namespace VulkanApp
end VulkanApp

end sb
